import Mathlib

/-!
# Verification of the gold-transaction settlement engine

Shallow embedding of the event-driven settlement and reconciliation engine of
the `gold-transaction` backend: the Stripe webhook event processor
(`routes/checkout.ts`), the subscription synchronization service
(`services/subscriptionSync.ts`), the withdrawal settlement transaction
(`services/withdrawalService.ts`) and the withdrawal-request creation handler
(`controllers/withdrawalRequestController.ts`), together with the Mongoose
data model (`models/Order.ts`, `models/Subscription.ts`, `models/User.ts`,
`models/WithdrawalRequest.ts`, `models/MetalPrice.ts`).

Modelling conventions:
* JavaScript numbers are modelled as exact rationals (`ℚ`); the algorithms
  only compare, add, multiply and divide, and every claim under scrutiny is
  about the comparison/update structure, not float rounding.
* Mongoose documents are Lean structures; a collection is a `List`;
  `Model.findOne`/`findById` is `List.find?`; `doc.save()` replaces the first
  element with the same `id`.
* Fields that are optional in the schema are `Option`s.  An update that
  assigns a possibly-`undefined` value to an optional path stores the
  `Option` as given (mongoose unsets the path on `undefined`); required
  paths (`amount`, `amountInMinor`, `currency`, statuses) are only
  overwritten when the incoming value is present, since unsetting a required
  path would fail schema validation and abort the save.
* `Record<string, string>` metadata is modelled by a structure holding
  exactly the keys the embedded code reads; values of numeric keys are
  carried as their parsed rational (a non-numeric string, whose `Number`
  conversion is `NaN`, is modelled as absent).
* Calls to the Stripe SDK are modelled by an explicit oracle
  (`StripeOracle`); a `none`/empty answer stands for a thrown/failed call,
  which the source catches at each call site.
-/

/-- `MetalType` from `models/Subscription.ts`. -/
inductive Metal
  | gold
  | silver
deriving DecidableEq, Repr

/-- `UnitType` from `models/Subscription.ts` (`'oz' | 'g'`). -/
inductive UnitType
  | g
  | oz
deriving DecidableEq, Repr

/-- `OrderStatus` from `models/Order.ts`. -/
inductive OrderStatus
  | pending
  | paid
  | cancelled
  | refunded
deriving DecidableEq, Repr

/-- `PaymentStatus` from `models/Order.ts`. -/
inductive PaymentStatus
  | pending
  | requires_payment_method
  | requires_action
  | processing
  | succeeded
  | failed
  | refunded
deriving DecidableEq, Repr

/-- `InvoiceStatus` from `models/Order.ts` (`'open'` and `'void'` renamed to
avoid Lean keywords). -/
inductive InvoiceStatus
  | none
  | draft
  | openInvoice
  | paid
  | voidInvoice
  | uncollectible
deriving DecidableEq, Repr

/-- `OrderType` from `models/Order.ts`. -/
inductive OrderType
  | subscription
  | one_time
deriving DecidableEq, Repr

/-- `SubscriptionStatus` from `models/Subscription.ts`. -/
inductive SubscriptionStatus
  | pending_payment
  | active
  | trialing
  | canceling
  | canceled
  | past_due
  | unpaid
  | incomplete
  | incomplete_expired
deriving DecidableEq, Repr

/-- `WithdrawalRequestStatus` from `models/WithdrawalRequest.ts`. -/
inductive WithdrawalStatus
  | pending
  | in_review
  | approved
  | processing
  | rejected
  | completed
deriving DecidableEq, Repr

/-- `SubscriptionConfig` from `models/Order.ts`: the denormalized plan
snapshot stored on subscription-type orders.  Every field is optional in the
schema. -/
structure SubscriptionConfig where
  planName : Option String
  metal : Option Metal
  targetWeight : Option ℚ
  targetUnit : Option UnitType
  monthlyInvestment : Option ℚ
  quantity : Option ℚ
  targetPrice : Option ℚ
  interval : Option String
  intervalCount : Option ℚ
deriving DecidableEq, Repr

/-- The metadata keys read by the embedded code (`buildConfigFromOrder` and
the renewal backfill).  Numeric keys carry the parsed rational of the stored
numeric string; a non-numeric string is modelled as absent. -/
structure OrderMetadata where
  planName : Option String
  plan : Option String
  metal : Option String
  targetWeight : Option ℚ
  target_weight : Option ℚ
  targetUnit : Option String
  target_unit : Option String
  monthlyInvestment : Option ℚ
  monthly_investment : Option ℚ
  quantity : Option ℚ
  targetPrice : Option ℚ
  renewalPayment : Option String
  paymentFailed : Option String
  originalOrderId : Option String
deriving DecidableEq, Repr

/-- A metadata object with no keys set. -/
def OrderMetadata.empty : OrderMetadata :=
  ⟨Option.none, Option.none, Option.none, Option.none, Option.none, Option.none,
   Option.none, Option.none, Option.none, Option.none, Option.none, Option.none,
   Option.none, Option.none⟩

/-- `IOrder` from `models/Order.ts`.  `createdAt` is the mongoose timestamp
(used for the earliest-order sort in the renewal backfill). -/
structure OrderRec where
  id : String
  user : Option String
  subscriptionId : Option String
  orderType : OrderType
  amount : ℚ
  amountInMinor : ℤ
  currency : String
  status : OrderStatus
  paymentStatus : PaymentStatus
  invoiceStatus : InvoiceStatus
  productName : Option String
  productDescription : Option String
  billingEmail : Option String
  billingName : Option String
  stripeSessionId : Option String
  stripeCustomerId : Option String
  stripeSubscriptionId : Option String
  stripePaymentIntentId : Option String
  stripeInvoiceId : Option String
  receiptUrl : Option String
  latestStripeEvent : Option String
  latestStripeEventId : Option String
  latestStripeEventReceivedAt : Option ℤ
  metadata : OrderMetadata
  subscriptionConfig : Option SubscriptionConfig
  createdAt : ℤ
deriving DecidableEq, Repr

/-- `ISubscription` from `models/Subscription.ts`. -/
structure SubscriptionRec where
  id : String
  userId : String
  metal : Metal
  planName : String
  targetWeight : ℚ
  targetUnit : UnitType
  monthlyInvestment : ℚ
  quantity : ℚ
  accumulatedValue : ℚ
  accumulatedWeight : ℚ
  status : SubscriptionStatus
  stripeCustomerId : String
  stripeSubscriptionId : Option String
  targetPrice : ℚ
  currentPeriodEnd : Option ℤ
deriving DecidableEq, Repr

/-- The slice of `IUser` from `models/User.ts` touched by the settlement
engine: the two running withdrawn-metal counters. -/
structure UserRec where
  id : String
  withdrawnGold : Option ℚ
  withdrawnSilver : Option ℚ
deriving DecidableEq, Repr

/-- `IWithdrawalRequest` from `models/WithdrawalRequest.ts`. -/
structure WithdrawalRequestRec where
  id : String
  userId : String
  subscriptionId : Option String
  metal : Metal
  requestedWeight : ℚ
  requestedUnit : UnitType
  estimatedValue : Option ℚ
  status : WithdrawalStatus
  notes : Option String
deriving DecidableEq, Repr

/-- The persisted state: the four collections, the `MetalPrice` cache
(one record per metal, `price` field), an operations-alert log standing for
`notifyOps`, and a counter for generated document ids. -/
structure DB where
  orders : List OrderRec
  subscriptions : List SubscriptionRec
  users : List UserRec
  withdrawalRequests : List WithdrawalRequestRec
  goldPrice : Option ℚ
  silverPrice : Option ℚ
  alerts : List String
  nextId : ℕ
deriving DecidableEq, Repr

/-- Replace the first element satisfying `p` by its image under `f`
(the effect of `doc.save()` on a collection). -/
def updateFirst (p : α → Bool) (f : α → α) : List α → List α
  | [] => []
  | x :: xs => if p x then f x :: xs else x :: updateFirst p f xs

/-- Persist an order document (`order.save()`). -/
def saveOrder (o : OrderRec) (db : DB) : DB :=
  { db with orders := updateFirst (fun x => x.id == o.id) (fun _ => o) db.orders }

/-- Persist a subscription document (`subscription.save()`). -/
def saveSubscription (s : SubscriptionRec) (db : DB) : DB :=
  { db with subscriptions := updateFirst (fun x => x.id == s.id) (fun _ => s) db.subscriptions }

/-- Persist a user document (`user.save()`). -/
def saveUser (u : UserRec) (db : DB) : DB :=
  { db with users := updateFirst (fun x => x.id == u.id) (fun _ => u) db.users }

/-- `OZ_IN_GRAMS = 31.1034768`, shared by `withdrawalService.ts`,
`withdrawalRequestController.ts` and `subscriptionSync.ts`. -/
def OZ_IN_GRAMS : ℚ := 31.1034768

/-- `convertWeight` from `withdrawalService.ts` (and, identically, from
`withdrawalRequestController.ts`). -/
def convertWeight (weight : ℚ) (fromUnit toUnit : UnitType) : ℚ :=
  if fromUnit = toUnit then weight
  else
    match fromUnit, toUnit with
    | UnitType.oz, UnitType.g => weight * OZ_IN_GRAMS
    | UnitType.g, UnitType.oz => weight / OZ_IN_GRAMS
    | _, _ => weight

/-- Outcome of the `stripe.subscriptions.cancel` + `retrieve` verification
pair inside the Case-2 branch of the settlement: the remote cancel succeeded
and was verified, it succeeded but verification did not confirm it, or the
remote call threw (caught locally). -/
inductive StripeCancelOutcome
  | verifiedCanceled
  | notVerified
  | cancelFailed
deriving DecidableEq, Repr

/-- Result type of `processWithdrawalApproval`
(`{ success: boolean; error?: string }`). -/
inductive WithdrawalOutcome
  | success
  | failure (error : String)
deriving DecidableEq, Repr

/-- `processWithdrawalApproval` from `services/withdrawalService.ts`.

The whole body runs inside one mongoose transaction; every failure path
calls `session.abortTransaction()` before returning, so a failure returns
the database unchanged.  `txFault` stands for an exception thrown by any of
the awaited writes or by the commit itself (the catch-all at the bottom of
the source aborts the transaction), and `stripeOutcome` is the observed
behaviour of the remote cancel/verify pair — the source marks the local
subscription `canceled` in every one of its branches. -/
def processWithdrawalApproval (withdrawalRequestId : String)
    (stripeOutcome : StripeCancelOutcome) (txFault : Bool) (db : DB) :
    WithdrawalOutcome × DB :=
  match db.withdrawalRequests.find? (fun r => r.id == withdrawalRequestId) with
  | Option.none => (WithdrawalOutcome.failure "Withdrawal request not found", db)
  | Option.some withdrawalRequest =>
    if withdrawalRequest.status = WithdrawalStatus.completed ∨
        withdrawalRequest.status = WithdrawalStatus.rejected then
      (WithdrawalOutcome.failure "Withdrawal request has already been processed", db)
    else if withdrawalRequest.status ≠ WithdrawalStatus.approved then
      (WithdrawalOutcome.failure "Cannot process withdrawal: status is not approved", db)
    else
      match withdrawalRequest.subscriptionId with
      | Option.none =>
        (WithdrawalOutcome.failure "Withdrawal request is not associated with a subscription", db)
      | Option.some subId =>
        match db.subscriptions.find? (fun s => s.id == subId) with
        | Option.none => (WithdrawalOutcome.failure "Subscription not found", db)
        | Option.some subscription =>
          if subscription.accumulatedWeight = 0 then
            (WithdrawalOutcome.failure
              "Withdrawal has already been processed (subscription accumulated weight is 0)", db)
          else
            let requestedWeightInSubscriptionUnit :=
              convertWeight withdrawalRequest.requestedWeight
                withdrawalRequest.requestedUnit subscription.targetUnit
            if subscription.accumulatedWeight < requestedWeightInSubscriptionUnit then
              (WithdrawalOutcome.failure "Insufficient accumulated weight", db)
            else
              let isCase2 := subscription.targetWeight ≤ subscription.accumulatedWeight
              let newStatus :=
                if isCase2 then
                  match subscription.stripeSubscriptionId, stripeOutcome with
                  | Option.some _, StripeCancelOutcome.verifiedCanceled => SubscriptionStatus.canceled
                  | Option.some _, StripeCancelOutcome.notVerified => SubscriptionStatus.canceled
                  | Option.some _, StripeCancelOutcome.cancelFailed => SubscriptionStatus.canceled
                  | Option.none, _ => SubscriptionStatus.canceled
                else subscription.status
              let subscription' :=
                { subscription with
                  accumulatedWeight := 0
                  accumulatedValue := 0
                  status := newStatus }
              match db.users.find? (fun u => u.id == withdrawalRequest.userId) with
              | Option.none => (WithdrawalOutcome.failure "User not found", db)
              | Option.some user =>
                let withdrawnWeightInStandardUnit :=
                  match withdrawalRequest.metal with
                  | Metal.gold =>
                    convertWeight withdrawalRequest.requestedWeight
                      withdrawalRequest.requestedUnit UnitType.g
                  | Metal.silver =>
                    convertWeight withdrawalRequest.requestedWeight
                      withdrawalRequest.requestedUnit UnitType.oz
                let user' :=
                  match withdrawalRequest.metal with
                  | Metal.gold =>
                    { user with withdrawnGold :=
                        Option.some (user.withdrawnGold.getD 0 + withdrawnWeightInStandardUnit) }
                  | Metal.silver =>
                    { user with withdrawnSilver :=
                        Option.some (user.withdrawnSilver.getD 0 + withdrawnWeightInStandardUnit) }
                if txFault then
                  (WithdrawalOutcome.failure "transaction aborted", db)
                else
                  (WithdrawalOutcome.success, saveUser user' (saveSubscription subscription' db))

/-- `SubscriptionSyncOptions` from `services/subscriptionSync.ts`. -/
structure SubscriptionSyncOptions where
  status : Option SubscriptionStatus
  currentPeriodEnd : Option ℤ
  stripeSubscriptionId : Option String
  accumulatedValueDelta : Option ℚ
  accumulatedWeightDelta : Option ℚ
deriving DecidableEq, Repr

/-- Empty option bag (the `= {}` default parameter). -/
def SubscriptionSyncOptions.empty : SubscriptionSyncOptions :=
  ⟨Option.none, Option.none, Option.none, Option.none, Option.none⟩

/-- `coerceMetal` from `services/subscriptionSync.ts`. -/
def coerceMetal (value : Option String) : Metal :=
  if value = Option.some "silver" then Metal.silver else Metal.gold

/-- `coerceUnit` from `services/subscriptionSync.ts`. -/
def coerceUnit (value : Option String) : UnitType :=
  if value = Option.some "g" then UnitType.g else UnitType.oz

/-- `toPositiveNumber` from `services/subscriptionSync.ts` (`none` models
both an absent value and a `NaN` conversion). -/
def toPositiveNumber (value : Option ℚ) (fallback : ℚ) : ℚ :=
  match value with
  | Option.some num => if 0 < num then num else fallback
  | Option.none => fallback

/-- `toNonNegativeNumber` from `services/subscriptionSync.ts`. -/
def toNonNegativeNumber (value : Option ℚ) (fallback : ℚ) : ℚ :=
  match value with
  | Option.some num => if 0 ≤ num then num else fallback
  | Option.none => fallback

/-- The normalized plan configuration produced by `buildConfigFromOrder`. -/
structure NormalizedConfig where
  planName : String
  metal : Metal
  targetWeight : ℚ
  targetUnit : UnitType
  monthlyInvestment : ℚ
  quantity : ℚ
  targetPrice : ℚ
deriving DecidableEq, Repr

/-- An order `subscriptionConfig` with no fields, for the `?? {}` default. -/
def SubscriptionConfig.empty : SubscriptionConfig :=
  ⟨Option.none, Option.none, Option.none, Option.none, Option.none, Option.none,
   Option.none, Option.none, Option.none⟩

/-- `buildConfigFromOrder` from `services/subscriptionSync.ts`.  The
`order.amount` fallback inside `monthlyInvestment` always hits because
`amount` is a required schema path, so the trailing metadata fallback of the
source is unreachable and not represented. -/
def buildConfigFromOrder (order : OrderRec) : NormalizedConfig :=
  let config := order.subscriptionConfig.getD SubscriptionConfig.empty
  let metadata := order.metadata
  let targetWeight :=
    config.targetWeight.getD
      (toPositiveNumber (metadata.targetWeight.orElse (fun _ => metadata.target_weight)) 1)
  let targetUnit :=
    config.targetUnit.getD (coerceUnit (metadata.targetUnit.orElse (fun _ => metadata.target_unit)))
  let monthlyInvestment := config.monthlyInvestment.getD order.amount
  { planName :=
      config.planName.getD
        ((metadata.planName.orElse (fun _ => metadata.plan)).getD
          (order.productName.getD "PharaohVault Plan"))
    metal := config.metal.getD (coerceMetal metadata.metal)
    targetWeight := targetWeight
    targetUnit := targetUnit
    monthlyInvestment := monthlyInvestment
    quantity := config.quantity.getD (toPositiveNumber metadata.quantity 1)
    targetPrice := config.targetPrice.getD (toNonNegativeNumber metadata.targetPrice 0) }

/-- `getBaseUnitForMetal` from `services/subscriptionSync.ts`. -/
def getBaseUnitForMetal (metal : Metal) : UnitType :=
  match metal with
  | Metal.silver => UnitType.oz
  | Metal.gold => UnitType.g

/-- `convertPriceToTargetUnit` from `services/subscriptionSync.ts`. -/
def convertPriceToTargetUnit (price : ℚ) (baseUnit targetUnit : UnitType) : ℚ :=
  if targetUnit = baseUnit then price
  else
    match baseUnit, targetUnit with
    | UnitType.g, UnitType.oz => price * OZ_IN_GRAMS
    | UnitType.oz, UnitType.g => price / OZ_IN_GRAMS
    | _, _ => price

/-- The `MetalPrice.findOne({ metalSymbol: metal })` read at the top of
`getMetalPricePerUnit` in `services/subscriptionSync.ts`. -/
def priceRecord (metal : Metal) (db : DB) : Option ℚ :=
  match metal with
  | Metal.gold => db.goldPrice
  | Metal.silver => db.silverPrice

/-- `getMetalPricePerUnit` from `services/subscriptionSync.ts` (continued):
reject absent or non-positive prices, convert the base-unit price into the
subscription's unit. -/
def getMetalPricePerUnit (metal : Metal) (targetUnit : UnitType) (db : DB) : Option ℚ :=
  match priceRecord metal db with
  | Option.none => Option.none
  | Option.some price =>
    if price ≤ 0 then Option.none
    else Option.some (convertPriceToTargetUnit price (getBaseUnitForMetal metal) targetUnit)

/-- `computeWeightDelta` from `services/subscriptionSync.ts`. -/
def computeWeightDelta (metal : Metal) (targetUnit : UnitType)
    (amountDelta explicitWeightDelta : Option ℚ) (db : DB) : Option ℚ :=
  let fromAmount : Option ℚ :=
    match amountDelta with
    | Option.none => Option.none
    | Option.some a =>
      if a ≤ 0 then Option.none
      else
        match getMetalPricePerUnit metal targetUnit db with
        | Option.none => Option.none
        | Option.some pricePerUnit =>
          if pricePerUnit ≤ 0 then Option.none else Option.some (a / pricePerUnit)
  match explicitWeightDelta with
  | Option.some w => if 0 ≤ w then Option.some w else fromAmount
  | Option.none => fromAmount

/-- Fresh id for a subscription created by the sync. -/
def freshSubId (db : DB) : String := String.append "sub_gen_" (toString db.nextId)

/-- The three-step subscription lookup at the top of
`syncSubscriptionFromOrder`: by external subscription id, then by the
order's own subscription back-link, then by the
user/customer/metal/plan/target fingerprint. -/
def findTargetSubscription (order : OrderRec) (user customerId : String)
    (config : NormalizedConfig) (stripeSubscriptionId : Option String) (db : DB) :
    Option SubscriptionRec :=
  let bySid : Option SubscriptionRec :=
    match stripeSubscriptionId with
    | Option.some sid => db.subscriptions.find? (fun s => s.stripeSubscriptionId == Option.some sid)
    | Option.none => Option.none
  let byOrderLink : Option SubscriptionRec :=
    match order.subscriptionId with
    | Option.some oid => db.subscriptions.find? (fun s => s.id == oid)
    | Option.none => Option.none
  let byFingerprint : Option SubscriptionRec :=
    db.subscriptions.find? (fun s =>
      s.userId == user && s.stripeCustomerId == customerId &&
      s.metal == config.metal && s.planName == config.planName &&
      s.targetWeight == config.targetWeight && s.targetUnit == config.targetUnit)
  (bySid.orElse (fun _ => byOrderLink)).orElse (fun _ => byFingerprint)

/-- `syncSubscriptionFromOrder` from `services/subscriptionSync.ts`: locate
the target subscription by external subscription id, then by the order's
back-link, then by the user/customer/plan fingerprint; apply the `$set`
fields and the `$inc` deltas to it (or create it), and maintain the order's
back-link to the subscription.  Persistence goes through
`subscription.save()` / `Subscription.create`, which run the Subscription
schema's validators — in particular `min: 0` on `accumulatedValue` and
`accumulatedWeight` — so a write that would store a negative accumulator
throws a `ValidationError` and persists nothing; since the sync is the last
step of every caller, the thrown case is modelled by the unchanged state
(the exception surfacing as the webhook's 500 is `webhookHandler`'s
`processingFault` input). -/
def syncSubscriptionFromOrder (order : OrderRec) (options : SubscriptionSyncOptions)
    (db : DB) : Option SubscriptionRec × DB :=
  match order.orderType, order.user, order.stripeCustomerId with
  | OrderType.subscription, Option.some user, Option.some customerId =>
    let config := buildConfigFromOrder order
    let stripeSubscriptionId := order.stripeSubscriptionId.orElse (fun _ => options.stripeSubscriptionId)
    let found := findTargetSubscription order user customerId config stripeSubscriptionId db
    let weightDelta :=
      computeWeightDelta config.metal config.targetUnit
        options.accumulatedValueDelta options.accumulatedWeightDelta db
    let hasValueDelta : Bool :=
      match options.accumulatedValueDelta with
      | Option.some v => v != 0
      | Option.none => false
    let hasWeightDelta : Bool :=
      match weightDelta with
      | Option.some w => w != 0
      | Option.none => false
    let incValue := if hasValueDelta then options.accumulatedValueDelta.getD 0 else 0
    let incWeight := if hasWeightDelta then weightDelta.getD 0 else 0
    match found with
    | Option.some subscription =>
      let subscription' :=
        { subscription with
          planName := config.planName
          metal := config.metal
          targetWeight := config.targetWeight
          targetUnit := config.targetUnit
          monthlyInvestment := config.monthlyInvestment
          quantity := config.quantity
          targetPrice := config.targetPrice
          stripeCustomerId := customerId
          status := options.status.getD SubscriptionStatus.pending_payment
          stripeSubscriptionId :=
            match stripeSubscriptionId with
            | Option.some sid => Option.some sid
            | Option.none => subscription.stripeSubscriptionId
          currentPeriodEnd :=
            match options.currentPeriodEnd with
            | Option.some d => Option.some d
            | Option.none => subscription.currentPeriodEnd
          accumulatedValue := subscription.accumulatedValue + incValue
          accumulatedWeight := subscription.accumulatedWeight + incWeight }
      if subscription'.accumulatedValue < 0 ∨ subscription'.accumulatedWeight < 0 then
        (Option.none, db)
      else
        let db1 := saveSubscription subscription' db
        if order.subscriptionId ≠ Option.some subscription.id then
          let order' := { order with subscriptionId := Option.some subscription.id }
          (Option.some subscription', saveOrder order' db1)
        else
          (Option.some subscription', db1)
    | Option.none =>
      let newSubscription : SubscriptionRec :=
        { id := freshSubId db
          userId := user
          metal := config.metal
          planName := config.planName
          targetWeight := config.targetWeight
          targetUnit := config.targetUnit
          monthlyInvestment := config.monthlyInvestment
          quantity := config.quantity
          accumulatedValue := incValue
          accumulatedWeight := incWeight
          status := options.status.getD SubscriptionStatus.pending_payment
          stripeCustomerId := customerId
          stripeSubscriptionId := stripeSubscriptionId
          targetPrice := config.targetPrice
          currentPeriodEnd := options.currentPeriodEnd }
      if newSubscription.accumulatedValue < 0 ∨ newSubscription.accumulatedWeight < 0 then
        (Option.none, db)
      else
        let db1 :=
          { db with
            subscriptions := db.subscriptions ++ [newSubscription]
            nextId := db.nextId + 1 }
        let order' := { order with subscriptionId := Option.some newSubscription.id }
        (Option.some newSubscription, saveOrder order' db1)
  | _, _, _ => (Option.none, db)

/-- `Stripe.Subscription.Status` (the SDK-side status strings). -/
inductive StripeSubStatus
  | active
  | trialing
  | incomplete
  | incomplete_expired
  | past_due
  | canceled
  | unpaid
  | paused
deriving DecidableEq, Repr

/-- `mapStripeSubscriptionStatus` from `services/subscriptionSync.ts`
(anything outside the listed cases maps to `pending_payment`). -/
def mapStripeSubscriptionStatus (status : StripeSubStatus) : SubscriptionStatus :=
  match status with
  | StripeSubStatus.active => SubscriptionStatus.active
  | StripeSubStatus.trialing => SubscriptionStatus.trialing
  | StripeSubStatus.incomplete => SubscriptionStatus.incomplete
  | StripeSubStatus.incomplete_expired => SubscriptionStatus.incomplete_expired
  | StripeSubStatus.past_due => SubscriptionStatus.past_due
  | StripeSubStatus.canceled => SubscriptionStatus.canceled
  | StripeSubStatus.unpaid => SubscriptionStatus.unpaid
  | StripeSubStatus.paused => SubscriptionStatus.pending_payment

/-- `mongoose.Types.ObjectId.isValid`: a 24-character lowercase-hex string
(the 12-byte-string alternative is not representable in our id space). -/
def isValidObjectId (s : String) : Bool :=
  s.length == 24 && s.toList.all (fun c => c.isDigit || ('a' ≤ c && c ≤ 'f'))

/-- The external `Stripe.Subscription` snapshot carried by
`customer.subscription.*` events: id, status, customer, period end
(seconds), the first line item's quantity and price `unit_amount`, and the
`orderId` metadata key. -/
structure StripeSubscriptionObj where
  id : String
  status : StripeSubStatus
  customer : Option String
  current_period_end : Option ℤ
  quantity : Option ℚ
  unit_amount : Option ℤ
  metadataOrderId : Option String
deriving DecidableEq, Repr

/-- `applyStripeSubscriptionEvent` from `services/subscriptionSync.ts`:
`findOneAndUpdate` by external subscription id (mongoose drops
`undefined`-valued `$set` entries, so absent snapshot fields leave the
stored value in place); when no subscription matches, fall back to syncing
from the order named in the event metadata.  The period-end conversion
(`periodEndSeconds ? new Date(...) : undefined`) treats the epoch value `0`
as falsy. -/
def applyStripeSubscriptionEvent (subscription : StripeSubscriptionObj) (db : DB) :
    Option SubscriptionRec × DB :=
  let status := mapStripeSubscriptionStatus subscription.status
  let currentPeriodEnd : Option ℤ :=
    match subscription.current_period_end with
    | Option.some seconds => if seconds ≠ 0 then Option.some (seconds * 1000) else Option.none
    | Option.none => Option.none
  let stripeCustomerId := subscription.customer
  match db.subscriptions.find? (fun s => s.stripeSubscriptionId == Option.some subscription.id) with
  | Option.some existing =>
    let updated :=
      { existing with
        status := status
        currentPeriodEnd :=
          match currentPeriodEnd with
          | Option.some d => Option.some d
          | Option.none => existing.currentPeriodEnd
        stripeCustomerId := stripeCustomerId.getD existing.stripeCustomerId
        quantity :=
          match subscription.quantity with
          | Option.some q => q
          | Option.none => existing.quantity
        monthlyInvestment :=
          match subscription.unit_amount with
          | Option.some ua =>
            if ua ≠ 0 then (ua : ℚ) / 100 else existing.monthlyInvestment
          | Option.none => existing.monthlyInvestment }
    (Option.some updated, saveSubscription updated db)
  | Option.none =>
    match subscription.metadataOrderId with
    | Option.some orderId =>
      if isValidObjectId orderId then
        match db.orders.find? (fun o => o.id == orderId) with
        | Option.some order =>
          syncSubscriptionFromOrder order
            { status := Option.some status
              currentPeriodEnd := currentPeriodEnd
              stripeSubscriptionId := Option.some subscription.id
              accumulatedValueDelta := Option.none
              accumulatedWeightDelta := Option.none } db
        | Option.none => (Option.none, db)
      else (Option.none, db)
    | Option.none => (Option.none, db)

/-- `OrderLookup` from `routes/checkout.ts`. -/
structure OrderLookup where
  orderId : Option String
  stripeSessionId : Option String
  stripeSubscriptionId : Option String
  stripeInvoiceId : Option String
  stripePaymentIntentId : Option String
deriving DecidableEq, Repr

/-- An all-`none` lookup, extended per call site. -/
def OrderLookup.empty : OrderLookup :=
  ⟨Option.none, Option.none, Option.none, Option.none, Option.none⟩

/-- One mongo filter pushed by `updateOrderByLookup`. -/
inductive OrderFilter
  | byId (v : String)
  | bySessionId (v : String)
  | bySubscriptionId (v : String)
  | byInvoiceId (v : String)
  | byPaymentIntentId (v : String)
deriving DecidableEq, Repr

/-- Whether an order satisfies a filter. -/
def matchesFilter (f : OrderFilter) (o : OrderRec) : Bool :=
  match f with
  | OrderFilter.byId v => o.id == v
  | OrderFilter.bySessionId v => o.stripeSessionId == Option.some v
  | OrderFilter.bySubscriptionId v => o.stripeSubscriptionId == Option.some v
  | OrderFilter.byInvoiceId v => o.stripeInvoiceId == Option.some v
  | OrderFilter.byPaymentIntentId v => o.stripePaymentIntentId == Option.some v

/-- The filter list built at the top of `updateOrderByLookup`, in push
order: order id (only when a valid ObjectId), checkout-session id, external
subscription id, invoice id, payment-intent id. -/
def buildFilters (lookup : OrderLookup) : List OrderFilter :=
  (match lookup.orderId with
   | Option.some oid => if isValidObjectId oid then [OrderFilter.byId oid] else []
   | Option.none => []) ++
  (match lookup.stripeSessionId with
   | Option.some v => [OrderFilter.bySessionId v]
   | Option.none => []) ++
  (match lookup.stripeSubscriptionId with
   | Option.some v => [OrderFilter.bySubscriptionId v]
   | Option.none => []) ++
  (match lookup.stripeInvoiceId with
   | Option.some v => [OrderFilter.byInvoiceId v]
   | Option.none => []) ++
  (match lookup.stripePaymentIntentId with
   | Option.some v => [OrderFilter.byPaymentIntentId v]
   | Option.none => [])

/-- `StripeEventContext` from `routes/checkout.ts` (`deliveredAt` is the
wall-clock timestamp taken at dispatch). -/
structure StripeEventContext where
  eventId : String
  eventType : String
  deliveredAt : ℤ
deriving DecidableEq, Repr

/-- Stamp the idempotence bookkeeping fields of an order from the event
context. -/
def stampEvent (context : StripeEventContext) (o : OrderRec) : OrderRec :=
  { o with
    latestStripeEvent := Option.some context.eventType
    latestStripeEventId := Option.some context.eventId
    latestStripeEventReceivedAt := Option.some context.deliveredAt }

/-- The filter loop of `updateOrderByLookup`: `findOne` per filter, first
match wins; a matched order whose stored `latestStripeEventId` equals the
incoming event id is returned unchanged (duplicate delivery); otherwise the
updates are assigned, the event is stamped and the order saved.  When every
filter misses, `notifyOps` is called. -/
def updateOrderByLookupGo (filters : List OrderFilter)
    (applyUpdates : OrderRec → OrderRec) (context : Option StripeEventContext)
    (db : DB) : Option OrderRec × DB :=
  match filters with
  | [] => (Option.none, { db with alerts := db.alerts ++ ["Stripe webhook could not match order"] })
  | f :: rest =>
    match db.orders.find? (matchesFilter f) with
    | Option.none => updateOrderByLookupGo rest applyUpdates context db
    | Option.some order =>
      match context with
      | Option.some c =>
        if order.latestStripeEventId == Option.some c.eventId then
          (Option.some order, db)
        else
          let order' := stampEvent c (applyUpdates order)
          (Option.some order', saveOrder order' db)
      | Option.none =>
        let order' := applyUpdates order
        (Option.some order', saveOrder order' db)

/-- `updateOrderByLookup` from `routes/checkout.ts`.  The `Partial<IOrder>`
update argument is represented by the assignment function each call site
builds from its literal update object. -/
def updateOrderByLookup (lookup : OrderLookup) (applyUpdates : OrderRec → OrderRec)
    (context : Option StripeEventContext) (db : DB) : Option OrderRec × DB :=
  updateOrderByLookupGo (buildFilters lookup) applyUpdates context db

/-- `mapSubscriptionStatus` from `routes/checkout.ts` (order-level status
pair derived from an external subscription status). -/
def mapSubscriptionStatus (status : StripeSubStatus) : OrderStatus × PaymentStatus :=
  match status with
  | StripeSubStatus.active => (OrderStatus.paid, PaymentStatus.succeeded)
  | StripeSubStatus.trialing => (OrderStatus.pending, PaymentStatus.pending)
  | StripeSubStatus.incomplete => (OrderStatus.pending, PaymentStatus.pending)
  | StripeSubStatus.incomplete_expired => (OrderStatus.pending, PaymentStatus.pending)
  | StripeSubStatus.canceled => (OrderStatus.cancelled, PaymentStatus.failed)
  | StripeSubStatus.unpaid => (OrderStatus.cancelled, PaymentStatus.failed)
  | StripeSubStatus.past_due => (OrderStatus.pending, PaymentStatus.pending)
  | StripeSubStatus.paused => (OrderStatus.pending, PaymentStatus.pending)

/-- `buildPaymentStatus` from `routes/checkout.ts`. -/
def buildPaymentStatus (status : Option String) : PaymentStatus :=
  match status with
  | Option.none => PaymentStatus.pending
  | Option.some s =>
    if s == "paid" || s == "succeeded" then PaymentStatus.succeeded
    else if s == "unpaid" || s == "failed" then PaymentStatus.failed
    else if s == "processing" then PaymentStatus.processing
    else if s == "requires_payment_method" then PaymentStatus.requires_payment_method
    else if s == "requires_action" then PaymentStatus.requires_action
    else if s == "refunded" then PaymentStatus.refunded
    else PaymentStatus.pending

/-- A `Stripe.Checkout.Session` event payload, restricted to the fields the
handlers read. -/
structure CheckoutSessionObj where
  id : String
  payment_status : Option String
  metadataOrderId : Option String
  customer_email : Option String
  customer_name : Option String
  customer : Option String
  subscription : Option String
  payment_intent : Option String
  invoice : Option String
  amount_total : Option ℤ
  currency : Option String
deriving DecidableEq, Repr

/-- A `Stripe.Invoice` event payload, restricted to the fields the handlers
read.  `subscription` is `getInvoiceSubscriptionId`, `payment_intent` is
`getInvoicePaymentIntentId`, and `period_end` is the first line item's
period end in seconds (`getInvoicePeriodEndDate`). -/
structure InvoiceObj where
  id : String
  status : Option InvoiceStatus
  metadataOrderId : Option String
  subscription : Option String
  customer : Option String
  payment_intent : Option String
  hosted_invoice_url : Option String
  invoice_pdf : Option String
  amount_paid : Option ℤ
  amount_due : Option ℤ
  currency : Option String
  customer_email : Option String
  period_end : Option ℤ
deriving DecidableEq, Repr

/-- The payment-intent id carried inside a `payment_intent.*` event body
(the handlers re-retrieve the full object through the SDK). -/
structure PaymentIntentObj where
  id : String
deriving DecidableEq, Repr

/-- The expanded payment intent returned by
`stripe.paymentIntents.retrieve(id, { expand: ['invoice', 'customer'] })`. -/
structure PaymentIntentFull where
  id : String
  customer : Option String
  metadataSessionId : Option String
  metadataOrderId : Option String
  invoice : Option String
deriving DecidableEq, Repr

/-- A checkout session returned by `stripe.checkout.sessions.retrieve` or
`list`, restricted to the fields the scan strategies read. -/
structure SessionLite where
  id : String
  customer : Option String
  payment_intent : Option String
  metadataOrderId : Option String
deriving DecidableEq, Repr

/-- An invoice returned by `stripe.invoices.retrieve`, restricted to its
`orderId` metadata. -/
structure InvoiceLite where
  metadataOrderId : Option String
deriving DecidableEq, Repr

/-- The black-box Stripe RPC boundary used by the event processor.  A
`none` (or empty-list) answer models a thrown or failed call, which every
call site catches and treats as a miss. -/
structure StripeOracle where
  retrievePaymentIntent : String → Option PaymentIntentFull
  retrieveSession : String → Option SessionLite
  retrieveInvoice : String → Option InvoiceLite
  listSessions : String → List SessionLite

/-- An oracle on which every SDK call fails / returns nothing. -/
def StripeOracle.empty : StripeOracle :=
  ⟨fun _ => Option.none, fun _ => Option.none, fun _ => Option.none, fun _ => []⟩

/-- A verified Stripe event: id plus the typed payload the processor
switches on.  `otherEvent` covers the known-harmless set and unknown types
alike — both branches of the `default` arm only log. -/
inductive StripeEvent
  | checkoutSessionCompleted (eventId : String) (session : CheckoutSessionObj)
  | checkoutSessionAsyncPaymentFailed (eventId : String) (session : CheckoutSessionObj)
  | paymentIntentCreated (eventId : String) (paymentIntent : PaymentIntentObj)
  | paymentIntentPaymentFailed (eventId : String) (paymentIntent : PaymentIntentObj)
  | invoicePaymentSucceeded (eventId : String) (invoice : InvoiceObj)
  | invoicePaymentFailed (eventId : String) (invoice : InvoiceObj)
  | customerSubscriptionCreated (eventId : String) (subscription : StripeSubscriptionObj)
  | customerSubscriptionUpdated (eventId : String) (subscription : StripeSubscriptionObj)
  | customerSubscriptionDeleted (eventId : String) (subscription : StripeSubscriptionObj)
  | otherEvent (eventId : String) (eventType : String)
deriving DecidableEq, Repr

/-- `event.id`. -/
def StripeEvent.eid : StripeEvent → String
  | StripeEvent.checkoutSessionCompleted eventId _ => eventId
  | StripeEvent.checkoutSessionAsyncPaymentFailed eventId _ => eventId
  | StripeEvent.paymentIntentCreated eventId _ => eventId
  | StripeEvent.paymentIntentPaymentFailed eventId _ => eventId
  | StripeEvent.invoicePaymentSucceeded eventId _ => eventId
  | StripeEvent.invoicePaymentFailed eventId _ => eventId
  | StripeEvent.customerSubscriptionCreated eventId _ => eventId
  | StripeEvent.customerSubscriptionUpdated eventId _ => eventId
  | StripeEvent.customerSubscriptionDeleted eventId _ => eventId
  | StripeEvent.otherEvent eventId _ => eventId

/-- `event.type`. -/
def StripeEvent.typeName : StripeEvent → String
  | StripeEvent.checkoutSessionCompleted _ _ => "checkout.session.completed"
  | StripeEvent.checkoutSessionAsyncPaymentFailed _ _ => "checkout.session.async_payment_failed"
  | StripeEvent.paymentIntentCreated _ _ => "payment_intent.created"
  | StripeEvent.paymentIntentPaymentFailed _ _ => "payment_intent.payment_failed"
  | StripeEvent.invoicePaymentSucceeded _ _ => "invoice.payment_succeeded"
  | StripeEvent.invoicePaymentFailed _ _ => "invoice.payment_failed"
  | StripeEvent.customerSubscriptionCreated _ _ => "customer.subscription.created"
  | StripeEvent.customerSubscriptionUpdated _ _ => "customer.subscription.updated"
  | StripeEvent.customerSubscriptionDeleted _ _ => "customer.subscription.deleted"
  | StripeEvent.otherEvent _ eventType => eventType

/-- `DEFAULT_PRODUCT_NAME` from `routes/checkout.ts`. -/
def DEFAULT_PRODUCT_NAME : String := "Custom Monthly Subscription"

/-- `Order.findOne(...).sort({ createdAt: 1 })`: the earliest order of a
list by `createdAt` (keeping the first on ties, matching a stable sort). -/
def earliestOrder (l : List OrderRec) : Option OrderRec :=
  l.foldl
    (fun acc o =>
      match acc with
      | Option.none => Option.some o
      | Option.some best => if o.createdAt < best.createdAt then Option.some o else Option.some best)
    Option.none

/-- Fresh id for an order created by the renewal backfill. -/
def freshOrderId (db : DB) : String := String.append "order_gen_" (toString db.nextId)

/-- The per-order loop of strategies 4a/4b of `payment_intent.payment_failed`:
retrieve each pending order's checkout session and take the first whose
session carries the failing payment intent (or whose session metadata names
that very order); a failed session retrieval skips the order. -/
def scanPendingOrdersForPaymentIntent (oracle : StripeOracle) (paymentIntentId : String)
    (orders : List OrderRec) : Option OrderRec :=
  orders.find? (fun o =>
    match o.stripeSessionId with
    | Option.some sid =>
      match oracle.retrieveSession sid with
      | Option.some session =>
        session.payment_intent == Option.some paymentIntentId ||
        (match session.metadataOrderId with
         | Option.some sessionOrderId => sessionOrderId == o.id
         | Option.none => false)
      | Option.none => false
    | Option.none => false)

/-- Strategy 4c of `payment_intent.payment_failed`: walk the customer's
recent checkout sessions listed from Stripe; for a session carrying the
failing payment intent and an `orderId` metadata key, try the order lookup,
continuing with the next session when it misses. -/
def strategy4cLoop (sessions : List SessionLite) (paymentIntentId : String)
    (applyUpdates : OrderRec → OrderRec) (context : Option StripeEventContext)
    (db : DB) : Option OrderRec × DB :=
  match sessions with
  | [] => (Option.none, db)
  | session :: rest =>
    if session.payment_intent == Option.some paymentIntentId then
      match session.metadataOrderId with
      | Option.some orderIdFromSession =>
        let r : Option OrderRec × DB :=
          updateOrderByLookup
            { OrderLookup.empty with
              orderId := Option.some orderIdFromSession
              stripeSessionId := Option.some session.id }
            applyUpdates context db
        match r with
        | (Option.some o, db') => (Option.some o, db')
        | (Option.none, db') => strategy4cLoop rest paymentIntentId applyUpdates context db'
      | Option.none => strategy4cLoop rest paymentIntentId applyUpdates context db
    else strategy4cLoop rest paymentIntentId applyUpdates context db

/-- The shared `customer.subscription.created` / `customer.subscription.updated`
handler: update the matched order from the external status map, then
re-apply the external subscription snapshot. -/
def handleSubscriptionLifecycle (eventId typeName : String) (now : ℤ)
    (ssub : StripeSubscriptionObj) (db : DB) : DB :=
  let context : StripeEventContext := ⟨eventId, typeName, now⟩
  let mapped := mapSubscriptionStatus ssub.status
  let applyUpdates := fun (o : OrderRec) =>
    { o with
      latestStripeEvent := Option.some typeName
      status := mapped.1
      paymentStatus := mapped.2
      stripeSubscriptionId := Option.some ssub.id
      stripeCustomerId := ssub.customer }
  let r :=
    updateOrderByLookup
      { OrderLookup.empty with
        orderId := ssub.metadataOrderId
        stripeSubscriptionId := Option.some ssub.id }
      applyUpdates (Option.some context) db
  (applyStripeSubscriptionEvent ssub r.2).2

/-- The `checkout.session.completed` arm of `processStripeEvent`. -/
def handleCheckoutSessionCompleted (now : ℤ) (eventId : String) (session : CheckoutSessionObj) (db : DB) : DB :=
let context : StripeEventContext := ⟨eventId, "checkout.session.completed", now⟩
let isUnpaid := session.payment_status == Option.some "unpaid"
let applyUpdates := fun (o : OrderRec) =>
  { o with
    latestStripeEvent := Option.some "checkout.session.completed"
    status :=
      if isUnpaid then OrderStatus.cancelled
      else if session.payment_status == Option.some "paid" then OrderStatus.paid
      else OrderStatus.pending
    paymentStatus :=
      if isUnpaid then PaymentStatus.failed else buildPaymentStatus session.payment_status
    billingEmail := session.customer_email
    billingName := session.customer_name
    stripeCustomerId := session.customer
    stripeSubscriptionId := session.subscription
    stripePaymentIntentId := session.payment_intent
    stripeInvoiceId := session.invoice
    amountInMinor := session.amount_total.getD o.amountInMinor
    amount := (session.amount_total.map (fun a => (a : ℚ) / 100)).getD o.amount
    currency := session.currency.getD o.currency }
let r : Option OrderRec × DB :=
  updateOrderByLookup
    { OrderLookup.empty with
      orderId := session.metadataOrderId
      stripeSessionId := Option.some session.id
      stripeSubscriptionId := session.subscription }
    applyUpdates (Option.some context) db
match r with
| (Option.none, db1) => db1
| (Option.some updated, db1) =>
  if updated.orderType == OrderType.subscription then
    (syncSubscriptionFromOrder updated
      { SubscriptionSyncOptions.empty with
        status :=
          Option.some
            (if isUnpaid then SubscriptionStatus.past_due else SubscriptionStatus.pending_payment)
        stripeSubscriptionId := session.subscription } db1).2
  else db1

/-- The `checkout.session.async_payment_failed` arm of `processStripeEvent`. -/
def handleCheckoutSessionAsyncPaymentFailed (now : ℤ) (eventId : String) (session : CheckoutSessionObj) (db : DB) : DB :=
let context : StripeEventContext := ⟨eventId, "checkout.session.async_payment_failed", now⟩
let applyUpdates := fun (o : OrderRec) =>
  { o with
    latestStripeEvent := Option.some "checkout.session.async_payment_failed"
    status := OrderStatus.cancelled
    paymentStatus := PaymentStatus.failed
    billingEmail := session.customer_email
    billingName := session.customer_name
    stripeCustomerId := session.customer
    stripeSubscriptionId := session.subscription
    stripePaymentIntentId := session.payment_intent
    stripeInvoiceId := session.invoice
    amountInMinor := session.amount_total.getD o.amountInMinor
    amount := (session.amount_total.map (fun a => (a : ℚ) / 100)).getD o.amount
    currency := session.currency.getD o.currency }
let r : Option OrderRec × DB :=
  updateOrderByLookup
    { OrderLookup.empty with
      orderId := session.metadataOrderId
      stripeSessionId := Option.some session.id
      stripeSubscriptionId := session.subscription }
    applyUpdates (Option.some context) db
match r with
| (Option.none, db1) => db1
| (Option.some updated, db1) =>
  if updated.orderType == OrderType.subscription then
    (syncSubscriptionFromOrder updated
      { SubscriptionSyncOptions.empty with
        status := Option.some SubscriptionStatus.past_due
        stripeSubscriptionId := session.subscription } db1).2
  else db1

/-- The `payment_intent.created` arm of `processStripeEvent`: link the payment intent onto whichever order can be associated with it, so the later failure event has a join key; a silent no-op when no candidate is found. -/
def handlePaymentIntentCreated (oracle : StripeOracle) (now : ℤ) (eventId : String) (paymentIntent : PaymentIntentObj) (db : DB) : DB :=
let context : StripeEventContext := ⟨eventId, "payment_intent.created", now⟩
match oracle.retrievePaymentIntent paymentIntent.id with
| Option.none => db
| Option.some full =>
  let s1 : Option OrderRec :=
    match full.metadataOrderId with
    | Option.some oid =>
      if isValidObjectId oid then db.orders.find? (fun o => o.id == oid) else Option.none
    | Option.none => Option.none
  let s2 : Option OrderRec :=
    match s1 with
    | Option.some o => Option.some o
    | Option.none =>
      match full.metadataSessionId with
      | Option.some sid => db.orders.find? (fun o => o.stripeSessionId == Option.some sid)
      | Option.none => Option.none
  let s3 : Option OrderRec :=
    match s2 with
    | Option.some o => Option.some o
    | Option.none =>
      match full.customer with
      | Option.some customerId =>
        let pendingOrders :=
          (db.orders.filter (fun o =>
            (o.stripeCustomerId == Option.some customerId || o.stripeCustomerId == Option.none) &&
            o.status == OrderStatus.pending &&
            o.latestStripeEvent == Option.some "checkout.session.created" &&
            o.stripeSessionId.isSome)).take 10
        pendingOrders.find? (fun o =>
          match o.stripeSessionId with
          | Option.some sid =>
            match oracle.retrieveSession sid with
            | Option.some session => session.payment_intent == Option.some full.id
            | Option.none => false
          | Option.none => false)
      | Option.none => Option.none
  match s3 with
  | Option.none => db
  | Option.some updated =>
    if updated.latestStripeEventId == Option.some context.eventId then db
    else
      let updated1 := { updated with stripePaymentIntentId := Option.some full.id }
      let updated2 :=
        match updated1.stripeCustomerId, full.customer with
        | Option.none, Option.some c => { updated1 with stripeCustomerId := Option.some c }
        | _, _ => updated1
      saveOrder (stampEvent context updated2) db

/-- The `payment_intent.payment_failed` arm of `processStripeEvent` with its fallback strategy chain. -/
def handlePaymentIntentPaymentFailed (oracle : StripeOracle) (now : ℤ) (eventId : String) (paymentIntent : PaymentIntentObj) (db : DB) : DB :=
let context : StripeEventContext := ⟨eventId, "payment_intent.payment_failed", now⟩
match oracle.retrievePaymentIntent paymentIntent.id with
| Option.none => db
| Option.some full =>
  let applyUpdates := fun (o : OrderRec) =>
    { o with
      latestStripeEvent := Option.some "payment_intent.payment_failed"
      status := OrderStatus.cancelled
      paymentStatus := PaymentStatus.failed
      stripePaymentIntentId := Option.some full.id
      stripeCustomerId := full.customer }
  let r1 : Option OrderRec × DB :=
    updateOrderByLookup
      { OrderLookup.empty with stripePaymentIntentId := Option.some full.id }
      applyUpdates (Option.some context) db
  let r2 : Option OrderRec × DB :=
    match r1 with
    | (Option.some o, db1) => (Option.some o, db1)
    | (Option.none, db1) =>
      match full.metadataSessionId with
      | Option.some sid =>
        updateOrderByLookup { OrderLookup.empty with stripeSessionId := Option.some sid }
          applyUpdates (Option.some context) db1
      | Option.none => (Option.none, db1)
  let r3 : Option OrderRec × DB :=
    match r2 with
    | (Option.some o, db2) => (Option.some o, db2)
    | (Option.none, db2) =>
      match full.metadataOrderId with
      | Option.some oid =>
        updateOrderByLookup { OrderLookup.empty with orderId := Option.some oid }
          applyUpdates (Option.some context) db2
      | Option.none => (Option.none, db2)
  let r35 : Option OrderRec × DB :=
    match r3 with
    | (Option.some o, db3) => (Option.some o, db3)
    | (Option.none, db3) =>
      match full.invoice with
      | Option.some invoiceId =>
        match oracle.retrieveInvoice invoiceId with
        | Option.some invoice =>
          match invoice.metadataOrderId with
          | Option.some invoiceOrderId =>
            updateOrderByLookup { OrderLookup.empty with orderId := Option.some invoiceOrderId }
              applyUpdates (Option.some context) db3
          | Option.none => (Option.none, db3)
        | Option.none => (Option.none, db3)
      | Option.none => (Option.none, db3)
  let r4 : Option OrderRec × DB :=
    match r35 with
    | (Option.some o, db4) => (Option.some o, db4)
    | (Option.none, db4) =>
      match full.customer with
      | Option.none => (Option.none, db4)
      | Option.some customerId =>
        let pending4a :=
          (db4.orders.filter (fun (o : OrderRec) =>
            o.stripeCustomerId == Option.some customerId &&
            o.status == OrderStatus.pending &&
            o.latestStripeEvent == Option.some "checkout.session.created" &&
            o.stripeSessionId.isSome)).take 10
        let pendingOrders :=
          if pending4a.isEmpty then
            (db4.orders.filter (fun (o : OrderRec) =>
              o.status == OrderStatus.pending &&
              o.latestStripeEvent == Option.some "checkout.session.created" &&
              o.stripeSessionId.isSome &&
              o.stripeCustomerId == Option.none)).take 20
          else pending4a
        match scanPendingOrdersForPaymentIntent oracle full.id pendingOrders with
        | Option.some order =>
          let order' := stampEvent context (applyUpdates order)
          (Option.some order', saveOrder order' db4)
        | Option.none =>
          strategy4cLoop (oracle.listSessions customerId) full.id applyUpdates
            (Option.some context) db4
  match r4 with
  | (Option.none, db5) => db5
  | (Option.some updated, db5) =>
    if updated.orderType == OrderType.subscription then
      (syncSubscriptionFromOrder updated
        { SubscriptionSyncOptions.empty with
          status := Option.some SubscriptionStatus.past_due
          stripeSubscriptionId := updated.stripeSubscriptionId } db5).2
    else db5

/-- The `invoice.payment_succeeded` arm of `processStripeEvent`, including the renewal-order backfill. -/
def handleInvoicePaymentSucceeded (now : ℤ) (eventId : String) (invoice : InvoiceObj) (db : DB) : DB :=
let context : StripeEventContext := ⟨eventId, "invoice.payment_succeeded", now⟩
let invoiceSubscriptionId := invoice.subscription
let periodEnd : Option ℤ :=
  match invoice.period_end with
  | Option.some p => if p ≠ 0 then Option.some (p * 1000) else Option.none
  | Option.none => Option.none
let amountPaidMajor : Option ℚ := invoice.amount_paid.map (fun a => (a : ℚ) / 100)
let applyUpdates := fun (o : OrderRec) =>
  { o with
    latestStripeEvent := Option.some "invoice.payment_succeeded"
    status := OrderStatus.paid
    paymentStatus := PaymentStatus.succeeded
    invoiceStatus := invoice.status.getD InvoiceStatus.paid
    stripeInvoiceId := Option.some invoice.id
    stripeSubscriptionId := invoiceSubscriptionId
    stripeCustomerId := invoice.customer
    stripePaymentIntentId := invoice.payment_intent
    receiptUrl := invoice.hosted_invoice_url.orElse (fun _ => invoice.invoice_pdf)
    amountInMinor := (invoice.amount_paid.orElse (fun _ => invoice.amount_due)).getD o.amountInMinor
    amount := amountPaidMajor.getD o.amount
    currency := invoice.currency.getD o.currency }
let r0 : Option OrderRec × DB :=
  updateOrderByLookup
    { OrderLookup.empty with
      orderId := invoice.metadataOrderId
      stripeSubscriptionId := invoiceSubscriptionId
      stripeInvoiceId := Option.some invoice.id }
    applyUpdates (Option.some context) db
let r : Option OrderRec × DB :=
  match r0 with
  | (Option.none, db1) =>
    match invoiceSubscriptionId with
    | Option.some subId =>
      match db1.subscriptions.find? (fun (s : SubscriptionRec) => s.stripeSubscriptionId == Option.some subId) with
      | Option.some subscription =>
        let firstOrder :=
          earliestOrder (db1.orders.filter (fun (o : OrderRec) =>
            o.stripeSubscriptionId == Option.some subId && o.orderType == OrderType.subscription))
        let subscriptionConfigFromSub : SubscriptionConfig :=
          { planName := Option.some subscription.planName
            metal := Option.some subscription.metal
            targetWeight := Option.some subscription.targetWeight
            targetUnit := Option.some subscription.targetUnit
            monthlyInvestment := Option.some subscription.monthlyInvestment
            quantity := Option.some subscription.quantity
            targetPrice := Option.some subscription.targetPrice
            interval := Option.none
            intervalCount := Option.none }
        let subscriptionConfig : SubscriptionConfig :=
          match firstOrder with
          | Option.some firstO =>
            match firstO.subscriptionConfig with
            | Option.some cfg =>
              { planName := cfg.planName
                metal := cfg.metal
                targetWeight := cfg.targetWeight
                targetUnit := cfg.targetUnit
                monthlyInvestment := cfg.monthlyInvestment.orElse (fun _ => amountPaidMajor)
                quantity := cfg.quantity
                targetPrice := cfg.targetPrice
                interval := Option.none
                intervalCount := Option.none }
            | Option.none => subscriptionConfigFromSub
          | Option.none => subscriptionConfigFromSub
        let renewalOrder : OrderRec :=
          { id := freshOrderId db1
            user := Option.some subscription.userId
            subscriptionId := Option.some subscription.id
            orderType := OrderType.subscription
            amount := amountPaidMajor.getD 0
            amountInMinor := (invoice.amount_paid.orElse (fun _ => invoice.amount_due)).getD 0
            currency := invoice.currency.getD "inr"
            status := OrderStatus.paid
            paymentStatus := PaymentStatus.succeeded
            invoiceStatus := invoice.status.getD InvoiceStatus.paid
            productName := Option.some (subscriptionConfig.planName.getD DEFAULT_PRODUCT_NAME)
            productDescription :=
              Option.some
                (String.append "Subscription renewal payment - "
                  (subscriptionConfig.planName.getD "undefined"))
            billingEmail := invoice.customer_email
            billingName := Option.none
            stripeSessionId := Option.none
            stripeCustomerId := invoice.customer
            stripeSubscriptionId := Option.some subId
            stripePaymentIntentId := invoice.payment_intent
            stripeInvoiceId := Option.some invoice.id
            receiptUrl := invoice.hosted_invoice_url.orElse (fun _ => invoice.invoice_pdf)
            latestStripeEvent := Option.some "invoice.payment_succeeded"
            latestStripeEventId := Option.some eventId
            latestStripeEventReceivedAt := Option.some now
            metadata :=
              { OrderMetadata.empty with
                renewalPayment := Option.some "true"
                originalOrderId := firstOrder.map (fun (o : OrderRec) => o.id) }
            subscriptionConfig := Option.some subscriptionConfig
            createdAt := now }
        (Option.some renewalOrder,
          { db1 with orders := db1.orders ++ [renewalOrder], nextId := db1.nextId + 1 })
      | Option.none => (Option.none, db1)
    | Option.none => (Option.none, db1)
  | (Option.some o, db1) => (Option.some o, db1)
match r with
| (Option.none, db2) => db2
| (Option.some updated, db2) =>
  if updated.orderType == OrderType.subscription then
    (syncSubscriptionFromOrder updated
      { status := Option.some SubscriptionStatus.active
        currentPeriodEnd := periodEnd
        stripeSubscriptionId := invoiceSubscriptionId
        accumulatedValueDelta := amountPaidMajor
        accumulatedWeightDelta := Option.none } db2).2
  else db2

/-- The `invoice.payment_failed` arm of `processStripeEvent`, including the failed-renewal backfill. -/
def handleInvoicePaymentFailed (now : ℤ) (eventId : String) (invoice : InvoiceObj) (db : DB) : DB :=
let context : StripeEventContext := ⟨eventId, "invoice.payment_failed", now⟩
let invoiceSubscriptionId := invoice.subscription
let periodEnd : Option ℤ :=
  match invoice.period_end with
  | Option.some p => if p ≠ 0 then Option.some (p * 1000) else Option.none
  | Option.none => Option.none
let amountDueMajor : Option ℚ := invoice.amount_due.map (fun a => (a : ℚ) / 100)
let applyUpdates := fun (o : OrderRec) =>
  { o with
    latestStripeEvent := Option.some "invoice.payment_failed"
    status := OrderStatus.pending
    paymentStatus := PaymentStatus.failed
    invoiceStatus := invoice.status.getD InvoiceStatus.openInvoice
    stripeInvoiceId := Option.some invoice.id
    stripeSubscriptionId := invoiceSubscriptionId
    stripeCustomerId := invoice.customer
    amount := amountDueMajor.getD o.amount
    amountInMinor := invoice.amount_due.getD o.amountInMinor
    currency := invoice.currency.getD o.currency }
let r0 : Option OrderRec × DB :=
  updateOrderByLookup
    { OrderLookup.empty with
      orderId := invoice.metadataOrderId
      stripeSubscriptionId := invoiceSubscriptionId
      stripeInvoiceId := Option.some invoice.id }
    applyUpdates (Option.some context) db
let r : Option OrderRec × DB :=
  match r0 with
  | (Option.none, db1) =>
    match invoiceSubscriptionId with
    | Option.some subId =>
      match db1.subscriptions.find? (fun (s : SubscriptionRec) => s.stripeSubscriptionId == Option.some subId) with
      | Option.some subscription =>
        let firstOrder :=
          earliestOrder (db1.orders.filter (fun (o : OrderRec) =>
            o.stripeSubscriptionId == Option.some subId && o.orderType == OrderType.subscription))
        let subscriptionConfigFromSub : SubscriptionConfig :=
          { planName := Option.some subscription.planName
            metal := Option.some subscription.metal
            targetWeight := Option.some subscription.targetWeight
            targetUnit := Option.some subscription.targetUnit
            monthlyInvestment := Option.some subscription.monthlyInvestment
            quantity := Option.some subscription.quantity
            targetPrice := Option.some subscription.targetPrice
            interval := Option.none
            intervalCount := Option.none }
        let subscriptionConfig : SubscriptionConfig :=
          match firstOrder with
          | Option.some firstO =>
            match firstO.subscriptionConfig with
            | Option.some cfg =>
              { planName := cfg.planName
                metal := cfg.metal
                targetWeight := cfg.targetWeight
                targetUnit := cfg.targetUnit
                monthlyInvestment := cfg.monthlyInvestment.orElse (fun _ => amountDueMajor)
                quantity := cfg.quantity
                targetPrice := cfg.targetPrice
                interval := Option.none
                intervalCount := Option.none }
            | Option.none => subscriptionConfigFromSub
          | Option.none => subscriptionConfigFromSub
        let failedOrder : OrderRec :=
          { id := freshOrderId db1
            user := Option.some subscription.userId
            subscriptionId := Option.some subscription.id
            orderType := OrderType.subscription
            amount := amountDueMajor.getD 0
            amountInMinor := invoice.amount_due.getD 0
            currency := invoice.currency.getD "inr"
            status := OrderStatus.pending
            paymentStatus := PaymentStatus.failed
            invoiceStatus := invoice.status.getD InvoiceStatus.openInvoice
            productName := Option.some (subscriptionConfig.planName.getD DEFAULT_PRODUCT_NAME)
            productDescription :=
              Option.some
                (String.append "Subscription renewal payment (failed) - "
                  (subscriptionConfig.planName.getD "undefined"))
            billingEmail := invoice.customer_email
            billingName := Option.none
            stripeSessionId := Option.none
            stripeCustomerId := invoice.customer
            stripeSubscriptionId := Option.some subId
            stripePaymentIntentId := Option.none
            stripeInvoiceId := Option.some invoice.id
            receiptUrl := Option.none
            latestStripeEvent := Option.some "invoice.payment_failed"
            latestStripeEventId := Option.some eventId
            latestStripeEventReceivedAt := Option.some now
            metadata :=
              { OrderMetadata.empty with
                renewalPayment := Option.some "true"
                paymentFailed := Option.some "true"
                originalOrderId := firstOrder.map (fun (o : OrderRec) => o.id) }
            subscriptionConfig := Option.some subscriptionConfig
            createdAt := now }
        (Option.some failedOrder,
          { db1 with orders := db1.orders ++ [failedOrder], nextId := db1.nextId + 1 })
      | Option.none => (Option.none, db1)
    | Option.none => (Option.none, db1)
  | (Option.some o, db1) => (Option.some o, db1)
match r with
| (Option.none, db2) => db2
| (Option.some updated, db2) =>
  if updated.orderType == OrderType.subscription then
    (syncSubscriptionFromOrder updated
      { status := Option.some SubscriptionStatus.past_due
        currentPeriodEnd := periodEnd
        stripeSubscriptionId := invoiceSubscriptionId
        accumulatedValueDelta := Option.none
        accumulatedWeightDelta := Option.none } db2).2
  else db2

/-- `processStripeEvent` from `routes/checkout.ts` (the current version of
the processor, the one whose `customer.subscription.deleted` arm leaves the
Order ledger alone), dispatching on the event type. -/
def processStripeEvent (oracle : StripeOracle) (now : ℤ) (event : StripeEvent) (db : DB) : DB :=
  match event with
  | StripeEvent.checkoutSessionCompleted eventId session =>
    handleCheckoutSessionCompleted now eventId session db
  | StripeEvent.checkoutSessionAsyncPaymentFailed eventId session =>
    handleCheckoutSessionAsyncPaymentFailed now eventId session db
  | StripeEvent.paymentIntentCreated eventId paymentIntent =>
    handlePaymentIntentCreated oracle now eventId paymentIntent db
  | StripeEvent.paymentIntentPaymentFailed eventId paymentIntent =>
    handlePaymentIntentPaymentFailed oracle now eventId paymentIntent db
  | StripeEvent.invoicePaymentSucceeded eventId invoice =>
    handleInvoicePaymentSucceeded now eventId invoice db
  | StripeEvent.invoicePaymentFailed eventId invoice =>
    handleInvoicePaymentFailed now eventId invoice db
  | StripeEvent.customerSubscriptionCreated eventId ssub =>
    handleSubscriptionLifecycle eventId "customer.subscription.created" now ssub db
  | StripeEvent.customerSubscriptionUpdated eventId ssub =>
    handleSubscriptionLifecycle eventId "customer.subscription.updated" now ssub db
  | StripeEvent.customerSubscriptionDeleted _ ssub =>
    (applyStripeSubscriptionEvent ssub db).2
  | StripeEvent.otherEvent _ _ => db

/-- `webhookHandler` from `routes/checkout.ts`, as the status code it
responds with plus the resulting state.  `signaturePresent` is the presence
of the `stripe-signature` header, `verified` the outcome of
`stripe.webhooks.constructEvent` (with `none` for a verification failure,
a missing secret, or a non-Buffer body), and `processingFault` stands for an
exception thrown while awaiting `processStripeEvent` — the handler's second
`try/catch` answers 500 in that case (the partial state of the interrupted
processing is not modelled; only the response code matters to the claims). -/
def webhookHandler (oracle : StripeOracle) (now : ℤ) (signaturePresent : Bool)
    (verified : Option StripeEvent) (processingFault : Bool) (db : DB) : ℕ × DB :=
  if ¬signaturePresent then (400, db)
  else
    match verified with
    | Option.none => (400, db)
    | Option.some event =>
      if processingFault then (500, db)
      else (200, processStripeEvent oracle now event db)

/-- Outcome of the withdrawal-request creation handler
(`createWithdrawalRequest` in `withdrawalRequestController.ts`), as the
response it sends: `created` is the 201, the others are the handler's 4xx
rejections; `weightMismatch` carries the accumulated weight and unit quoted
in the error message (`Expected: ...`). -/
inductive CreateWithdrawalResult
  | created (request : WithdrawalRequestRec)
  | subscriptionNotFound
  | accessDenied
  | subscriptionNotActive
  | activeRequestExists
  | weightMismatch (expected : ℚ) (unit : UnitType)
deriving DecidableEq, Repr

/-- The request body of `POST /withdrawal-requests`. -/
structure CreateWithdrawalBody where
  subscriptionId : Option String
  metal : Metal
  requestedWeight : ℚ
  requestedUnit : UnitType
  estimatedValue : Option ℚ
  notes : Option String
deriving DecidableEq, Repr

/-- `activeStatuses` from `createWithdrawalRequest`. -/
def withdrawalActiveStatuses : List WithdrawalStatus :=
  [WithdrawalStatus.pending, WithdrawalStatus.in_review,
   WithdrawalStatus.approved, WithdrawalStatus.processing]

/-- Fresh id for a created withdrawal request. -/
def freshWithdrawalId (db : DB) : String := String.append "wr_gen_" (toString db.nextId)

/-- `createWithdrawalRequest` from `withdrawalRequestController.ts`: when the
body names a subscription, validate existence, ownership, active/trialing
status, absence of another active request, and that the requested weight
(converted into the subscription's unit) equals the accumulated weight
within the `0.0001` tolerance; then create the request (status defaults to
`pending`). -/
def createWithdrawalRequest (userId : String) (body : CreateWithdrawalBody) (db : DB) :
    CreateWithdrawalResult × DB :=
  let mkRequest : DB → CreateWithdrawalResult × DB := fun d =>
    let request : WithdrawalRequestRec :=
      { id := freshWithdrawalId d
        userId := userId
        subscriptionId := body.subscriptionId
        metal := body.metal
        requestedWeight := body.requestedWeight
        requestedUnit := body.requestedUnit
        estimatedValue := body.estimatedValue
        status := WithdrawalStatus.pending
        notes := body.notes }
    (CreateWithdrawalResult.created request,
      { d with withdrawalRequests := d.withdrawalRequests ++ [request], nextId := d.nextId + 1 })
  match body.subscriptionId with
  | Option.none => mkRequest db
  | Option.some subscriptionId =>
    match db.subscriptions.find? (fun s => s.id == subscriptionId) with
    | Option.none => (CreateWithdrawalResult.subscriptionNotFound, db)
    | Option.some subscription =>
      if subscription.userId ≠ userId then (CreateWithdrawalResult.accessDenied, db)
      else if ¬(subscription.status = SubscriptionStatus.active ∨
          subscription.status = SubscriptionStatus.trialing) then
        (CreateWithdrawalResult.subscriptionNotActive, db)
      else if (db.withdrawalRequests.find? (fun r =>
          r.subscriptionId == Option.some subscriptionId &&
          withdrawalActiveStatuses.contains r.status)).isSome then
        (CreateWithdrawalResult.activeRequestExists, db)
      else
        let requestedWeightInSubscriptionUnit :=
          convertWeight body.requestedWeight body.requestedUnit subscription.targetUnit
        let tolerance : ℚ := 0.0001
        if tolerance < |requestedWeightInSubscriptionUnit - subscription.accumulatedWeight| then
          (CreateWithdrawalResult.weightMismatch subscription.accumulatedWeight
            subscription.targetUnit, db)
        else mkRequest db

/-- The plan-configuration rule stated by the renewal-backfill claim,
formalized from the claim's words (not from the source): the new order's
plan configuration is the one carried by the earliest prior subscription-type
Order for the external subscription id, or the Subscription record's own
configuration when no prior Order exists. -/
def specRenewalPlanConfig (db : DB) (subId : String) (subscription : SubscriptionRec) :
    Option SubscriptionConfig :=
  match earliestOrder (db.orders.filter (fun (o : OrderRec) =>
      o.stripeSubscriptionId == Option.some subId && o.orderType == OrderType.subscription)) with
  | Option.some firstO => firstO.subscriptionConfig
  | Option.none =>
    Option.some
      { planName := Option.some subscription.planName
        metal := Option.some subscription.metal
        targetWeight := Option.some subscription.targetWeight
        targetUnit := Option.some subscription.targetUnit
        monthlyInvestment := Option.some subscription.monthlyInvestment
        quantity := Option.some subscription.quantity
        targetPrice := Option.some subscription.targetPrice
        interval := Option.none
        intervalCount := Option.none }

theorem updateFirst_length (p : α → Bool) (f : α → α) (l : List α) :
    (updateFirst p f l).length = l.length := by
  induction l with
  | nil => rfl
  | cons x xs ih =>
    simp only [updateFirst]
    split
    · simp
    · simp [ih]

theorem find?_updateFirst (p : α → Bool) (f : α → α) (l : List α) (a : α)
    (h : l.find? p = Option.some a) (hf : p (f a) = true) :
    (updateFirst p f l).find? p = Option.some (f a) := by
  induction l with
  | nil => simp at h
  | cons x xs ih =>
    by_cases hp : p x
    · rw [List.find?_cons_of_pos _ hp] at h
      injection h with h
      subst h
      simp only [updateFirst, hp, if_true]
      exact List.find?_cons_of_pos _ hf
    · rw [List.find?_cons_of_neg _ hp] at h
      simp only [updateFirst, hp, if_false, Bool.false_eq_true]
      rw [List.find?_cons_of_neg _ hp]
      exact ih h

theorem updateFirst_get_of_find? (p : α → Bool) (f : α → α) (l : List α) (a : α)
    (hfind : l.find? p = Option.some a) (i : ℕ) (h : i < l.length)
    (h' : i < (updateFirst p f l).length) :
    (updateFirst p f l).get ⟨i, h'⟩ = l.get ⟨i, h⟩ ∨
      (l.get ⟨i, h⟩ = a ∧ (updateFirst p f l).get ⟨i, h'⟩ = f a) := by
  induction l generalizing i with
  | nil => simp at h
  | cons x xs ih =>
    by_cases hp : p x
    · rw [List.find?_cons_of_pos _ hp] at hfind
      injection hfind with hfind
      cases i with
      | zero =>
        right
        subst hfind
        refine ⟨rfl, ?_⟩
        simp [updateFirst, hp]
      | succ n =>
        left
        simp [updateFirst, hp]
    · rw [List.find?_cons_of_neg _ hp] at hfind
      cases i with
      | zero =>
        left
        simp [updateFirst, hp]
      | succ n =>
        have h2 : n < xs.length := Nat.lt_of_succ_lt_succ h
        have h2' : n < (updateFirst p f xs).length := by
          rw [updateFirst_length]; exact h2
        have hstep : updateFirst p f (x :: xs) = x :: updateFirst p f xs := by
          simp [updateFirst, hp]
        rcases ih hfind n h2 h2' with h3 | h3
        · left
          rw [List.get_of_eq hstep ⟨n + 1, h'⟩]
          simpa using h3
        · right
          refine ⟨h3.1, ?_⟩
          rw [List.get_of_eq hstep ⟨n + 1, h'⟩]
          simpa using h3.2

/-- The subscription document as written by a successful settlement: both
accumulators zeroed, status flipped to `canceled` exactly in Case 2 (the
source marks `canceled` in every branch of its cancel/verify case split). -/
def settledSubscription (sub : SubscriptionRec) : SubscriptionRec :=
  { sub with
    accumulatedWeight := 0
    accumulatedValue := 0
    status :=
      if sub.targetWeight ≤ sub.accumulatedWeight then SubscriptionStatus.canceled
      else sub.status }

/-- The user document as written by a successful settlement: the counter of
the request's metal incremented by the requested weight converted to the
metal's standard reporting unit. -/
def settledUser (wr : WithdrawalRequestRec) (user : UserRec) : UserRec :=
  match wr.metal with
  | Metal.gold =>
    { user with withdrawnGold :=
        Option.some (user.withdrawnGold.getD 0 +
          convertWeight wr.requestedWeight wr.requestedUnit UnitType.g) }
  | Metal.silver =>
    { user with withdrawnSilver :=
        Option.some (user.withdrawnSilver.getD 0 +
          convertWeight wr.requestedWeight wr.requestedUnit UnitType.oz) }

theorem processWithdrawalApproval_cases (rid : String) (oc : StripeCancelOutcome)
    (fault : Bool) (db : DB) :
    ((processWithdrawalApproval rid oc fault db).1 ≠ WithdrawalOutcome.success ∧
      (processWithdrawalApproval rid oc fault db).2 = db) ∨
    (fault = false ∧
      ∃ wr subId sub user,
        db.withdrawalRequests.find? (fun r => r.id == rid) = Option.some wr ∧
        wr.status = WithdrawalStatus.approved ∧
        wr.subscriptionId = Option.some subId ∧
        db.subscriptions.find? (fun s => s.id == subId) = Option.some sub ∧
        sub.accumulatedWeight ≠ 0 ∧
        convertWeight wr.requestedWeight wr.requestedUnit sub.targetUnit ≤
          sub.accumulatedWeight ∧
        db.users.find? (fun u => u.id == wr.userId) = Option.some user ∧
        processWithdrawalApproval rid oc fault db =
          (WithdrawalOutcome.success,
            saveUser (settledUser wr user) (saveSubscription (settledSubscription sub) db))) := by
  cases hwr : db.withdrawalRequests.find? (fun r => r.id == rid) with
  | none =>
    left
    simp [processWithdrawalApproval, hwr]
  | some wr =>
    by_cases hdone : wr.status = WithdrawalStatus.completed ∨ wr.status = WithdrawalStatus.rejected
    · left
      simp [processWithdrawalApproval, hwr, hdone]
    · by_cases happ : wr.status = WithdrawalStatus.approved
      case neg =>
        left
        simp [processWithdrawalApproval, hwr, hdone, happ]
      cases hsid : wr.subscriptionId with
        | none =>
          left
          simp [processWithdrawalApproval, hwr, hdone, happ, hsid]
        | some subId =>
          cases hsub : db.subscriptions.find? (fun s => s.id == subId) with
          | none =>
            left
            simp [processWithdrawalApproval, hwr, hdone, happ, hsid, hsub]
          | some sub =>
            by_cases hwz : sub.accumulatedWeight = 0
            · left
              simp [processWithdrawalApproval, hwr, hdone, happ, hsid, hsub, hwz]
            · by_cases hins : sub.accumulatedWeight <
                  convertWeight wr.requestedWeight wr.requestedUnit sub.targetUnit
              · left
                simp [processWithdrawalApproval, hwr, hdone, happ, hsid, hsub, hwz, hins]
              · cases huser : db.users.find? (fun u => u.id == wr.userId) with
                | none =>
                  left
                  simp [processWithdrawalApproval, hwr, hdone, happ, hsid, hsub, hwz, hins,
                    huser]
                | some user =>
                  cases fault with
                  | true =>
                    left
                    simp [processWithdrawalApproval, hwr, hdone, happ, hsid, hsub, hwz, hins,
                      huser]
                  | false =>
                    right
                    refine ⟨rfl, wr, subId, sub, user, rfl, happ, hsid, hsub, hwz,
                      le_of_not_lt hins, huser, ?_⟩
                    simp only [processWithdrawalApproval, hwr, hdone, happ, hsid, hsub, hwz,
                      hins, huser]
                    have hnotne : ¬wr.status ≠ WithdrawalStatus.approved := by
                      simp [happ]
                    simp only [if_neg hnotne, Bool.false_eq_true, if_false]
                    cases hss : sub.stripeSubscriptionId <;>
                      cases oc <;>
                        cases hm : wr.metal <;>
                          by_cases hcase : sub.targetWeight ≤ sub.accumulatedWeight <;>
                            simp [settledUser, settledSubscription, hm, hss, hcase]

theorem processWithdrawalApproval_not_success (rid : String) (oc : StripeCancelOutcome)
    (fault : Bool) (db : DB)
    (h : (processWithdrawalApproval rid oc fault db).1 ≠ WithdrawalOutcome.success) :
    (processWithdrawalApproval rid oc fault db).2 = db := by
  rcases processWithdrawalApproval_cases rid oc fault db with ⟨_, h2⟩ | ⟨_, _, _, _, _, _, _, _,
    _, _, _, _, heq⟩
  · exact h2
  · exact absurd (by rw [heq]) h

theorem processWithdrawalApproval_success_of (rid : String) (oc : StripeCancelOutcome)
    (db : DB) (wr : WithdrawalRequestRec) (subId : String) (sub : SubscriptionRec)
    (user : UserRec)
    (hwr : db.withdrawalRequests.find? (fun r => r.id == rid) = Option.some wr)
    (happ : wr.status = WithdrawalStatus.approved)
    (hsid : wr.subscriptionId = Option.some subId)
    (hsub : db.subscriptions.find? (fun s => s.id == subId) = Option.some sub)
    (hwz : sub.accumulatedWeight ≠ 0)
    (hle : convertWeight wr.requestedWeight wr.requestedUnit sub.targetUnit ≤
      sub.accumulatedWeight)
    (huser : db.users.find? (fun u => u.id == wr.userId) = Option.some user) :
    (processWithdrawalApproval rid oc false db).1 = WithdrawalOutcome.success := by
  have hdone : ¬(wr.status = WithdrawalStatus.completed ∨
      wr.status = WithdrawalStatus.rejected) := by
    rw [happ]; simp
  simp [processWithdrawalApproval, hwr, hdone, happ, hsid, hsub, hwz, not_lt.mpr hle, huser]

/-- **C2.** A successful withdrawal settlement zeroes the subscription's
accumulated weight and value and credits the user's withdrawn-metal counter
(grams of gold, troy ounces of silver) by exactly the requested weight
converted to that standard unit — all in the single transactional state
transition; a settlement that fails in any way leaves the state untouched. -/
theorem C2_settlement_conservation (rid : String) (oc : StripeCancelOutcome) (fault : Bool)
    (db : DB) :
    ((processWithdrawalApproval rid oc fault db).1 ≠ WithdrawalOutcome.success →
      (processWithdrawalApproval rid oc fault db).2 = db) ∧
    ((processWithdrawalApproval rid oc fault db).1 = WithdrawalOutcome.success →
      ∃ wr subId sub user,
        db.withdrawalRequests.find? (fun r => r.id == rid) = Option.some wr ∧
        wr.subscriptionId = Option.some subId ∧
        db.subscriptions.find? (fun s => s.id == subId) = Option.some sub ∧
        db.users.find? (fun u => u.id == wr.userId) = Option.some user ∧
        (processWithdrawalApproval rid oc fault db).2.subscriptions.find?
            (fun s => s.id == subId) = Option.some (settledSubscription sub) ∧
        (settledSubscription sub).accumulatedWeight = 0 ∧
        (settledSubscription sub).accumulatedValue = 0 ∧
        (processWithdrawalApproval rid oc fault db).2.users.find?
            (fun u => u.id == wr.userId) = Option.some (settledUser wr user) ∧
        (wr.metal = Metal.gold →
          (settledUser wr user).withdrawnGold.getD 0 =
            user.withdrawnGold.getD 0 +
              convertWeight wr.requestedWeight wr.requestedUnit UnitType.g ∧
          (settledUser wr user).withdrawnSilver = user.withdrawnSilver) ∧
        (wr.metal = Metal.silver →
          (settledUser wr user).withdrawnSilver.getD 0 =
            user.withdrawnSilver.getD 0 +
              convertWeight wr.requestedWeight wr.requestedUnit UnitType.oz ∧
          (settledUser wr user).withdrawnGold = user.withdrawnGold)) := by
  rcases processWithdrawalApproval_cases rid oc fault db with ⟨hns, hunch⟩ | ⟨hfault, wr, subId,
    sub, user, hwr, happ, hsid, hsub, hwz, hle, huser, heq⟩
  · constructor
    · intro _; exact hunch
    · intro hs; exact absurd hs hns
  · constructor
    · intro hns; exact absurd (by rw [heq]) hns
    · intro _
      have hid : sub.id = subId := by
        have h := List.find?_some hsub
        simpa using h
      subst hid
      have huid : user.id = wr.userId := by
        have h := List.find?_some huser
        simpa using h
      have hsetid : (settledUser wr user).id = user.id := by
        cases hm : wr.metal <;> simp [settledUser, hm]
      refine ⟨wr, sub.id, sub, user, hwr, hsid, hsub, huser, ?_, rfl, rfl, ?_, ?_, ?_⟩
      · rw [heq]
        show (saveSubscription (settledSubscription sub) db).subscriptions.find?
            (fun s => s.id == sub.id) = Option.some (settledSubscription sub)
        unfold saveSubscription
        exact find?_updateFirst _ _ _ _ hsub (by simp [settledSubscription])
      · rw [heq]
        show (saveUser (settledUser wr user) (saveSubscription (settledSubscription sub) db)).users.find?
            (fun u => u.id == wr.userId) = Option.some (settledUser wr user)
        unfold saveUser
        rw [← huid] at huser ⊢
        simp only [hsetid]
        exact find?_updateFirst _ _ _ _ huser (by simp [hsetid])
      · intro hm
        refine ⟨?_, ?_⟩ <;> simp [settledUser, hm]
      · intro hm
        refine ⟨?_, ?_⟩ <;> simp [settledUser, hm]

/-- A concrete gold subscription used to instantiate the settlement
theorems: 2 g accumulated towards a 10 g target. -/
def subC2 : SubscriptionRec :=
  { id := "s1", userId := "u1", metal := Metal.gold, planName := "Plan A", targetWeight := 10,
    targetUnit := UnitType.g, monthlyInvestment := 100, quantity := 1, accumulatedValue := 5,
    accumulatedWeight := 2, status := SubscriptionStatus.active, stripeCustomerId := "cus_1",
    stripeSubscriptionId := Option.some "sub_1", targetPrice := 0,
    currentPeriodEnd := Option.none }

/-- An approved request to withdraw the accumulated 2 g. -/
def wrC2 : WithdrawalRequestRec :=
  { id := "wr1", userId := "u1", subscriptionId := Option.some "s1", metal := Metal.gold,
    requestedWeight := 2, requestedUnit := UnitType.g, estimatedValue := Option.none,
    status := WithdrawalStatus.approved, notes := Option.none }

/-- The owning user with 1 g already withdrawn. -/
def userC2 : UserRec := { id := "u1", withdrawnGold := Option.some 1, withdrawnSilver := Option.none }

/-- The settlement state for the C2 witness. -/
def dbC2 : DB :=
  { orders := [], subscriptions := [subC2], users := [userC2], withdrawalRequests := [wrC2],
    goldPrice := Option.none, silverPrice := Option.none, alerts := [], nextId := 0 }

theorem C2_settlement_conservation_witness :
    (processWithdrawalApproval "wr1" StripeCancelOutcome.verifiedCanceled false dbC2).1 =
      WithdrawalOutcome.success ∧
    (∃ wr subId sub user,
      dbC2.withdrawalRequests.find? (fun r => r.id == "wr1") = Option.some wr ∧
      wr.subscriptionId = Option.some subId ∧
      dbC2.subscriptions.find? (fun s => s.id == subId) = Option.some sub ∧
      dbC2.users.find? (fun u => u.id == wr.userId) = Option.some user ∧
      (processWithdrawalApproval "wr1" StripeCancelOutcome.verifiedCanceled false dbC2).2.subscriptions.find?
          (fun s => s.id == subId) = Option.some (settledSubscription sub) ∧
      (settledSubscription sub).accumulatedWeight = 0 ∧
      (settledSubscription sub).accumulatedValue = 0 ∧
      (processWithdrawalApproval "wr1" StripeCancelOutcome.verifiedCanceled false dbC2).2.users.find?
          (fun u => u.id == wr.userId) = Option.some (settledUser wr user) ∧
      (wr.metal = Metal.gold →
        (settledUser wr user).withdrawnGold.getD 0 =
          user.withdrawnGold.getD 0 +
            convertWeight wr.requestedWeight wr.requestedUnit UnitType.g ∧
        (settledUser wr user).withdrawnSilver = user.withdrawnSilver) ∧
      (wr.metal = Metal.silver →
        (settledUser wr user).withdrawnSilver.getD 0 =
          user.withdrawnSilver.getD 0 +
            convertWeight wr.requestedWeight wr.requestedUnit UnitType.oz ∧
        (settledUser wr user).withdrawnGold = user.withdrawnGold)) :=
  ⟨by decide,
    (C2_settlement_conservation "wr1" StripeCancelOutcome.verifiedCanceled false dbC2).2
      (by decide)⟩

/-- A subscription holding exactly 1 g accumulated, for the C3 counterexample. -/
def subC3 : SubscriptionRec :=
  { id := "s3", userId := "u3", metal := Metal.gold, planName := "Plan C", targetWeight := 10,
    targetUnit := UnitType.g, monthlyInvestment := 100, quantity := 1, accumulatedValue := 5,
    accumulatedWeight := 1, status := SubscriptionStatus.active, stripeCustomerId := "cus_3",
    stripeSubscriptionId := Option.none, targetPrice := 0, currentPeriodEnd := Option.none }

/-- An approved request for 1.00005 g — within the claimed 1e-4 tolerance of
the accumulated 1 g, but strictly above it. -/
def wrC3 : WithdrawalRequestRec :=
  { id := "wr3", userId := "u3", subscriptionId := Option.some "s3", metal := Metal.gold,
    requestedWeight := 100005/100000, requestedUnit := UnitType.g, estimatedValue := Option.none,
    status := WithdrawalStatus.approved, notes := Option.none }

/-- The owning user for the C3 counterexample. -/
def userC3 : UserRec := { id := "u3", withdrawnGold := Option.none, withdrawnSilver := Option.none }

/-- The settlement state for the C3 counterexample. -/
def dbC3 : DB :=
  { orders := [], subscriptions := [subC3], users := [userC3], withdrawalRequests := [wrC3],
    goldPrice := Option.none, silverPrice := Option.none, alerts := [], nextId := 0 }

/-- **C3, counterexample.**  The request converts to 1.00005 g against
1 g accumulated — within the claimed absolute tolerance of 1e-4 — yet the
settlement rejects it as insufficient: the approval-time check
`subscription.accumulatedWeight < requestedWeightInSubscriptionUnit` carries
no tolerance at all. -/
theorem C3_counterexample :
    convertWeight wrC3.requestedWeight wrC3.requestedUnit subC3.targetUnit ≤
      subC3.accumulatedWeight + 0.0001 ∧
    (processWithdrawalApproval "wr3" StripeCancelOutcome.verifiedCanceled false dbC3).1 =
      WithdrawalOutcome.failure "Insufficient accumulated weight" := by
  constructor
  · norm_num [wrC3, subC3, convertWeight]
  · norm_num [processWithdrawalApproval, dbC3, subC3, wrC3, userC3, convertWeight, List.find?]
    simp

/-- **C3 (amended).**  On an approved request against an existing
subscription with nonzero accumulated weight (and an existing user), the
settlement proceeds **iff** the unit-converted requested weight is at most
the accumulated weight, exactly — there is no tolerance; any converted
request strictly above the accumulated weight, however slightly, is
rejected as insufficient. -/
theorem C3_exact_threshold (rid : String) (oc : StripeCancelOutcome) (db : DB)
    (wr : WithdrawalRequestRec) (subId : String) (sub : SubscriptionRec) (user : UserRec)
    (hwr : db.withdrawalRequests.find? (fun r => r.id == rid) = Option.some wr)
    (happ : wr.status = WithdrawalStatus.approved)
    (hsid : wr.subscriptionId = Option.some subId)
    (hsub : db.subscriptions.find? (fun s => s.id == subId) = Option.some sub)
    (hwz : sub.accumulatedWeight ≠ 0)
    (huser : db.users.find? (fun u => u.id == wr.userId) = Option.some user) :
    (processWithdrawalApproval rid oc false db).1 = WithdrawalOutcome.success ↔
      convertWeight wr.requestedWeight wr.requestedUnit sub.targetUnit ≤
        sub.accumulatedWeight := by
  constructor
  · intro hs
    rcases processWithdrawalApproval_cases rid oc false db with ⟨hns, _⟩ | ⟨_, wr', subId', sub',
      user', hwr', _, hsid', hsub', _, hle', _, _⟩
    · exact absurd hs hns
    · rw [hwr] at hwr'
      injection hwr' with h1
      subst h1
      rw [hsid] at hsid'
      injection hsid' with h2
      subst h2
      rw [hsub] at hsub'
      injection hsub' with h3
      subst h3
      exact hle'
  · intro hle
    exact processWithdrawalApproval_success_of rid oc db wr subId sub user hwr happ hsid hsub
      hwz hle huser

theorem C3_exact_threshold_witness :
    (processWithdrawalApproval "wr1" StripeCancelOutcome.verifiedCanceled false dbC2).1 =
      WithdrawalOutcome.success ↔
    convertWeight wrC2.requestedWeight wrC2.requestedUnit subC2.targetUnit ≤
      subC2.accumulatedWeight :=
  C3_exact_threshold "wr1" StripeCancelOutcome.verifiedCanceled dbC2 wrC2 "s1" subC2 userC2
    (by decide) (by decide) (by decide) (by decide) (by decide) (by decide)

/-- **C4.**  On any successful settlement, regardless of the remote
cancel/verify outcome (including a failed external cancel call or failed
verification): if the pre-settlement accumulated weight reached the target
weight, the subscription ends up `canceled`; if it was strictly below the
target, the subscription status is unchanged. -/
theorem C4_case_split (rid : String) (oc : StripeCancelOutcome) (fault : Bool) (db : DB)
    (wr : WithdrawalRequestRec) (subId : String) (sub : SubscriptionRec)
    (hwr : db.withdrawalRequests.find? (fun r => r.id == rid) = Option.some wr)
    (hsid : wr.subscriptionId = Option.some subId)
    (hsub : db.subscriptions.find? (fun s => s.id == subId) = Option.some sub)
    (hs : (processWithdrawalApproval rid oc fault db).1 = WithdrawalOutcome.success) :
    ∃ sub',
      (processWithdrawalApproval rid oc fault db).2.subscriptions.find?
          (fun s => s.id == subId) = Option.some sub' ∧
      (sub.targetWeight ≤ sub.accumulatedWeight → sub'.status = SubscriptionStatus.canceled) ∧
      (sub.accumulatedWeight < sub.targetWeight → sub'.status = sub.status) := by
  rcases processWithdrawalApproval_cases rid oc fault db with ⟨hns, _⟩ | ⟨_, wr', subId', sub',
    user', hwr', _, hsid', hsub', _, _, _, heq⟩
  · exact absurd hs hns
  · rw [hwr] at hwr'
    injection hwr' with h1
    subst h1
    rw [hsid] at hsid'
    injection hsid' with h2
    subst h2
    rw [hsub] at hsub'
    injection hsub' with h3
    subst h3
    have hid : sub.id = subId := by
      have h := List.find?_some hsub
      simpa using h
    subst hid
    refine ⟨settledSubscription sub, ?_, ?_, ?_⟩
    · rw [heq]
      show (saveSubscription (settledSubscription sub) db).subscriptions.find?
          (fun s => s.id == sub.id) = Option.some (settledSubscription sub)
      unfold saveSubscription
      exact find?_updateFirst _ _ _ _ hsub (by simp [settledSubscription])
    · intro hcase
      simp [settledSubscription, if_pos hcase]
    · intro hlt
      simp [settledSubscription, if_neg (not_le.mpr hlt)]

/-- A matured subscription (accumulated = target = 10 g) for the C4 witness. -/
def subC4 : SubscriptionRec :=
  { id := "s4", userId := "u4", metal := Metal.gold, planName := "Plan D", targetWeight := 10,
    targetUnit := UnitType.g, monthlyInvestment := 100, quantity := 1, accumulatedValue := 50,
    accumulatedWeight := 10, status := SubscriptionStatus.active, stripeCustomerId := "cus_4",
    stripeSubscriptionId := Option.some "sub_4", targetPrice := 0,
    currentPeriodEnd := Option.none }

/-- An approved request draining the matured C4 subscription. -/
def wrC4 : WithdrawalRequestRec :=
  { id := "wr4", userId := "u4", subscriptionId := Option.some "s4", metal := Metal.gold,
    requestedWeight := 10, requestedUnit := UnitType.g, estimatedValue := Option.none,
    status := WithdrawalStatus.approved, notes := Option.none }

/-- The owning user for the C4 witness. -/
def userC4 : UserRec := { id := "u4", withdrawnGold := Option.none, withdrawnSilver := Option.none }

/-- The settlement state for the C4 witness. -/
def dbC4 : DB :=
  { orders := [], subscriptions := [subC4], users := [userC4], withdrawalRequests := [wrC4],
    goldPrice := Option.none, silverPrice := Option.none, alerts := [], nextId := 0 }

theorem C4_case_split_witness :
    (processWithdrawalApproval "wr4" StripeCancelOutcome.cancelFailed false dbC4).1 =
      WithdrawalOutcome.success ∧
    (∃ sub',
      (processWithdrawalApproval "wr4" StripeCancelOutcome.cancelFailed false dbC4).2.subscriptions.find?
          (fun s => s.id == "s4") = Option.some sub' ∧
      (subC4.targetWeight ≤ subC4.accumulatedWeight → sub'.status = SubscriptionStatus.canceled) ∧
      (subC4.accumulatedWeight < subC4.targetWeight → sub'.status = subC4.status)) :=
  ⟨by decide,
    C4_case_split "wr4" StripeCancelOutcome.cancelFailed false dbC4 wrC4 "s4" subC4
      (by decide) (by decide) (by decide) (by decide)⟩

/-- **C10.**  When a withdrawal-request creation names a subscription that
exists, is owned by the caller, is active or trialing, and has no other
active request, the request is accepted **iff** the requested weight
converted into the subscription's unit equals the accumulated weight within
an absolute tolerance of 0.0001; in particular a partial withdrawal asking
for strictly less than the accumulated weight beyond the tolerance is
rejected at creation time with an error quoting the expected (accumulated)
amount. -/
theorem C10_creation_exact_balance (userId : String) (body : CreateWithdrawalBody) (db : DB)
    (subscriptionId : String) (subscription : SubscriptionRec)
    (hbody : body.subscriptionId = Option.some subscriptionId)
    (hfind : db.subscriptions.find? (fun s => s.id == subscriptionId) =
      Option.some subscription)
    (howner : subscription.userId = userId)
    (hactive : subscription.status = SubscriptionStatus.active ∨
      subscription.status = SubscriptionStatus.trialing)
    (hnone : db.withdrawalRequests.find? (fun r =>
        r.subscriptionId == Option.some subscriptionId &&
        withdrawalActiveStatuses.contains r.status) = Option.none) :
    ((∃ r, (createWithdrawalRequest userId body db).1 = CreateWithdrawalResult.created r) ↔
      |convertWeight body.requestedWeight body.requestedUnit subscription.targetUnit -
          subscription.accumulatedWeight| ≤ 0.0001) ∧
    (convertWeight body.requestedWeight body.requestedUnit subscription.targetUnit <
        subscription.accumulatedWeight - 0.0001 →
      (createWithdrawalRequest userId body db).1 =
        CreateWithdrawalResult.weightMismatch subscription.accumulatedWeight
          subscription.targetUnit) := by
  have hconv :
      createWithdrawalRequest userId body db =
        (if (0.0001 : ℚ) <
            |convertWeight body.requestedWeight body.requestedUnit subscription.targetUnit -
              subscription.accumulatedWeight| then
          (CreateWithdrawalResult.weightMismatch subscription.accumulatedWeight
            subscription.targetUnit, db)
        else
          (CreateWithdrawalResult.created
            { id := freshWithdrawalId db
              userId := userId
              subscriptionId := body.subscriptionId
              metal := body.metal
              requestedWeight := body.requestedWeight
              requestedUnit := body.requestedUnit
              estimatedValue := body.estimatedValue
              status := WithdrawalStatus.pending
              notes := body.notes },
            { db with
              withdrawalRequests := db.withdrawalRequests ++
                [{ id := freshWithdrawalId db
                   userId := userId
                   subscriptionId := body.subscriptionId
                   metal := body.metal
                   requestedWeight := body.requestedWeight
                   requestedUnit := body.requestedUnit
                   estimatedValue := body.estimatedValue
                   status := WithdrawalStatus.pending
                   notes := body.notes }]
              nextId := db.nextId + 1 })) := by
    have hown2 : ¬subscription.userId ≠ userId := by simp [howner]
    have hact2 : ¬¬(subscription.status = SubscriptionStatus.active ∨
        subscription.status = SubscriptionStatus.trialing) := not_not_intro hactive
    have hnone2 : ¬(db.withdrawalRequests.find? (fun r =>
        r.subscriptionId == Option.some subscriptionId &&
        withdrawalActiveStatuses.contains r.status)).isSome = true := by
      rw [hnone]
      simp
    simp only [createWithdrawalRequest, hbody, hfind, if_neg hown2, if_neg hact2,
      if_neg hnone2]
  constructor
  · constructor
    · intro hcr
      rcases hcr with ⟨r, hr⟩
      by_contra hgt
      rw [hconv] at hr
      rw [if_pos (lt_of_not_le hgt)] at hr
      exact absurd hr (by simp)
    · intro hle
      rw [hconv, if_neg (not_lt.mpr hle)]
      exact ⟨_, rfl⟩
  · intro hlt
    have habs : (0.0001 : ℚ) <
        |convertWeight body.requestedWeight body.requestedUnit subscription.targetUnit -
          subscription.accumulatedWeight| := by
      have h1 : (0.0001 : ℚ) <
          subscription.accumulatedWeight -
            convertWeight body.requestedWeight body.requestedUnit subscription.targetUnit := by
        linarith
      calc (0.0001 : ℚ) <
          subscription.accumulatedWeight -
            convertWeight body.requestedWeight body.requestedUnit subscription.targetUnit := h1
        _ ≤ |subscription.accumulatedWeight -
            convertWeight body.requestedWeight body.requestedUnit subscription.targetUnit| :=
          le_abs_self _
        _ = |convertWeight body.requestedWeight body.requestedUnit subscription.targetUnit -
            subscription.accumulatedWeight| := abs_sub_comm _ _
    rw [hconv, if_pos habs]

/-- An active subscription with 5 g accumulated, for the C10 witness. -/
def subC10 : SubscriptionRec :=
  { id := "s10", userId := "u10", metal := Metal.gold, planName := "Plan E", targetWeight := 10,
    targetUnit := UnitType.g, monthlyInvestment := 100, quantity := 1, accumulatedValue := 25,
    accumulatedWeight := 5, status := SubscriptionStatus.active, stripeCustomerId := "cus_10",
    stripeSubscriptionId := Option.some "sub_10", targetPrice := 0,
    currentPeriodEnd := Option.none }

/-- A creation body asking for 10 g against 5 g accumulated (the
insufficient-balance scenario of the spec). -/
def bodyC10 : CreateWithdrawalBody :=
  { subscriptionId := Option.some "s10", metal := Metal.gold, requestedWeight := 10,
    requestedUnit := UnitType.g, estimatedValue := Option.none, notes := Option.none }

/-- The state for the C10 witness. -/
def dbC10 : DB :=
  { orders := [], subscriptions := [subC10], users := [], withdrawalRequests := [],
    goldPrice := Option.none, silverPrice := Option.none, alerts := [], nextId := 0 }

theorem C10_creation_exact_balance_witness :
    (((∃ r, (createWithdrawalRequest "u10" bodyC10 dbC10).1 =
        CreateWithdrawalResult.created r) ↔
      |convertWeight bodyC10.requestedWeight bodyC10.requestedUnit subC10.targetUnit -
          subC10.accumulatedWeight| ≤ 0.0001) ∧
    (convertWeight bodyC10.requestedWeight bodyC10.requestedUnit subC10.targetUnit <
        subC10.accumulatedWeight - 0.0001 →
      (createWithdrawalRequest "u10" bodyC10 dbC10).1 =
        CreateWithdrawalResult.weightMismatch subC10.accumulatedWeight subC10.targetUnit)) :=
  C10_creation_exact_balance "u10" bodyC10 dbC10 "s10" subC10 (by decide) (by decide)
    (by decide) (by decide) (by decide)

/-- An empty database for the handler-level examples. -/
def dbEmpty : DB :=
  { orders := [], subscriptions := [], users := [], withdrawalRequests := [],
    goldPrice := Option.none, silverPrice := Option.none, alerts := [], nextId := 0 }

/-- **C8, counterexample.**  A delivery whose signature verifies but whose
processing throws is answered with 500 — not a 2xx: the handler's second
`try/catch` (`routes/checkout.ts`, `res.status(500).send('Webhook handling
error')`) re-surfaces post-verification failures. -/
theorem C8_counterexample :
    (webhookHandler StripeOracle.empty 0 true
        (Option.some (StripeEvent.otherEvent "evt_x" "charge.succeeded")) true dbEmpty).1 =
      500 ∧
    ¬((webhookHandler StripeOracle.empty 0 true
        (Option.some (StripeEvent.otherEvent "evt_x" "charge.succeeded")) true dbEmpty).1 / 100 =
      2) := by
  constructor
  · rfl
  · decide

/-- **C8 (amended).**  The webhook endpoint answers 200 exactly when the
signature header is present, verification succeeds and processing completes
without a thrown exception; it answers 500 exactly when verification
succeeded but processing threw; and it answers 400 exactly when the header
is missing or verification failed. -/
theorem C8_status_codes (oracle : StripeOracle) (now : ℤ) (signaturePresent : Bool)
    (verified : Option StripeEvent) (processingFault : Bool) (db : DB) :
    ((webhookHandler oracle now signaturePresent verified processingFault db).1 = 200 ↔
      (signaturePresent = true ∧ verified.isSome = true ∧ processingFault = false)) ∧
    ((webhookHandler oracle now signaturePresent verified processingFault db).1 = 500 ↔
      (signaturePresent = true ∧ verified.isSome = true ∧ processingFault = true)) ∧
    ((webhookHandler oracle now signaturePresent verified processingFault db).1 = 400 ↔
      (signaturePresent = false ∨ verified = Option.none)) := by
  cases signaturePresent with
  | false => simp [webhookHandler]
  | true =>
    cases verified with
    | none => simp [webhookHandler]
    | some ev =>
      cases processingFault with
      | false => simp [webhookHandler]
      | true => simp [webhookHandler]

/-- Total accumulated weight across the Subscription store. -/
def totalAccWeight (db : DB) : ℚ := (db.subscriptions.map (fun s => s.accumulatedWeight)).sum

/-- Total accumulated value across the Subscription store. -/
def totalAccValue (db : DB) : ℚ := (db.subscriptions.map (fun s => s.accumulatedValue)).sum

theorem find?_key_eq_of_nodup (key : α → String) (l : List α)
    (hnd : (l.map key).Nodup) (a : α) (ha : a ∈ l) :
    l.find? (fun x => key x == key a) = Option.some a := by
  induction l with
  | nil => cases ha
  | cons x xs ih =>
    rcases List.mem_cons.mp ha with h | h
    · subst h
      exact List.find?_cons_of_pos _ (by simp)
    · have hx : key x ≠ key a := by
        intro hk
        have : key a ∈ xs.map key := List.mem_map_of_mem key h
        rw [← hk] at this
        exact (List.nodup_cons.mp hnd).1 this
      rw [List.find?_cons_of_neg _ (by simp [hx])]
      exact ih (List.nodup_cons.mp hnd).2 h

theorem map_sum_updateFirst (p : α → Bool) (f : α → α) (l : List α) (a : α)
    (hfind : l.find? p = Option.some a) (g : α → ℚ) :
    ((updateFirst p f l).map g).sum = (l.map g).sum - g a + g (f a) := by
  induction l with
  | nil => simp at hfind
  | cons x xs ih =>
    by_cases hp : p x
    · rw [List.find?_cons_of_pos _ hp] at hfind
      injection hfind with hfind
      subst hfind
      simp only [updateFirst, hp, if_true, List.map_cons, List.sum_cons]
      ring
    · rw [List.find?_cons_of_neg _ hp] at hfind
      simp only [updateFirst, hp, Bool.false_eq_true, if_false, List.map_cons, List.sum_cons,
        ih hfind]
      ring

theorem mem_of_orElse3 {α : Type} {a b c : Option α} {s : α}
    (h : (a.orElse (fun _ => b)).orElse (fun _ => c) = Option.some s) :
    a = Option.some s ∨ b = Option.some s ∨ c = Option.some s := by
  cases ha : a with
  | some x =>
    rw [ha] at h
    have h1 : ((Option.some x).orElse (fun _ => b)).orElse (fun _ => c) = Option.some x := rfl
    rw [h1] at h
    left
    exact h
  | none =>
    rw [ha] at h
    have h1 : ((Option.none : Option α).orElse (fun _ => b)).orElse (fun _ => c) =
        b.orElse (fun _ => c) := by
      cases b <;> rfl
    rw [h1] at h
    cases hb : b with
    | some y =>
      rw [hb] at h
      have h2 : ((Option.some y).orElse (fun _ => c)) = Option.some y := rfl
      rw [h2] at h
      right; left
      exact h
    | none =>
      rw [hb] at h
      have h2 : ((Option.none : Option α).orElse (fun _ => c)) = c := rfl
      rw [h2] at h
      right; right
      exact h

theorem findTargetSubscription_mem (order : OrderRec) (user customerId : String)
    (config : NormalizedConfig) (sid : Option String) (db : DB) (s : SubscriptionRec)
    (h : findTargetSubscription order user customerId config sid db = Option.some s) :
    s ∈ db.subscriptions := by
  unfold findTargetSubscription at h
  rcases mem_of_orElse3 h with h1 | h1 | h1
  · cases hsid : sid with
    | none => rw [hsid] at h1; simp at h1
    | some v =>
      rw [hsid] at h1
      exact List.mem_of_find?_eq_some h1
  · cases hoid : order.subscriptionId with
    | none => rw [hoid] at h1; simp at h1
    | some oid =>
      rw [hoid] at h1
      exact List.mem_of_find?_eq_some h1
  · exact List.mem_of_find?_eq_some h1

/-- The `$inc` value applied to `accumulatedValue` by one sync call. -/
def syncIncValue (options : SubscriptionSyncOptions) : ℚ :=
  if (match options.accumulatedValueDelta with
      | Option.some v => v != 0
      | Option.none => false) then
    options.accumulatedValueDelta.getD 0
  else 0

/-- The `$inc` value applied to `accumulatedWeight` by one sync call. -/
def syncIncWeight (order : OrderRec) (options : SubscriptionSyncOptions) (db : DB) : ℚ :=
  let config := buildConfigFromOrder order
  let weightDelta :=
    computeWeightDelta config.metal config.targetUnit
      options.accumulatedValueDelta options.accumulatedWeightDelta db
  if (match weightDelta with
      | Option.some w => w != 0
      | Option.none => false) then
    weightDelta.getD 0
  else 0

theorem computeWeightDelta_nonneg (metal : Metal) (targetUnit : UnitType)
    (amountDelta explicitWeightDelta : Option ℚ) (db : DB) (w : ℚ)
    (h : computeWeightDelta metal targetUnit amountDelta explicitWeightDelta db
      = Option.some w) : 0 ≤ w := by
  have hamount : ∀ a : ℚ, (if a ≤ 0 then Option.none
      else
        match getMetalPricePerUnit metal targetUnit db with
        | Option.none => Option.none
        | Option.some pricePerUnit =>
          if pricePerUnit ≤ 0 then Option.none
          else Option.some (a / pricePerUnit)) = Option.some w → 0 ≤ w := by
    intro a hh
    by_cases hle : a ≤ 0
    · rw [if_pos hle] at hh; cases hh
    · rw [if_neg hle] at hh
      cases hp : getMetalPricePerUnit metal targetUnit db with
      | none => rw [hp] at hh; cases hh
      | some price =>
        rw [hp] at hh
        simp only [] at hh
        by_cases hple : price ≤ 0
        · rw [if_pos hple] at hh; cases hh
        · rw [if_neg hple] at hh
          injection hh with hh
          rw [← hh]
          exact le_of_lt (div_pos (lt_of_not_le hle) (lt_of_not_le hple))
  unfold computeWeightDelta at h
  simp only [] at h
  cases he : explicitWeightDelta with
  | none =>
    rw [he] at h
    simp only [] at h
    cases ha : amountDelta with
    | none => rw [ha] at h; cases h
    | some a =>
      rw [ha] at h
      simp only [] at h
      exact hamount a h
  | some w0 =>
    rw [he] at h
    simp only [] at h
    by_cases h0 : 0 ≤ w0
    · rw [if_pos h0] at h
      injection h with h
      rw [← h]; exact h0
    · rw [if_neg h0] at h
      cases ha : amountDelta with
      | none => rw [ha] at h; cases h
      | some a =>
        rw [ha] at h
        simp only [] at h
        exact hamount a h

theorem syncIncWeight_nonneg (order : OrderRec) (options : SubscriptionSyncOptions)
    (db : DB) : 0 ≤ syncIncWeight order options db := by
  unfold syncIncWeight
  simp only []
  cases hwd : computeWeightDelta (buildConfigFromOrder order).metal
      (buildConfigFromOrder order).targetUnit options.accumulatedValueDelta
      options.accumulatedWeightDelta db with
  | none => simp
  | some w =>
    simp only []
    split
    · exact computeWeightDelta_nonneg _ _ _ _ _ _ hwd
    · exact le_refl 0

theorem syncIncValue_nonneg (options : SubscriptionSyncOptions)
    (hnn : ∀ v, options.accumulatedValueDelta = Option.some v → 0 ≤ v) :
    0 ≤ syncIncValue options := by
  unfold syncIncValue
  cases hd : options.accumulatedValueDelta with
  | none => simp
  | some v =>
    simp only []
    split
    · exact hnn v hd
    · exact le_refl 0

/-- After the step, the subscription with id `sid` is still found and its
accumulators have not decreased relative to `s`. -/
def subsMonoAt (sid : String) (s : SubscriptionRec) (db' : DB) : Prop :=
  ∃ s', db'.subscriptions.find? (fun x => x.id == sid) = Option.some s' ∧
    s.accumulatedValue ≤ s'.accumulatedValue ∧ s.accumulatedWeight ≤ s'.accumulatedWeight

theorem subsMonoAt_of_find? (sid : String) (s : SubscriptionRec) (db : DB)
    (hfind : db.subscriptions.find? (fun x => x.id == sid) = Option.some s) :
    subsMonoAt sid s db :=
  ⟨s, hfind, le_refl _, le_refl _⟩

theorem subsMonoAt_of_subs_eq (sid : String) (s : SubscriptionRec) (db db2 : DB)
    (heq : db2.subscriptions = db.subscriptions)
    (hfind : db.subscriptions.find? (fun x => x.id == sid) = Option.some s) :
    subsMonoAt sid s db2 :=
  ⟨s, by rw [heq]; exact hfind, le_refl _, le_refl _⟩

theorem syncSubscriptionFromOrder_found (order : OrderRec)
    (options : SubscriptionSyncOptions) (db : DB) (user customerId : String)
    (subscription : SubscriptionRec)
    (hord : order.orderType = OrderType.subscription)
    (huser : order.user = Option.some user)
    (hcust : order.stripeCustomerId = Option.some customerId)
    (hfound : findTargetSubscription order user customerId (buildConfigFromOrder order)
        (order.stripeSubscriptionId.orElse (fun _ => options.stripeSubscriptionId)) db =
      Option.some subscription)
    (hvok : 0 ≤ subscription.accumulatedValue + syncIncValue options)
    (hwok : 0 ≤ subscription.accumulatedWeight + syncIncWeight order options db) :
    ∃ subscription' : SubscriptionRec,
      (syncSubscriptionFromOrder order options db).1 = Option.some subscription' ∧
      subscription'.id = subscription.id ∧
      subscription'.accumulatedValue =
        subscription.accumulatedValue + syncIncValue options ∧
      subscription'.accumulatedWeight =
        subscription.accumulatedWeight + syncIncWeight order options db ∧
      (syncSubscriptionFromOrder order options db).2.subscriptions =
        updateFirst (fun x => x.id == subscription.id) (fun _ => subscription')
          db.subscriptions := by
  have hguard : ¬(subscription.accumulatedValue + syncIncValue options < 0 ∨
      subscription.accumulatedWeight + syncIncWeight order options db < 0) := by
    push_neg
    exact ⟨hvok, hwok⟩
  unfold syncSubscriptionFromOrder
  simp only [hord, huser, hcust, hfound]
  rw [if_neg]
  · split
    · exact ⟨_, rfl, rfl, rfl, rfl, rfl⟩
    · exact ⟨_, rfl, rfl, rfl, rfl, rfl⟩
  · exact hguard

theorem syncSubscriptionFromOrder_create (order : OrderRec)
    (options : SubscriptionSyncOptions) (db : DB) (user customerId : String)
    (hord : order.orderType = OrderType.subscription)
    (huser : order.user = Option.some user)
    (hcust : order.stripeCustomerId = Option.some customerId)
    (hfound : findTargetSubscription order user customerId (buildConfigFromOrder order)
        (order.stripeSubscriptionId.orElse (fun _ => options.stripeSubscriptionId)) db =
      Option.none)
    (hvok : 0 ≤ syncIncValue options) :
    ∃ newSubscription : SubscriptionRec,
      (syncSubscriptionFromOrder order options db).1 = Option.some newSubscription ∧
      newSubscription.accumulatedValue = syncIncValue options ∧
      newSubscription.accumulatedWeight = syncIncWeight order options db ∧
      (syncSubscriptionFromOrder order options db).2.subscriptions =
        db.subscriptions ++ [newSubscription] := by
  have hguard : ¬(syncIncValue options < 0 ∨ syncIncWeight order options db < 0) := by
    push_neg
    exact ⟨hvok, syncIncWeight_nonneg order options db⟩
  unfold syncSubscriptionFromOrder
  simp only [hord, huser, hcust, hfound]
  rw [if_neg]
  · exact ⟨_, rfl, rfl, rfl, rfl⟩
  · exact hguard

theorem syncSubscriptionFromOrder_skip (order : OrderRec)
    (options : SubscriptionSyncOptions) (db : DB)
    (h : ¬(order.orderType = OrderType.subscription ∧
      order.user.isSome = true ∧ order.stripeCustomerId.isSome = true)) :
    syncSubscriptionFromOrder order options db = (Option.none, db) := by
  unfold syncSubscriptionFromOrder
  rcases hord : order.orderType with _ | _
  · rcases huser : order.user with _ | u
    · rfl
    · rcases hcust : order.stripeCustomerId with _ | c
      · rfl
      · exact absurd ⟨hord, by rw [huser]; rfl, by rw [hcust]; rfl⟩ h
  · rfl

theorem getMetalPricePerUnit_none (metal : Metal) (targetUnit : UnitType) (db : DB)
    (h : priceRecord metal db = Option.none ∨
      ∃ p, priceRecord metal db = Option.some p ∧ p ≤ 0) :
    getMetalPricePerUnit metal targetUnit db = Option.none := by
  unfold getMetalPricePerUnit
  rcases h with h | ⟨p, hp, hple⟩
  · rw [h]
  · rw [hp]
    simp [hple]

theorem computeWeightDelta_none_of_price (metal : Metal) (targetUnit : UnitType) (db : DB)
    (v : ℚ) (hpu : getMetalPricePerUnit metal targetUnit db = Option.none) (hvpos : 0 < v) :
    computeWeightDelta metal targetUnit (Option.some v) Option.none db = Option.none := by
  unfold computeWeightDelta
  simp [hpu, not_le.mpr hvpos]

/-- **C9.**  A sync call carrying a positive monetary delta (and, as at
every call site in the repository, no explicit weight delta) against a price
cache with no usable price for the configured metal — absent or
non-positive — still succeeds, leaves the total accumulated weight of the
Subscription store unchanged, and increases the total accumulated value by
exactly the monetary delta.  (`hnd` is the mongo invariant that `_id`s are
unique; `hinv` is the schema invariant that stored accumulators are
non-negative — the very state the `min: 0` validators admit into the
store.) -/
theorem C9_price_gap_value_still_applied (order : OrderRec)
    (options : SubscriptionSyncOptions) (db : DB) (user customerId : String) (v : ℚ)
    (hord : order.orderType = OrderType.subscription)
    (huser : order.user = Option.some user)
    (hcust : order.stripeCustomerId = Option.some customerId)
    (hv : options.accumulatedValueDelta = Option.some v)
    (hvpos : 0 < v)
    (hwd : options.accumulatedWeightDelta = Option.none)
    (hprice : priceRecord (buildConfigFromOrder order).metal db = Option.none ∨
      ∃ p, priceRecord (buildConfigFromOrder order).metal db = Option.some p ∧ p ≤ 0)
    (hnd : (db.subscriptions.map (fun s => s.id)).Nodup)
    (hinv : ∀ s ∈ db.subscriptions, 0 ≤ s.accumulatedValue ∧ 0 ≤ s.accumulatedWeight) :
    (syncSubscriptionFromOrder order options db).1.isSome = true ∧
    totalAccWeight (syncSubscriptionFromOrder order options db).2 = totalAccWeight db ∧
    totalAccValue (syncSubscriptionFromOrder order options db).2 = totalAccValue db + v := by
  have hpu := getMetalPricePerUnit_none (buildConfigFromOrder order).metal
    (buildConfigFromOrder order).targetUnit db hprice
  have hincW : syncIncWeight order options db = 0 := by
    unfold syncIncWeight
    rw [hv, hwd]
    simp [computeWeightDelta_none_of_price _ _ _ _ hpu hvpos]
  have hincV : syncIncValue options = v := by
    unfold syncIncValue
    rw [hv]
    simp [ne_of_gt hvpos]
  cases hfound : findTargetSubscription order user customerId (buildConfigFromOrder order)
      (order.stripeSubscriptionId.orElse (fun _ => options.stripeSubscriptionId)) db with
  | some subscription =>
    have hmem0 := findTargetSubscription_mem _ _ _ _ _ _ _ hfound
    obtain ⟨hsv, hsw⟩ := hinv subscription hmem0
    obtain ⟨s', h1, hid, hval, hw, hsubs⟩ :=
      syncSubscriptionFromOrder_found order options db user customerId subscription hord
        huser hcust hfound
        (by rw [hincV]; exact add_nonneg hsv (le_of_lt hvpos))
        (by rw [hincW]; simpa using hsw)
    refine ⟨by rw [h1]; rfl, ?_, ?_⟩
    · unfold totalAccWeight
      rw [hsubs]
      have hmem := findTargetSubscription_mem _ _ _ _ _ _ _ hfound
      have hfind := find?_key_eq_of_nodup (fun s => s.id) _ hnd _ hmem
      rw [map_sum_updateFirst _ _ _ _ hfind]
      rw [hw, hincW]
      ring
    · unfold totalAccValue
      rw [hsubs]
      have hmem := findTargetSubscription_mem _ _ _ _ _ _ _ hfound
      have hfind := find?_key_eq_of_nodup (fun s => s.id) _ hnd _ hmem
      rw [map_sum_updateFirst _ _ _ _ hfind]
      rw [hval, hincV]
      ring
  | none =>
    obtain ⟨ns, h1, hval, hw, hsubs⟩ :=
      syncSubscriptionFromOrder_create order options db user customerId hord huser hcust
        hfound (by rw [hincV]; exact le_of_lt hvpos)
    refine ⟨by rw [h1]; rfl, ?_, ?_⟩
    · unfold totalAccWeight
      rw [hsubs]
      simp [hw, hincW]
    · unfold totalAccValue
      rw [hsubs]
      simp [hval, hincV]

/-- A paid subscription-type order for the C9 witness. -/
def orderC9 : OrderRec :=
  { id := "o9", user := Option.some "u9", subscriptionId := Option.none,
    orderType := OrderType.subscription, amount := 100, amountInMinor := 10000,
    currency := "inr", status := OrderStatus.paid, paymentStatus := PaymentStatus.succeeded,
    invoiceStatus := InvoiceStatus.paid, productName := Option.none,
    productDescription := Option.none, billingEmail := Option.none,
    billingName := Option.none, stripeSessionId := Option.none,
    stripeCustomerId := Option.some "cus_9", stripeSubscriptionId := Option.some "sub_9",
    stripePaymentIntentId := Option.none, stripeInvoiceId := Option.none,
    receiptUrl := Option.none, latestStripeEvent := Option.none,
    latestStripeEventId := Option.none, latestStripeEventReceivedAt := Option.none,
    metadata := OrderMetadata.empty,
    subscriptionConfig := Option.some
      { planName := Option.some "Plan F", metal := Option.some Metal.gold,
        targetWeight := Option.some 10, targetUnit := Option.some UnitType.g,
        monthlyInvestment := Option.some 100, quantity := Option.some 1,
        targetPrice := Option.some 0, interval := Option.none, intervalCount := Option.none },
    createdAt := 0 }

/-- The subscription the C9 order syncs into. -/
def subC9 : SubscriptionRec :=
  { id := "s9", userId := "u9", metal := Metal.gold, planName := "Plan F", targetWeight := 10,
    targetUnit := UnitType.g, monthlyInvestment := 100, quantity := 1, accumulatedValue := 300,
    accumulatedWeight := 3, status := SubscriptionStatus.active, stripeCustomerId := "cus_9",
    stripeSubscriptionId := Option.some "sub_9", targetPrice := 0,
    currentPeriodEnd := Option.none }

/-- Sync options carrying a positive monetary delta, as the
`invoice.payment_succeeded` handler passes them. -/
def optionsC9 : SubscriptionSyncOptions :=
  { status := Option.some SubscriptionStatus.active, currentPeriodEnd := Option.none,
    stripeSubscriptionId := Option.some "sub_9", accumulatedValueDelta := Option.some 100,
    accumulatedWeightDelta := Option.none }

/-- A state whose gold price cache is empty, for the C9 witness. -/
def dbC9 : DB :=
  { orders := [orderC9], subscriptions := [subC9], users := [], withdrawalRequests := [],
    goldPrice := Option.none, silverPrice := Option.none, alerts := [], nextId := 0 }

theorem C9_price_gap_value_still_applied_witness :
    (syncSubscriptionFromOrder orderC9 optionsC9 dbC9).1.isSome = true ∧
    totalAccWeight (syncSubscriptionFromOrder orderC9 optionsC9 dbC9).2 =
      totalAccWeight dbC9 ∧
    totalAccValue (syncSubscriptionFromOrder orderC9 optionsC9 dbC9).2 =
      totalAccValue dbC9 + 100 :=
  C9_price_gap_value_still_applied orderC9 optionsC9 dbC9 "u9" "cus_9" 100 (by decide)
    (by decide) (by decide) (by decide) (by decide) (by decide) (Or.inl (by decide))
    (by decide) (by decide)

theorem sync_orders_frame (order : OrderRec) (options : SubscriptionSyncOptions) (db : DB)
    (user customerId : String)
    (hord : order.orderType = OrderType.subscription)
    (huser : order.user = Option.some user)
    (hcust : order.stripeCustomerId = Option.some customerId) :
    (syncSubscriptionFromOrder order options db).2.orders = db.orders ∨
    ∃ sid, (syncSubscriptionFromOrder order options db).2.orders =
      updateFirst (fun x => x.id == order.id)
        (fun _ => { order with subscriptionId := Option.some sid }) db.orders := by
  unfold syncSubscriptionFromOrder
  simp only [hord, huser, hcust]
  cases hfound : findTargetSubscription order user customerId (buildConfigFromOrder order)
      (order.stripeSubscriptionId.orElse fun _ => options.stripeSubscriptionId) db with
  | some subscription =>
    simp only [hfound]
    by_cases hg : subscription.accumulatedValue + syncIncValue options < 0 ∨
        subscription.accumulatedWeight + syncIncWeight order options db < 0
    · rw [if_pos]
      · left
        rfl
      · exact hg
    · rw [if_neg]
      · split
        · right
          exact ⟨subscription.id, rfl⟩
        · left
          rfl
      · exact hg
  | none =>
    simp only [hfound]
    by_cases hg : syncIncValue options < 0 ∨ syncIncWeight order options db < 0
    · rw [if_pos]
      · left
        rfl
      · exact hg
    · rw [if_neg]
      · right
        exact ⟨freshSubId db, rfl⟩
      · exact hg

/-- Two order ledgers agree except possibly in the subscription back-link
field of individual orders: same length, and every order is unchanged in
every field other than `subscriptionId`. -/
def ordersAgreeUpToSubLink (l l' : List OrderRec) : Prop :=
  l'.length = l.length ∧
  ∀ i (h : i < l.length) (h' : i < l'.length),
    l'.get ⟨i, h'⟩ = { l.get ⟨i, h⟩ with subscriptionId := (l'.get ⟨i, h'⟩).subscriptionId }

theorem ordersAgreeUpToSubLink_refl (l : List OrderRec) : ordersAgreeUpToSubLink l l :=
  ⟨rfl, fun _ _ _ => rfl⟩

theorem ordersAgreeUpToSubLink_updateFirst (l : List OrderRec) (order : OrderRec)
    (sid : String) (hfind : l.find? (fun x => x.id == order.id) = Option.some order) :
    ordersAgreeUpToSubLink l
      (updateFirst (fun x => x.id == order.id)
        (fun _ => { order with subscriptionId := Option.some sid }) l) := by
  constructor
  · exact updateFirst_length _ _ _
  · intro i h h'
    rcases updateFirst_get_of_find? _ _ _ _ hfind i h h' with heq | ⟨hval, heq⟩
    · rw [heq]
    · rw [heq, hval]

/-- **C5 (amended).**  A `customer.subscription.deleted` event runs only the
external-snapshot re-application (`applyStripeSubscriptionEvent`); every
Order keeps its status, payment status and every other field — the only
possible Order mutation is back-link maintenance, i.e. setting the order's
`subscriptionId` when the snapshot re-application falls back to syncing from
the order named in the event's metadata. -/
theorem C5_deleted_frames_orders (oracle : StripeOracle) (now : ℤ) (eventId : String)
    (ssub : StripeSubscriptionObj) (db : DB) :
    processStripeEvent oracle now (StripeEvent.customerSubscriptionDeleted eventId ssub) db =
      (applyStripeSubscriptionEvent ssub db).2 ∧
    ordersAgreeUpToSubLink db.orders
      (processStripeEvent oracle now
        (StripeEvent.customerSubscriptionDeleted eventId ssub) db).orders := by
  refine ⟨rfl, ?_⟩
  show ordersAgreeUpToSubLink db.orders (applyStripeSubscriptionEvent ssub db).2.orders
  unfold applyStripeSubscriptionEvent
  cases hex : db.subscriptions.find?
      (fun s => s.stripeSubscriptionId == Option.some ssub.id) with
  | some existing =>
    simp only [hex]
    exact ordersAgreeUpToSubLink_refl _
  | none =>
    simp only [hex]
    cases hmo : ssub.metadataOrderId with
    | none => exact ordersAgreeUpToSubLink_refl _
    | some orderId =>
      simp only []
      by_cases hvalid : isValidObjectId orderId = true
      · rw [if_pos hvalid]
        cases hord : db.orders.find? (fun o => o.id == orderId) with
        | none => exact ordersAgreeUpToSubLink_refl _
        | some order =>
          simp only []
          by_cases hguard : order.orderType = OrderType.subscription ∧
              order.user.isSome = true ∧ order.stripeCustomerId.isSome = true
          · obtain ⟨hty, hu, hc⟩ := hguard
            obtain ⟨user, huser⟩ := Option.isSome_iff_exists.mp hu
            obtain ⟨customerId, hcust⟩ := Option.isSome_iff_exists.mp hc
            have hframe := sync_orders_frame order
              { status := Option.some (mapStripeSubscriptionStatus ssub.status)
                currentPeriodEnd :=
                  match ssub.current_period_end with
                  | Option.some seconds =>
                    if seconds ≠ 0 then Option.some (seconds * 1000) else Option.none
                  | Option.none => Option.none
                stripeSubscriptionId := Option.some ssub.id
                accumulatedValueDelta := Option.none
                accumulatedWeightDelta := Option.none } db user customerId hty huser hcust
            rcases hframe with hfr | ⟨sid, hfr⟩
            · rw [hfr]
              exact ordersAgreeUpToSubLink_refl _
            · rw [hfr]
              have hids : order.id = orderId := by simpa using List.find?_some hord
              have hpred : (fun (x : OrderRec) => x.id == order.id) =
                  (fun o => o.id == orderId) := by
                funext x
                rw [hids]
              exact ordersAgreeUpToSubLink_updateFirst _ order sid (by rw [hpred]; exact hord)
          · rw [syncSubscriptionFromOrder_skip _ _ _ hguard]
            exact ordersAgreeUpToSubLink_refl _
      · rw [if_neg hvalid]
        exact ordersAgreeUpToSubLink_refl _

/-- A pending subscription-type order with a valid ObjectId-shaped id and no
subscription back-link, for the C5 counterexample. -/
def orderC5 : OrderRec :=
  { id := "aaaaaaaaaaaaaaaaaaaaaaaa", user := Option.some "u5",
    subscriptionId := Option.none, orderType := OrderType.subscription, amount := 100,
    amountInMinor := 10000, currency := "inr", status := OrderStatus.paid,
    paymentStatus := PaymentStatus.succeeded, invoiceStatus := InvoiceStatus.paid,
    productName := Option.none, productDescription := Option.none,
    billingEmail := Option.none, billingName := Option.none, stripeSessionId := Option.none,
    stripeCustomerId := Option.some "cus_5", stripeSubscriptionId := Option.none,
    stripePaymentIntentId := Option.none, stripeInvoiceId := Option.none,
    receiptUrl := Option.none, latestStripeEvent := Option.none,
    latestStripeEventId := Option.none, latestStripeEventReceivedAt := Option.none,
    metadata := OrderMetadata.empty,
    subscriptionConfig := Option.some
      { planName := Option.some "Plan G", metal := Option.some Metal.gold,
        targetWeight := Option.some 10, targetUnit := Option.some UnitType.g,
        monthlyInvestment := Option.some 100, quantity := Option.some 1,
        targetPrice := Option.some 0, interval := Option.none, intervalCount := Option.none },
    createdAt := 0 }

/-- A deleted-subscription snapshot whose metadata names `orderC5` and whose
external subscription id matches no local Subscription. -/
def ssubC5 : StripeSubscriptionObj :=
  { id := "sub_X", status := StripeSubStatus.canceled, customer := Option.some "cus_5",
    current_period_end := Option.none, quantity := Option.none, unit_amount := Option.none,
    metadataOrderId := Option.some "aaaaaaaaaaaaaaaaaaaaaaaa" }

/-- The state for the C5 counterexample: one order, no subscriptions. -/
def dbC5 : DB :=
  { orders := [orderC5], subscriptions := [], users := [], withdrawalRequests := [],
    goldPrice := Option.none, silverPrice := Option.none, alerts := [], nextId := 0 }

/-- **C5, counterexample.**  Processing this `customer.subscription.deleted`
event mutates an Order field: the snapshot re-application finds no local
subscription for `sub_X`, falls back to syncing from the order named in the
event metadata, creates a Subscription and writes the back-link
`subscriptionId` onto the order — so it is not true that no Order record is
mutated in any field. -/
theorem C5_counterexample :
    (processStripeEvent StripeOracle.empty 0
        (StripeEvent.customerSubscriptionDeleted "evt_d" ssubC5) dbC5).orders.map
      (fun o => o.subscriptionId) = [Option.some "sub_gen_0"] ∧
    dbC5.orders.map (fun o => o.subscriptionId) = [Option.none] := by
  constructor
  · decide
  · decide

/-! ### C1: webhook idempotence under duplicate delivery -/

/-- The order for the C1 failing input: a subscription-type order already
stamped with `latestStripeEventId = "evt_dup"` from the first delivery,
back-linked to subscription `s1`. -/
def orderC1 : OrderRec :=
  { id := "o1", user := Option.some "u1", subscriptionId := Option.some "s1",
    orderType := OrderType.subscription, amount := 100, amountInMinor := 10000,
    currency := "inr", status := OrderStatus.paid, paymentStatus := PaymentStatus.succeeded,
    invoiceStatus := InvoiceStatus.paid, productName := Option.none,
    productDescription := Option.none, billingEmail := Option.none,
    billingName := Option.none, stripeSessionId := Option.none,
    stripeCustomerId := Option.some "cus_1", stripeSubscriptionId := Option.some "sub_1",
    stripePaymentIntentId := Option.none, stripeInvoiceId := Option.some "in_1",
    receiptUrl := Option.none, latestStripeEvent := Option.some "invoice.payment_succeeded",
    latestStripeEventId := Option.some "evt_dup",
    latestStripeEventReceivedAt := Option.some 1,
    metadata := OrderMetadata.empty,
    subscriptionConfig := Option.some
      { planName := Option.some "Plan H", metal := Option.some Metal.gold,
        targetWeight := Option.some 10, targetUnit := Option.some UnitType.g,
        monthlyInvestment := Option.some 100, quantity := Option.some 1,
        targetPrice := Option.some 0, interval := Option.none, intervalCount := Option.none },
    createdAt := 0 }

/-- The subscription already credited with the first delivery of the
invoice (`accumulatedValue = 100`). -/
def subC1 : SubscriptionRec :=
  { id := "s1", userId := "u1", metal := Metal.gold, planName := "Plan H", targetWeight := 10,
    targetUnit := UnitType.g, monthlyInvestment := 100, quantity := 1, accumulatedValue := 100,
    accumulatedWeight := 2, status := SubscriptionStatus.active, stripeCustomerId := "cus_1",
    stripeSubscriptionId := Option.some "sub_1", targetPrice := 0,
    currentPeriodEnd := Option.none }

/-- The invoice object carried by both deliveries of event `evt_dup`
(amount paid 10000 minor units = 100 major). -/
def invC1 : InvoiceObj :=
  { id := "in_1", status := Option.some InvoiceStatus.paid, metadataOrderId := Option.none,
    subscription := Option.some "sub_1", customer := Option.some "cus_1",
    payment_intent := Option.none, hosted_invoice_url := Option.none,
    invoice_pdf := Option.none, amount_paid := Option.some 10000,
    amount_due := Option.some 10000, currency := Option.some "inr",
    customer_email := Option.none, period_end := Option.none }

/-- The database state after the first delivery of `evt_dup`. -/
def dbC1 : DB :=
  { orders := [orderC1], subscriptions := [subC1], users := [], withdrawalRequests := [],
    goldPrice := Option.none, silverPrice := Option.none, alerts := [], nextId := 0 }

/-- **C1, code bug.**  Processing the same `invoice.payment_succeeded`
event a second time is not a no-op: the duplicate guard in
`updateOrderByLookup` does recognise the stored `latestStripeEventId` and
leaves the order untouched, but `processStripeEvent` then still calls
`syncSubscriptionFromOrder` on the matched order, crediting the invoice's
`amount_paid / 100` to the subscription again — `accumulatedValue` goes
from 100 to 200 although no new money arrived, contradicting the claimed
idempotence `processStripeEvent(e, processStripeEvent(e, db)) =
processStripeEvent(e, db)` (here `dbC1` is already `processStripeEvent(e, db0)`
up to the stamped fields, and re-processing changes it). -/
theorem C1_duplicate_event_double_count :
    dbC1.orders.map (fun o => o.latestStripeEventId) = [Option.some "evt_dup"] ∧
    dbC1.subscriptions.map (fun s => s.accumulatedValue) = [100] ∧
    (processStripeEvent StripeOracle.empty 5
        (StripeEvent.invoicePaymentSucceeded "evt_dup" invC1) dbC1).orders = dbC1.orders ∧
    (processStripeEvent StripeOracle.empty 5
        (StripeEvent.invoicePaymentSucceeded "evt_dup" invC1) dbC1).subscriptions.map
      (fun s => s.accumulatedValue) = [200] := by
  refine ⟨by decide, by decide, ?_, ?_⟩ <;>
    norm_num [processStripeEvent, handleInvoicePaymentSucceeded, updateOrderByLookup,
      buildFilters, updateOrderByLookupGo, matchesFilter, isValidObjectId,
      syncSubscriptionFromOrder, findTargetSubscription, buildConfigFromOrder,
      toPositiveNumber, toNonNegativeNumber, coerceMetal, coerceUnit,
      computeWeightDelta, getMetalPricePerUnit, priceRecord, saveSubscription,
      updateFirst, dbC1, orderC1, subC1, invC1, OrderLookup.empty,
      SubscriptionConfig.empty, List.find?]

/-! ### C6: renewal backfill for unmatched paid invoices -/

/-- When every filter of the lookup misses, the `updateOrderByLookup` loop
returns no order and only appends the ops notification. -/
theorem updateOrderByLookupGo_all_miss (filters : List OrderFilter)
    (applyUpdates : OrderRec → OrderRec) (context : Option StripeEventContext) (db : DB)
    (h : ∀ f ∈ filters, db.orders.find? (matchesFilter f) = Option.none) :
    updateOrderByLookupGo filters applyUpdates context db =
      (Option.none, { db with alerts := db.alerts ++ ["Stripe webhook could not match order"] }) := by
  induction filters with
  | nil => rfl
  | cons f rest ih =>
    simp only [updateOrderByLookupGo]
    rw [h f (List.mem_cons_self f rest)]
    exact ih (fun g hg => h g (List.mem_cons_of_mem f hg))

/-- A sync on an order whose external subscription id resolves to a stored
subscription that the order already back-links leaves the order ledger
untouched (the back-link branch is not taken and only the subscription is
saved). -/
theorem sync_orders_unchanged_of_backlink (order : OrderRec)
    (options : SubscriptionSyncOptions) (db : DB) (user customerId sid : String)
    (subscription : SubscriptionRec)
    (hord : order.orderType = OrderType.subscription)
    (huser : order.user = Option.some user)
    (hcust : order.stripeCustomerId = Option.some customerId)
    (hsid : order.stripeSubscriptionId = Option.some sid)
    (hfind : db.subscriptions.find?
        (fun (s : SubscriptionRec) => s.stripeSubscriptionId == Option.some sid)
      = Option.some subscription)
    (hlink : order.subscriptionId = Option.some subscription.id) :
    (syncSubscriptionFromOrder order options db).2.orders = db.orders := by
  have hfts : findTargetSubscription order user customerId (buildConfigFromOrder order)
      (order.stripeSubscriptionId.orElse fun _ => options.stripeSubscriptionId) db
      = Option.some subscription := by
    unfold findTargetSubscription
    rw [hsid]
    have h1 : (Option.some sid).orElse (fun _ => options.stripeSubscriptionId) = Option.some sid := rfl
    rw [h1]
    simp only [hfind]
    rfl
  unfold syncSubscriptionFromOrder
  simp only [hord, huser, hcust, hfts, hlink]
  by_cases hg : subscription.accumulatedValue + syncIncValue options < 0 ∨
      subscription.accumulatedWeight + syncIncWeight order options db < 0
  · rw [if_pos]
    exact hg
  · rw [if_neg]
    · simp [saveSubscription]
    · exact hg

/-- **C6.**  An `invoice.payment_succeeded` event whose order lookup misses
on every filter while a subscription with the invoice's external
subscription id exists creates exactly one new Order — appended to the
ledger, of `orderType` subscription, `paymentStatus` succeeded and `status`
paid — whose plan configuration follows the claimed rule `specRenewalPlanConfig`
(earliest prior order for that external subscription id, else the
subscription record itself; under these hypotheses no prior order can
exist, so the subscription-copy branch is the one taken). -/
theorem C6_renewal_backfill (oracle : StripeOracle) (now : ℤ) (eventId : String)
    (invoice : InvoiceObj) (subId : String) (subscription : SubscriptionRec) (db : DB)
    (hsub : invoice.subscription = Option.some subId)
    (hmiss : ∀ f ∈ buildFilters
        { OrderLookup.empty with
          orderId := invoice.metadataOrderId
          stripeSubscriptionId := Option.some subId
          stripeInvoiceId := Option.some invoice.id },
      db.orders.find? (matchesFilter f) = Option.none)
    (hfound : db.subscriptions.find?
        (fun (s : SubscriptionRec) => s.stripeSubscriptionId == Option.some subId)
      = Option.some subscription) :
    ∃ newOrder,
      (processStripeEvent oracle now (StripeEvent.invoicePaymentSucceeded eventId invoice) db).orders
        = db.orders ++ [newOrder] ∧
      newOrder.orderType = OrderType.subscription ∧
      newOrder.paymentStatus = PaymentStatus.succeeded ∧
      newOrder.status = OrderStatus.paid ∧
      newOrder.subscriptionConfig = specRenewalPlanConfig db subId subscription := by
  have hmem : OrderFilter.bySubscriptionId subId ∈ buildFilters
      { OrderLookup.empty with
        orderId := invoice.metadataOrderId
        stripeSubscriptionId := Option.some subId
        stripeInvoiceId := Option.some invoice.id } := by
    simp [buildFilters]
  have hnosub := hmiss _ hmem
  have hfilter : db.orders.filter (fun (o : OrderRec) =>
      o.stripeSubscriptionId == Option.some subId && o.orderType == OrderType.subscription) = [] := by
    rw [List.filter_eq_nil_iff]
    intro o ho
    have hno := List.find?_eq_none.mp hnosub o ho
    simp only [matchesFilter] at hno
    simp [hno]
  simp only [processStripeEvent, handleInvoicePaymentSucceeded, updateOrderByLookup, hsub]
  rw [updateOrderByLookupGo_all_miss _ _ _ _ hmiss]
  simp only []
  rw [hfound]
  simp only []
  rw [hfilter]
  simp only [earliestOrder, List.foldl]
  simp only [beq_self_eq_true, if_true]
  cases hc : invoice.customer with
  | none =>
    rw [syncSubscriptionFromOrder_skip _ _ _ (by intro hcon; simpa using hcon.2.2)]
    refine ⟨_, rfl, rfl, rfl, rfl, ?_⟩
    unfold specRenewalPlanConfig
    rw [hfilter]
    rfl
  | some cust =>
    refine ⟨_, Eq.trans (sync_orders_unchanged_of_backlink _ _ _ subscription.userId cust subId
      subscription ?_ ?_ ?_ ?_ ?_ ?_) rfl, rfl, rfl, rfl, ?_⟩
    case _ => rfl
    case _ => rfl
    case _ => rfl
    case _ => rfl
    case _ => exact hfound
    case _ => rfl
    case _ =>
      unfold specRenewalPlanConfig
      rw [hfilter]
      rfl

/-- A silver subscription with external id `sub_w`, the backfill witness
target. -/
def subC6w : SubscriptionRec :=
  { id := "s6", userId := "u6", metal := Metal.silver, planName := "Plan S", targetWeight := 50,
    targetUnit := UnitType.g, monthlyInvestment := 200, quantity := 1, accumulatedValue := 400,
    accumulatedWeight := 5, status := SubscriptionStatus.active, stripeCustomerId := "cus_6",
    stripeSubscriptionId := Option.some "sub_w", targetPrice := 0,
    currentPeriodEnd := Option.none }

/-- A paid invoice for `sub_w` that no stored order matches. -/
def invC6 : InvoiceObj :=
  { id := "in_6", status := Option.some InvoiceStatus.paid, metadataOrderId := Option.none,
    subscription := Option.some "sub_w", customer := Option.none,
    payment_intent := Option.none, hosted_invoice_url := Option.none,
    invoice_pdf := Option.none, amount_paid := Option.some 20000,
    amount_due := Option.some 20000, currency := Option.some "inr",
    customer_email := Option.none, period_end := Option.none }

/-- Witness state for C6: no orders at all, one subscription. -/
def dbC6 : DB :=
  { orders := [], subscriptions := [subC6w], users := [], withdrawalRequests := [],
    goldPrice := Option.none, silverPrice := Option.none, alerts := [], nextId := 0 }

theorem C6_renewal_backfill_witness :
    ∃ newOrder,
      (processStripeEvent StripeOracle.empty 7
          (StripeEvent.invoicePaymentSucceeded "evt_w6" invC6) dbC6).orders
        = dbC6.orders ++ [newOrder] ∧
      newOrder.orderType = OrderType.subscription ∧
      newOrder.paymentStatus = PaymentStatus.succeeded ∧
      newOrder.status = OrderStatus.paid ∧
      newOrder.subscriptionConfig = specRenewalPlanConfig dbC6 "sub_w" subC6w :=
  C6_renewal_backfill StripeOracle.empty 7 "evt_w6" invC6 "sub_w" subC6w dbC6
    (by decide) (by decide) (by decide)

/-! ### C7: accumulator monotonicity across event/sync/withdrawal sequences -/

/-- One system operation of the kinds the claim quantifies over: a delivered
Stripe event (with its SDK oracle and wall-clock time), a direct
`syncSubscriptionFromOrder` call, and a withdrawal approval processing. -/
inductive SysOp
  | stripe (oracle : StripeOracle) (now : ℤ) (event : StripeEvent)
  | syncOrder (order : OrderRec) (options : SubscriptionSyncOptions)
  | withdrawal (rid : String) (oc : StripeCancelOutcome) (fault : Bool)

/-- Execute one operation against the state. -/
def stepOp (op : SysOp) (db : DB) : DB :=
  match op with
  | SysOp.stripe oracle now event => processStripeEvent oracle now event db
  | SysOp.syncOrder order options => (syncSubscriptionFromOrder order options db).2
  | SysOp.withdrawal rid oc fault => (processWithdrawalApproval rid oc fault db).2

/-- Execute a sequence of operations left to right. -/
def stepOps (ops : List SysOp) (db : DB) : DB :=
  ops.foldl (fun d op => stepOp op d) db

/-- The operation carries no negative monetary delta: for
`invoice.payment_succeeded` the invoice's `amount_paid` (the only event field
ever forwarded as `accumulatedValueDelta`), for a direct sync the option bag's
`accumulatedValueDelta`; every other operation passes no value delta at all. -/
def opNonNeg (op : SysOp) : Bool :=
  match op with
  | SysOp.stripe _ _ (StripeEvent.invoicePaymentSucceeded _ invoice) =>
    match invoice.amount_paid with
    | Option.some a => decide (0 ≤ a)
    | Option.none => true
  | SysOp.syncOrder _ options =>
    match options.accumulatedValueDelta with
    | Option.some v => decide (0 ≤ v)
    | Option.none => true
  | _ => true

/-- Whether the operation is a withdrawal approval processing. -/
def opIsWithdrawal (op : SysOp) : Bool :=
  match op with
  | SysOp.withdrawal _ _ _ => true
  | _ => false

/-- The mongo `_id` invariant: subscription ids are pairwise distinct. -/
def subsIdsNodup (db : DB) : Prop := (db.subscriptions.map (fun s => s.id)).Nodup

/-- The `_id` invariant holds in the start state and along every
intermediate state of the sequence. -/
def nodupAlong : List SysOp → DB → Bool
  | [], db => decide ((db.subscriptions.map (fun s => s.id)).Nodup)
  | op :: rest, db =>
    decide ((db.subscriptions.map (fun s => s.id)).Nodup) && nodupAlong rest (stepOp op db)

theorem find?_updateFirst_of_disjoint (p q : α → Bool) (f : α → α) (l : List α)
    (hq : ∀ x, q x = true → p x = false) (hqf : ∀ x, q x = true → p (f x) = false) :
    (updateFirst q f l).find? p = l.find? p := by
  induction l with
  | nil => rfl
  | cons x xs ih =>
    by_cases hx : q x
    · simp only [updateFirst, hx, if_true]
      rw [List.find?_cons_of_neg _ (by simp [hqf x hx]),
        List.find?_cons_of_neg _ (by simp [hq x hx])]
    · simp only [updateFirst, hx, Bool.false_eq_true, if_false]
      cases hpx : p x
      · rw [List.find?_cons_of_neg _ (by simp [hpx]), List.find?_cons_of_neg _ (by simp [hpx])]
        exact ih
      · rw [List.find?_cons_of_pos _ hpx, List.find?_cons_of_pos _ hpx]

theorem find?_append_some (p : α → Bool) (l ltail : List α) (a : α)
    (h : l.find? p = Option.some a) : (l ++ ltail).find? p = Option.some a := by
  induction l with
  | nil => simp at h
  | cons x xs ih =>
    cases hx : p x
    · rw [List.find?_cons_of_neg _ (by simp [hx])] at h
      rw [List.cons_append, List.find?_cons_of_neg _ (by simp [hx])]
      exact ih h
    · rw [List.find?_cons_of_pos _ hx] at h
      rw [List.cons_append, List.find?_cons_of_pos _ hx]
      exact h

theorem updateFirst_find?_mono (l : List SubscriptionRec) (sid : String)
    (s told t : SubscriptionRec)
    (hnd : (l.map (fun x => x.id)).Nodup)
    (hfind : l.find? (fun x => x.id == sid) = Option.some s)
    (hmem : told ∈ l)
    (hid : t.id = told.id) :
    ∃ s', (updateFirst (fun x => x.id == t.id) (fun _ => t) l).find? (fun x => x.id == sid)
        = Option.some s' ∧ (s' = s ∨ (told = s ∧ s' = t)) := by
  by_cases hts : told.id = sid
  · have hft : l.find? (fun x => x.id == told.id) = Option.some told :=
      find?_key_eq_of_nodup (fun x => x.id) l hnd told hmem
    rw [hts] at hft
    rw [hfind] at hft
    injection hft with hft
    refine ⟨t, ?_, Or.inr ⟨hft.symm, rfl⟩⟩
    have hpred : (fun (x : SubscriptionRec) => x.id == t.id)
        = (fun (x : SubscriptionRec) => x.id == sid) := by
      funext x
      rw [hid, hts]
    rw [hpred]
    exact find?_updateFirst _ _ _ _ hfind (by simp [hid, hts])
  · refine ⟨s, ?_, Or.inl rfl⟩
    rw [find?_updateFirst_of_disjoint]
    · exact hfind
    · intro x hx
      simp only [beq_iff_eq] at hx
      simp [hx, hid, hts]
    · intro x hx
      simp [hid, hts]

theorem sync_step_mono (order : OrderRec) (options : SubscriptionSyncOptions) (db : DB)
    (sid : String) (s : SubscriptionRec)
    (hnn : ∀ v, options.accumulatedValueDelta = Option.some v → 0 ≤ v)
    (hnd : subsIdsNodup db)
    (hfind : db.subscriptions.find? (fun x => x.id == sid) = Option.some s) :
    subsMonoAt sid s (syncSubscriptionFromOrder order options db).2 := by
  by_cases hshape : order.orderType = OrderType.subscription ∧
      order.user.isSome = true ∧ order.stripeCustomerId.isSome = true
  · obtain ⟨hord, huser, hcust⟩ := hshape
    obtain ⟨user, huser⟩ := Option.isSome_iff_exists.mp huser
    obtain ⟨customerId, hcust⟩ := Option.isSome_iff_exists.mp hcust
    cases hfts : findTargetSubscription order user customerId (buildConfigFromOrder order)
        (order.stripeSubscriptionId.orElse (fun _ => options.stripeSubscriptionId)) db with
    | some subscription =>
      by_cases hg : subscription.accumulatedValue + syncIncValue options < 0 ∨
          subscription.accumulatedWeight + syncIncWeight order options db < 0
      · have hsync : syncSubscriptionFromOrder order options db = (Option.none, db) := by
          unfold syncSubscriptionFromOrder
          simp only [hord, huser, hcust, hfts]
          rw [if_pos]
          exact hg
        rw [hsync]
        exact subsMonoAt_of_find? sid s db hfind
      · push_neg at hg
        obtain ⟨subscription', hres, hid, hval, hweight, hsubs⟩ :=
          syncSubscriptionFromOrder_found order options db user customerId subscription
            hord huser hcust hfts hg.1 hg.2
        have hmem : subscription ∈ db.subscriptions :=
          findTargetSubscription_mem order user customerId _ _ db subscription hfts
        have hup : updateFirst (fun x => x.id == subscription.id) (fun _ => subscription')
            db.subscriptions
            = updateFirst (fun x => x.id == subscription'.id) (fun _ => subscription')
              db.subscriptions := by
          rw [hid]
        obtain ⟨s', hfind', hcases⟩ := updateFirst_find?_mono db.subscriptions sid s
          subscription subscription' hnd hfind hmem hid
        refine ⟨s', by rw [hsubs, hup]; exact hfind', ?_⟩
        rcases hcases with h | ⟨hts, hst⟩
        · rw [h]
          exact ⟨le_refl _, le_refl _⟩
        · rw [hst, hval, hweight, ← hts]
          constructor
          · have := syncIncValue_nonneg options hnn
            linarith
          · have := syncIncWeight_nonneg order options db
            linarith
    | none =>
      obtain ⟨newSubscription, hres, hval, hweight, hsubs⟩ :=
        syncSubscriptionFromOrder_create order options db user customerId
          hord huser hcust hfts (syncIncValue_nonneg options hnn)
      refine ⟨s, ?_, le_refl _, le_refl _⟩
      rw [hsubs]
      exact find?_append_some _ _ _ _ hfind
  · rw [syncSubscriptionFromOrder_skip order options db hshape]
    exact subsMonoAt_of_find? sid s db hfind

theorem saveSubscription_step_mono (t : SubscriptionRec) (db : DB) (sid : String)
    (s told : SubscriptionRec)
    (hnd : subsIdsNodup db)
    (hfind : db.subscriptions.find? (fun x => x.id == sid) = Option.some s)
    (hmem : told ∈ db.subscriptions)
    (hid : t.id = told.id)
    (hv : told.accumulatedValue ≤ t.accumulatedValue)
    (hw : told.accumulatedWeight ≤ t.accumulatedWeight) :
    subsMonoAt sid s (saveSubscription t db) := by
  obtain ⟨s', hfind', hcases⟩ := updateFirst_find?_mono db.subscriptions sid s told t
    hnd hfind hmem hid
  refine ⟨s', hfind', ?_⟩
  rcases hcases with h | ⟨hts, hst⟩
  · rw [h]; exact ⟨le_refl _, le_refl _⟩
  · rw [hst, ← hts]
    exact ⟨hv, hw⟩

theorem applySubEvent_step_mono (ssub : StripeSubscriptionObj) (db : DB)
    (sid : String) (s : SubscriptionRec)
    (hnd : subsIdsNodup db)
    (hfind : db.subscriptions.find? (fun x => x.id == sid) = Option.some s) :
    subsMonoAt sid s (applyStripeSubscriptionEvent ssub db).2 := by
  unfold applyStripeSubscriptionEvent
  cases hex : db.subscriptions.find?
      (fun x => x.stripeSubscriptionId == Option.some ssub.id) with
  | some existing =>
    simp only []
    have hmem : existing ∈ db.subscriptions := List.mem_of_find?_eq_some hex
    exact saveSubscription_step_mono _ db sid s existing hnd hfind hmem rfl
      (le_refl _) (le_refl _)
  | none =>
    simp only []
    cases hmo : ssub.metadataOrderId with
    | none => exact subsMonoAt_of_find? sid s db hfind
    | some orderId =>
      simp only []
      by_cases hvalid : isValidObjectId orderId = true
      · rw [if_pos hvalid]
        cases hord : db.orders.find? (fun o => o.id == orderId) with
        | none => exact subsMonoAt_of_find? sid s db hfind
        | some order =>
          simp only []
          exact sync_step_mono order _ db sid s (by intro v hv; cases hv) hnd hfind
      · rw [if_neg hvalid]
        exact subsMonoAt_of_find? sid s db hfind

theorem updateOrderByLookupGo_subs (filters : List OrderFilter)
    (applyUpdates : OrderRec → OrderRec) (context : Option StripeEventContext) (db : DB) :
    (updateOrderByLookupGo filters applyUpdates context db).2.subscriptions
      = db.subscriptions := by
  induction filters with
  | nil => rfl
  | cons flt rest ih =>
    simp only [updateOrderByLookupGo]
    cases hf : db.orders.find? (matchesFilter flt) with
    | none =>
      simp only []
      exact ih
    | some order =>
      simp only []
      cases context with
      | none => rfl
      | some c =>
        simp only []
        split
        · rfl
        · rfl

theorem updateOrderByLookup_subs (lookup : OrderLookup)
    (applyUpdates : OrderRec → OrderRec) (context : Option StripeEventContext) (db : DB) :
    (updateOrderByLookup lookup applyUpdates context db).2.subscriptions
      = db.subscriptions := by
  unfold updateOrderByLookup
  exact updateOrderByLookupGo_subs _ _ _ db

theorem strategy4cLoop_subs (sessions : List SessionLite) (pid : String)
    (applyUpdates : OrderRec → OrderRec) (context : Option StripeEventContext) (db : DB) :
    (strategy4cLoop sessions pid applyUpdates context db).2.subscriptions
      = db.subscriptions := by
  induction sessions generalizing db with
  | nil => rfl
  | cons session rest ih =>
    simp only [strategy4cLoop]
    split
    · cases hmo : session.metadataOrderId with
      | none =>
        simp only []
        exact ih db
      | some oid =>
        simp only []
        split
        next o db1 heq =>
          have h2 := updateOrderByLookup_subs
            { OrderLookup.empty with
              orderId := Option.some oid
              stripeSessionId := Option.some session.id } applyUpdates context db
          rw [heq] at h2
          exact h2
        next o db1 heq =>
          have h2 := updateOrderByLookup_subs
            { OrderLookup.empty with
              orderId := Option.some oid
              stripeSessionId := Option.some session.id } applyUpdates context db
          rw [heq] at h2
          exact (ih db1).trans h2
    · exact ih db

theorem subsIdsNodup_of_eq (db db2 : DB) (h : db2.subscriptions = db.subscriptions)
    (hnd : subsIdsNodup db) : subsIdsNodup db2 := by
  unfold subsIdsNodup at hnd ⊢
  rw [h]
  exact hnd

theorem subs_eq_of_lookup_eq (lookup : OrderLookup) (applyUpdates : OrderRec → OrderRec)
    (context : Option StripeEventContext) (db : DB) (o : Option OrderRec) (db1 : DB)
    (heq : updateOrderByLookup lookup applyUpdates context db = (o, db1)) :
    db1.subscriptions = db.subscriptions := by
  have h3 := congrArg (fun (p : Option OrderRec × DB) => p.2.subscriptions) heq
  simp only [] at h3
  rw [← h3]
  exact updateOrderByLookup_subs _ _ _ db

theorem handleCheckoutSessionCompleted_step_mono (now : ℤ) (eventId : String)
    (session : CheckoutSessionObj) (db : DB) (sid : String) (s : SubscriptionRec)
    (hnd : subsIdsNodup db)
    (hfind : db.subscriptions.find? (fun x => x.id == sid) = Option.some s) :
    subsMonoAt sid s (handleCheckoutSessionCompleted now eventId session db) := by
  unfold handleCheckoutSessionCompleted
  simp only []
  split
  next db1 heq =>
    have h2 := subs_eq_of_lookup_eq _ _ _ _ _ _ heq
    exact subsMonoAt_of_subs_eq sid s db _ h2 hfind
  next updated db1 heq =>
    have h2 := subs_eq_of_lookup_eq _ _ _ _ _ _ heq
    split
    · exact sync_step_mono updated _ db1 sid s (by intro v hv; cases hv)
        (subsIdsNodup_of_eq db db1 h2 hnd) (by rw [h2]; exact hfind)
    · exact subsMonoAt_of_subs_eq sid s db db1 h2 hfind

theorem handleCheckoutSessionAsyncPaymentFailed_step_mono (now : ℤ) (eventId : String)
    (session : CheckoutSessionObj) (db : DB) (sid : String) (s : SubscriptionRec)
    (hnd : subsIdsNodup db)
    (hfind : db.subscriptions.find? (fun x => x.id == sid) = Option.some s) :
    subsMonoAt sid s (handleCheckoutSessionAsyncPaymentFailed now eventId session db) := by
  unfold handleCheckoutSessionAsyncPaymentFailed
  simp only []
  split
  next db1 heq =>
    have h2 := subs_eq_of_lookup_eq _ _ _ _ _ _ heq
    exact subsMonoAt_of_subs_eq sid s db _ h2 hfind
  next updated db1 heq =>
    have h2 := subs_eq_of_lookup_eq _ _ _ _ _ _ heq
    split
    · exact sync_step_mono updated _ db1 sid s (by intro v hv; cases hv)
        (subsIdsNodup_of_eq db db1 h2 hnd) (by rw [h2]; exact hfind)
    · exact subsMonoAt_of_subs_eq sid s db db1 h2 hfind

theorem handleSubscriptionLifecycle_step_mono (eventId typeName : String) (now : ℤ)
    (ssub : StripeSubscriptionObj) (db : DB) (sid : String) (s : SubscriptionRec)
    (hnd : subsIdsNodup db)
    (hfind : db.subscriptions.find? (fun x => x.id == sid) = Option.some s) :
    subsMonoAt sid s (handleSubscriptionLifecycle eventId typeName now ssub db) := by
  unfold handleSubscriptionLifecycle
  simp only []
  have h2 := updateOrderByLookup_subs
    { OrderLookup.empty with
      orderId := ssub.metadataOrderId
      stripeSubscriptionId := Option.some ssub.id }
    (fun (o : OrderRec) =>
      { o with
        latestStripeEvent := Option.some typeName
        status := (mapSubscriptionStatus ssub.status).1
        paymentStatus := (mapSubscriptionStatus ssub.status).2
        stripeSubscriptionId := Option.some ssub.id
        stripeCustomerId := ssub.customer })
    (Option.some ⟨eventId, typeName, now⟩) db
  exact applySubEvent_step_mono ssub _ sid s
    (subsIdsNodup_of_eq db _ h2 hnd) (by rw [h2]; exact hfind)

theorem handlePaymentIntentCreated_subs (oracle : StripeOracle) (now : ℤ)
    (eventId : String) (paymentIntent : PaymentIntentObj) (db : DB) :
    (handlePaymentIntentCreated oracle now eventId paymentIntent db).subscriptions
      = db.subscriptions := by
  unfold handlePaymentIntentCreated
  split
  · rfl
  · simp only []
    split
    · rfl
    · split
      · rfl
      · rfl

theorem handleInvoicePaymentSucceeded_step_mono (now : ℤ) (eventId : String)
    (invoice : InvoiceObj) (db : DB) (sid : String) (s : SubscriptionRec)
    (hnnA : ∀ a, invoice.amount_paid = Option.some a → 0 ≤ a)
    (hnd : subsIdsNodup db)
    (hfind : db.subscriptions.find? (fun x => x.id == sid) = Option.some s) :
    subsMonoAt sid s (handleInvoicePaymentSucceeded now eventId invoice db) := by
  have hmap : ∀ v, invoice.amount_paid.map (fun a => (a : ℚ) / 100) = Option.some v →
      0 ≤ v := by
    intro v hv
    cases ha : invoice.amount_paid with
    | none => rw [ha] at hv; cases hv
    | some a =>
      rw [ha] at hv
      simp only [Option.map] at hv
      injection hv with hv
      rw [← hv]
      exact div_nonneg (by exact_mod_cast hnnA a ha) (by norm_num)
  unfold handleInvoicePaymentSucceeded
  simp only []
  split
  all_goals rename_i heq
  all_goals repeat split at heq
  all_goals (injection heq with h1 h2; try (injection h1))
  all_goals subst h2
  all_goals
    first
    | (refine subsMonoAt_of_subs_eq sid s db _ ?_ hfind
       try simp only []
       rw [subs_eq_of_lookup_eq _ _ _ _ _ _ (by assumption)])
    | (split
       · refine sync_step_mono _ _ _ sid s hmap ?_ ?_
         · refine subsIdsNodup_of_eq db _ ?_ hnd
           try simp only []
           rw [subs_eq_of_lookup_eq _ _ _ _ _ _ (by assumption)]
         · try simp only []
           rw [subs_eq_of_lookup_eq _ _ _ _ _ _ (by assumption)]
           exact hfind
       · refine subsMonoAt_of_subs_eq sid s db _ ?_ hfind
         try simp only []
         rw [subs_eq_of_lookup_eq _ _ _ _ _ _ (by assumption)])

theorem subs_eq_of_strategy_eq (sessions : List SessionLite) (pid : String)
    (applyUpdates : OrderRec → OrderRec) (context : Option StripeEventContext)
    (db : DB) (o : Option OrderRec) (db1 : DB)
    (heq : strategy4cLoop sessions pid applyUpdates context db = (o, db1)) :
    db1.subscriptions = db.subscriptions := by
  have h3 := congrArg (fun (p : Option OrderRec × DB) => p.2.subscriptions) heq
  simp only [] at h3
  rw [← h3]
  exact strategy4cLoop_subs _ _ _ _ db

theorem handleInvoicePaymentFailed_step_mono (now : ℤ) (eventId : String)
    (invoice : InvoiceObj) (db : DB) (sid : String) (s : SubscriptionRec)
    (hnd : subsIdsNodup db)
    (hfind : db.subscriptions.find? (fun x => x.id == sid) = Option.some s) :
    subsMonoAt sid s (handleInvoicePaymentFailed now eventId invoice db) := by
  unfold handleInvoicePaymentFailed
  simp only []
  split
  all_goals rename_i heq
  all_goals repeat split at heq
  all_goals (injection heq with h1 h2; try (injection h1))
  all_goals subst h2
  all_goals
    first
    | (refine subsMonoAt_of_subs_eq sid s db _ ?_ hfind
       try simp only []
       rw [subs_eq_of_lookup_eq _ _ _ _ _ _ (by assumption)])
    | (split
       · refine sync_step_mono _ _ _ sid s (by intro v hv; cases hv) ?_ ?_
         · refine subsIdsNodup_of_eq db _ ?_ hnd
           try simp only []
           rw [subs_eq_of_lookup_eq _ _ _ _ _ _ (by assumption)]
         · try simp only []
           rw [subs_eq_of_lookup_eq _ _ _ _ _ _ (by assumption)]
           exact hfind
       · refine subsMonoAt_of_subs_eq sid s db _ ?_ hfind
         try simp only []
         rw [subs_eq_of_lookup_eq _ _ _ _ _ _ (by assumption)])

theorem handlePaymentIntentPaymentFailed_step_mono (oracle : StripeOracle) (now : ℤ)
    (eventId : String) (paymentIntent : PaymentIntentObj) (db : DB) (sid : String)
    (s : SubscriptionRec)
    (hnd : subsIdsNodup db)
    (hfind : db.subscriptions.find? (fun x => x.id == sid) = Option.some s) :
    subsMonoAt sid s (handlePaymentIntentPaymentFailed oracle now eventId paymentIntent db) := by
  have hdone : ∀ (dbx : DB), dbx.subscriptions = db.subscriptions → subsMonoAt sid s dbx :=
    fun dbx hdb => subsMonoAt_of_subs_eq sid s db _ hdb hfind
  have hstep : ∀ (dbx : DB), dbx.subscriptions = db.subscriptions → ∀ (updated : OrderRec),
      subsMonoAt sid s (if (updated.orderType == OrderType.subscription) = true then
        (syncSubscriptionFromOrder updated
          { SubscriptionSyncOptions.empty with
            status := Option.some SubscriptionStatus.past_due
            stripeSubscriptionId := updated.stripeSubscriptionId } dbx).2
        else dbx) := by
    intro dbx hdb updated
    split
    · exact sync_step_mono _ _ _ sid s (by intro v hv; cases hv)
        (subsIdsNodup_of_eq db _ hdb hnd) (by rw [hdb]; exact hfind)
    · exact hdone dbx hdb
  unfold handlePaymentIntentPaymentFailed
  split
  · exact subsMonoAt_of_find? sid s db hfind
  · rename_i full heqfull
    simp only []
    cases hr1 : updateOrderByLookup
        { OrderLookup.empty with stripePaymentIntentId := Option.some full.id }
        (fun (o : OrderRec) =>
          { o with
            latestStripeEvent := Option.some "payment_intent.payment_failed"
            status := OrderStatus.cancelled
            paymentStatus := PaymentStatus.failed
            stripePaymentIntentId := Option.some full.id
            stripeCustomerId := full.customer })
        (Option.some ⟨eventId, "payment_intent.payment_failed", now⟩) db with
    | mk o1 db1 =>
    have hf1 : db1.subscriptions = db.subscriptions := subs_eq_of_lookup_eq _ _ _ _ _ _ hr1
    cases o1 with
    | some o =>
      simp only []
      exact hstep db1 hf1 o
    | none =>
      simp only []
      cases hms : full.metadataSessionId with
      | some msid =>
        simp only []
        cases hr2 : updateOrderByLookup
            { OrderLookup.empty with stripeSessionId := Option.some msid }
            (fun (o : OrderRec) =>
              { o with
                latestStripeEvent := Option.some "payment_intent.payment_failed"
                status := OrderStatus.cancelled
                paymentStatus := PaymentStatus.failed
                stripePaymentIntentId := Option.some full.id
                stripeCustomerId := full.customer })
            (Option.some ⟨eventId, "payment_intent.payment_failed", now⟩) db1 with
        | mk o2 db2 =>
        have hf2 : db2.subscriptions = db.subscriptions :=
          (subs_eq_of_lookup_eq _ _ _ _ _ _ hr2).trans hf1
        cases o2 with
        | some o =>
          simp only []
          exact hstep db2 hf2 o
        | none =>
          simp only []
          cases hmop : full.metadataOrderId with
          | some oidp =>
            simp only []
            cases hr3p : updateOrderByLookup
                { OrderLookup.empty with orderId := Option.some oidp }
                (fun (o : OrderRec) =>
                  { o with
                    latestStripeEvent := Option.some "payment_intent.payment_failed"
                    status := OrderStatus.cancelled
                    paymentStatus := PaymentStatus.failed
                    stripePaymentIntentId := Option.some full.id
                    stripeCustomerId := full.customer })
                (Option.some ⟨eventId, "payment_intent.payment_failed", now⟩) db2 with
            | mk o3p db3p =>
            have hf3p : (db3p).subscriptions = db.subscriptions :=
              (subs_eq_of_lookup_eq _ _ _ _ _ _ hr3p).trans hf2
            cases o3p with
            | some o =>
              simp only []
              exact hstep db3p hf3p o
            | none =>
              simp only []
              cases hinvpx : full.invoice with
              | some invoiceIdpx =>
                simp only []
                cases hripx : oracle.retrieveInvoice invoiceIdpx with
                | some invpx =>
                  simp only []
                  cases himopx : (invpx).metadataOrderId with
                  | some ioidpx =>
                    simp only []
                    cases hr35px : updateOrderByLookup
                        { OrderLookup.empty with orderId := Option.some ioidpx }
                        (fun (o : OrderRec) =>
                          { o with
                            latestStripeEvent := Option.some "payment_intent.payment_failed"
                            status := OrderStatus.cancelled
                            paymentStatus := PaymentStatus.failed
                            stripePaymentIntentId := Option.some full.id
                            stripeCustomerId := full.customer })
                        (Option.some ⟨eventId, "payment_intent.payment_failed", now⟩) db3p with
                    | mk o35px db35px =>
                    have hf35px : (db35px).subscriptions = db.subscriptions :=
                      (subs_eq_of_lookup_eq _ _ _ _ _ _ hr35px).trans hf3p
                    cases o35px with
                    | some o =>
                      simp only []
                      exact hstep db35px hf35px o
                    | none =>
                      simp only []
                      cases hcupxa : full.customer with
                      | none =>
                        simp only []
                        exact hdone db35px hf35px
                      | some customerIdpxa =>
                        simp only []
                        cases hscanpxa : scanPendingOrdersForPaymentIntent oracle full.id
                            (if ((db35px.orders.filter (fun (o : OrderRec) =>
                                o.stripeCustomerId == Option.some customerIdpxa &&
                                o.status == OrderStatus.pending &&
                                o.latestStripeEvent == Option.some "checkout.session.created" &&
                                o.stripeSessionId.isSome)).take 10).isEmpty then
                              ((db35px.orders.filter (fun (o : OrderRec) =>
                                o.status == OrderStatus.pending &&
                                o.latestStripeEvent == Option.some "checkout.session.created" &&
                                o.stripeSessionId.isSome &&
                                o.stripeCustomerId == Option.none)).take 20)
                            else
                              ((db35px.orders.filter (fun (o : OrderRec) =>
                                o.stripeCustomerId == Option.some customerIdpxa &&
                                o.status == OrderStatus.pending &&
                                o.latestStripeEvent == Option.some "checkout.session.created" &&
                                o.stripeSessionId.isSome)).take 10)) with
                        | some orderpxa =>
                          simp only []
                          exact hstep _ (by exact hf35px) _
                        | none =>
                          simp only []
                          split
                          next db5pxa heqstrpxa =>
                            exact hdone db5pxa ((subs_eq_of_strategy_eq _ _ _ _ _ _ _ heqstrpxa).trans hf35px)
                          next upxa db5pxa heqstrpxa =>
                            exact hstep db5pxa ((subs_eq_of_strategy_eq _ _ _ _ _ _ _ heqstrpxa).trans hf35px) upxa

                  | none =>
                    simp only []
                    cases hcupxb : full.customer with
                    | none =>
                      simp only []
                      exact hdone db3p hf3p
                    | some customerIdpxb =>
                      simp only []
                      cases hscanpxb : scanPendingOrdersForPaymentIntent oracle full.id
                          (if ((db3p.orders.filter (fun (o : OrderRec) =>
                              o.stripeCustomerId == Option.some customerIdpxb &&
                              o.status == OrderStatus.pending &&
                              o.latestStripeEvent == Option.some "checkout.session.created" &&
                              o.stripeSessionId.isSome)).take 10).isEmpty then
                            ((db3p.orders.filter (fun (o : OrderRec) =>
                              o.status == OrderStatus.pending &&
                              o.latestStripeEvent == Option.some "checkout.session.created" &&
                              o.stripeSessionId.isSome &&
                              o.stripeCustomerId == Option.none)).take 20)
                          else
                            ((db3p.orders.filter (fun (o : OrderRec) =>
                              o.stripeCustomerId == Option.some customerIdpxb &&
                              o.status == OrderStatus.pending &&
                              o.latestStripeEvent == Option.some "checkout.session.created" &&
                              o.stripeSessionId.isSome)).take 10)) with
                      | some orderpxb =>
                        simp only []
                        exact hstep _ (by exact hf3p) _
                      | none =>
                        simp only []
                        split
                        next db5pxb heqstrpxb =>
                          exact hdone db5pxb ((subs_eq_of_strategy_eq _ _ _ _ _ _ _ heqstrpxb).trans hf3p)
                        next upxb db5pxb heqstrpxb =>
                          exact hstep db5pxb ((subs_eq_of_strategy_eq _ _ _ _ _ _ _ heqstrpxb).trans hf3p) upxb

                | none =>
                  simp only []
                  cases hcupxc : full.customer with
                  | none =>
                    simp only []
                    exact hdone db3p hf3p
                  | some customerIdpxc =>
                    simp only []
                    cases hscanpxc : scanPendingOrdersForPaymentIntent oracle full.id
                        (if ((db3p.orders.filter (fun (o : OrderRec) =>
                            o.stripeCustomerId == Option.some customerIdpxc &&
                            o.status == OrderStatus.pending &&
                            o.latestStripeEvent == Option.some "checkout.session.created" &&
                            o.stripeSessionId.isSome)).take 10).isEmpty then
                          ((db3p.orders.filter (fun (o : OrderRec) =>
                            o.status == OrderStatus.pending &&
                            o.latestStripeEvent == Option.some "checkout.session.created" &&
                            o.stripeSessionId.isSome &&
                            o.stripeCustomerId == Option.none)).take 20)
                        else
                          ((db3p.orders.filter (fun (o : OrderRec) =>
                            o.stripeCustomerId == Option.some customerIdpxc &&
                            o.status == OrderStatus.pending &&
                            o.latestStripeEvent == Option.some "checkout.session.created" &&
                            o.stripeSessionId.isSome)).take 10)) with
                    | some orderpxc =>
                      simp only []
                      exact hstep _ (by exact hf3p) _
                    | none =>
                      simp only []
                      split
                      next db5pxc heqstrpxc =>
                        exact hdone db5pxc ((subs_eq_of_strategy_eq _ _ _ _ _ _ _ heqstrpxc).trans hf3p)
                      next upxc db5pxc heqstrpxc =>
                        exact hstep db5pxc ((subs_eq_of_strategy_eq _ _ _ _ _ _ _ heqstrpxc).trans hf3p) upxc

              | none =>
                simp only []
                cases hcupxd : full.customer with
                | none =>
                  simp only []
                  exact hdone db3p hf3p
                | some customerIdpxd =>
                  simp only []
                  cases hscanpxd : scanPendingOrdersForPaymentIntent oracle full.id
                      (if ((db3p.orders.filter (fun (o : OrderRec) =>
                          o.stripeCustomerId == Option.some customerIdpxd &&
                          o.status == OrderStatus.pending &&
                          o.latestStripeEvent == Option.some "checkout.session.created" &&
                          o.stripeSessionId.isSome)).take 10).isEmpty then
                        ((db3p.orders.filter (fun (o : OrderRec) =>
                          o.status == OrderStatus.pending &&
                          o.latestStripeEvent == Option.some "checkout.session.created" &&
                          o.stripeSessionId.isSome &&
                          o.stripeCustomerId == Option.none)).take 20)
                      else
                        ((db3p.orders.filter (fun (o : OrderRec) =>
                          o.stripeCustomerId == Option.some customerIdpxd &&
                          o.status == OrderStatus.pending &&
                          o.latestStripeEvent == Option.some "checkout.session.created" &&
                          o.stripeSessionId.isSome)).take 10)) with
                  | some orderpxd =>
                    simp only []
                    exact hstep _ (by exact hf3p) _
                  | none =>
                    simp only []
                    split
                    next db5pxd heqstrpxd =>
                      exact hdone db5pxd ((subs_eq_of_strategy_eq _ _ _ _ _ _ _ heqstrpxd).trans hf3p)
                    next upxd db5pxd heqstrpxd =>
                      exact hstep db5pxd ((subs_eq_of_strategy_eq _ _ _ _ _ _ _ heqstrpxd).trans hf3p) upxd

          | none =>
            simp only []
            cases hinvpy : full.invoice with
            | some invoiceIdpy =>
              simp only []
              cases hripy : oracle.retrieveInvoice invoiceIdpy with
              | some invpy =>
                simp only []
                cases himopy : (invpy).metadataOrderId with
                | some ioidpy =>
                  simp only []
                  cases hr35py : updateOrderByLookup
                      { OrderLookup.empty with orderId := Option.some ioidpy }
                      (fun (o : OrderRec) =>
                        { o with
                          latestStripeEvent := Option.some "payment_intent.payment_failed"
                          status := OrderStatus.cancelled
                          paymentStatus := PaymentStatus.failed
                          stripePaymentIntentId := Option.some full.id
                          stripeCustomerId := full.customer })
                      (Option.some ⟨eventId, "payment_intent.payment_failed", now⟩) db2 with
                  | mk o35py db35py =>
                  have hf35py : (db35py).subscriptions = db.subscriptions :=
                    (subs_eq_of_lookup_eq _ _ _ _ _ _ hr35py).trans hf2
                  cases o35py with
                  | some o =>
                    simp only []
                    exact hstep db35py hf35py o
                  | none =>
                    simp only []
                    cases hcupya : full.customer with
                    | none =>
                      simp only []
                      exact hdone db35py hf35py
                    | some customerIdpya =>
                      simp only []
                      cases hscanpya : scanPendingOrdersForPaymentIntent oracle full.id
                          (if ((db35py.orders.filter (fun (o : OrderRec) =>
                              o.stripeCustomerId == Option.some customerIdpya &&
                              o.status == OrderStatus.pending &&
                              o.latestStripeEvent == Option.some "checkout.session.created" &&
                              o.stripeSessionId.isSome)).take 10).isEmpty then
                            ((db35py.orders.filter (fun (o : OrderRec) =>
                              o.status == OrderStatus.pending &&
                              o.latestStripeEvent == Option.some "checkout.session.created" &&
                              o.stripeSessionId.isSome &&
                              o.stripeCustomerId == Option.none)).take 20)
                          else
                            ((db35py.orders.filter (fun (o : OrderRec) =>
                              o.stripeCustomerId == Option.some customerIdpya &&
                              o.status == OrderStatus.pending &&
                              o.latestStripeEvent == Option.some "checkout.session.created" &&
                              o.stripeSessionId.isSome)).take 10)) with
                      | some orderpya =>
                        simp only []
                        exact hstep _ (by exact hf35py) _
                      | none =>
                        simp only []
                        split
                        next db5pya heqstrpya =>
                          exact hdone db5pya ((subs_eq_of_strategy_eq _ _ _ _ _ _ _ heqstrpya).trans hf35py)
                        next upya db5pya heqstrpya =>
                          exact hstep db5pya ((subs_eq_of_strategy_eq _ _ _ _ _ _ _ heqstrpya).trans hf35py) upya

                | none =>
                  simp only []
                  cases hcupyb : full.customer with
                  | none =>
                    simp only []
                    exact hdone db2 hf2
                  | some customerIdpyb =>
                    simp only []
                    cases hscanpyb : scanPendingOrdersForPaymentIntent oracle full.id
                        (if ((db2.orders.filter (fun (o : OrderRec) =>
                            o.stripeCustomerId == Option.some customerIdpyb &&
                            o.status == OrderStatus.pending &&
                            o.latestStripeEvent == Option.some "checkout.session.created" &&
                            o.stripeSessionId.isSome)).take 10).isEmpty then
                          ((db2.orders.filter (fun (o : OrderRec) =>
                            o.status == OrderStatus.pending &&
                            o.latestStripeEvent == Option.some "checkout.session.created" &&
                            o.stripeSessionId.isSome &&
                            o.stripeCustomerId == Option.none)).take 20)
                        else
                          ((db2.orders.filter (fun (o : OrderRec) =>
                            o.stripeCustomerId == Option.some customerIdpyb &&
                            o.status == OrderStatus.pending &&
                            o.latestStripeEvent == Option.some "checkout.session.created" &&
                            o.stripeSessionId.isSome)).take 10)) with
                    | some orderpyb =>
                      simp only []
                      exact hstep _ (by exact hf2) _
                    | none =>
                      simp only []
                      split
                      next db5pyb heqstrpyb =>
                        exact hdone db5pyb ((subs_eq_of_strategy_eq _ _ _ _ _ _ _ heqstrpyb).trans hf2)
                      next upyb db5pyb heqstrpyb =>
                        exact hstep db5pyb ((subs_eq_of_strategy_eq _ _ _ _ _ _ _ heqstrpyb).trans hf2) upyb

              | none =>
                simp only []
                cases hcupyc : full.customer with
                | none =>
                  simp only []
                  exact hdone db2 hf2
                | some customerIdpyc =>
                  simp only []
                  cases hscanpyc : scanPendingOrdersForPaymentIntent oracle full.id
                      (if ((db2.orders.filter (fun (o : OrderRec) =>
                          o.stripeCustomerId == Option.some customerIdpyc &&
                          o.status == OrderStatus.pending &&
                          o.latestStripeEvent == Option.some "checkout.session.created" &&
                          o.stripeSessionId.isSome)).take 10).isEmpty then
                        ((db2.orders.filter (fun (o : OrderRec) =>
                          o.status == OrderStatus.pending &&
                          o.latestStripeEvent == Option.some "checkout.session.created" &&
                          o.stripeSessionId.isSome &&
                          o.stripeCustomerId == Option.none)).take 20)
                      else
                        ((db2.orders.filter (fun (o : OrderRec) =>
                          o.stripeCustomerId == Option.some customerIdpyc &&
                          o.status == OrderStatus.pending &&
                          o.latestStripeEvent == Option.some "checkout.session.created" &&
                          o.stripeSessionId.isSome)).take 10)) with
                  | some orderpyc =>
                    simp only []
                    exact hstep _ (by exact hf2) _
                  | none =>
                    simp only []
                    split
                    next db5pyc heqstrpyc =>
                      exact hdone db5pyc ((subs_eq_of_strategy_eq _ _ _ _ _ _ _ heqstrpyc).trans hf2)
                    next upyc db5pyc heqstrpyc =>
                      exact hstep db5pyc ((subs_eq_of_strategy_eq _ _ _ _ _ _ _ heqstrpyc).trans hf2) upyc

            | none =>
              simp only []
              cases hcupyd : full.customer with
              | none =>
                simp only []
                exact hdone db2 hf2
              | some customerIdpyd =>
                simp only []
                cases hscanpyd : scanPendingOrdersForPaymentIntent oracle full.id
                    (if ((db2.orders.filter (fun (o : OrderRec) =>
                        o.stripeCustomerId == Option.some customerIdpyd &&
                        o.status == OrderStatus.pending &&
                        o.latestStripeEvent == Option.some "checkout.session.created" &&
                        o.stripeSessionId.isSome)).take 10).isEmpty then
                      ((db2.orders.filter (fun (o : OrderRec) =>
                        o.status == OrderStatus.pending &&
                        o.latestStripeEvent == Option.some "checkout.session.created" &&
                        o.stripeSessionId.isSome &&
                        o.stripeCustomerId == Option.none)).take 20)
                    else
                      ((db2.orders.filter (fun (o : OrderRec) =>
                        o.stripeCustomerId == Option.some customerIdpyd &&
                        o.status == OrderStatus.pending &&
                        o.latestStripeEvent == Option.some "checkout.session.created" &&
                        o.stripeSessionId.isSome)).take 10)) with
                | some orderpyd =>
                  simp only []
                  exact hstep _ (by exact hf2) _
                | none =>
                  simp only []
                  split
                  next db5pyd heqstrpyd =>
                    exact hdone db5pyd ((subs_eq_of_strategy_eq _ _ _ _ _ _ _ heqstrpyd).trans hf2)
                  next upyd db5pyd heqstrpyd =>
                    exact hstep db5pyd ((subs_eq_of_strategy_eq _ _ _ _ _ _ _ heqstrpyd).trans hf2) upyd

      | none =>
        simp only []
        cases hmoq : full.metadataOrderId with
        | some oidq =>
          simp only []
          cases hr3q : updateOrderByLookup
              { OrderLookup.empty with orderId := Option.some oidq }
              (fun (o : OrderRec) =>
                { o with
                  latestStripeEvent := Option.some "payment_intent.payment_failed"
                  status := OrderStatus.cancelled
                  paymentStatus := PaymentStatus.failed
                  stripePaymentIntentId := Option.some full.id
                  stripeCustomerId := full.customer })
              (Option.some ⟨eventId, "payment_intent.payment_failed", now⟩) db1 with
          | mk o3q db3q =>
          have hf3q : (db3q).subscriptions = db.subscriptions :=
            (subs_eq_of_lookup_eq _ _ _ _ _ _ hr3q).trans hf1
          cases o3q with
          | some o =>
            simp only []
            exact hstep db3q hf3q o
          | none =>
            simp only []
            cases hinvqx : full.invoice with
            | some invoiceIdqx =>
              simp only []
              cases hriqx : oracle.retrieveInvoice invoiceIdqx with
              | some invqx =>
                simp only []
                cases himoqx : (invqx).metadataOrderId with
                | some ioidqx =>
                  simp only []
                  cases hr35qx : updateOrderByLookup
                      { OrderLookup.empty with orderId := Option.some ioidqx }
                      (fun (o : OrderRec) =>
                        { o with
                          latestStripeEvent := Option.some "payment_intent.payment_failed"
                          status := OrderStatus.cancelled
                          paymentStatus := PaymentStatus.failed
                          stripePaymentIntentId := Option.some full.id
                          stripeCustomerId := full.customer })
                      (Option.some ⟨eventId, "payment_intent.payment_failed", now⟩) db3q with
                  | mk o35qx db35qx =>
                  have hf35qx : (db35qx).subscriptions = db.subscriptions :=
                    (subs_eq_of_lookup_eq _ _ _ _ _ _ hr35qx).trans hf3q
                  cases o35qx with
                  | some o =>
                    simp only []
                    exact hstep db35qx hf35qx o
                  | none =>
                    simp only []
                    cases hcuqxa : full.customer with
                    | none =>
                      simp only []
                      exact hdone db35qx hf35qx
                    | some customerIdqxa =>
                      simp only []
                      cases hscanqxa : scanPendingOrdersForPaymentIntent oracle full.id
                          (if ((db35qx.orders.filter (fun (o : OrderRec) =>
                              o.stripeCustomerId == Option.some customerIdqxa &&
                              o.status == OrderStatus.pending &&
                              o.latestStripeEvent == Option.some "checkout.session.created" &&
                              o.stripeSessionId.isSome)).take 10).isEmpty then
                            ((db35qx.orders.filter (fun (o : OrderRec) =>
                              o.status == OrderStatus.pending &&
                              o.latestStripeEvent == Option.some "checkout.session.created" &&
                              o.stripeSessionId.isSome &&
                              o.stripeCustomerId == Option.none)).take 20)
                          else
                            ((db35qx.orders.filter (fun (o : OrderRec) =>
                              o.stripeCustomerId == Option.some customerIdqxa &&
                              o.status == OrderStatus.pending &&
                              o.latestStripeEvent == Option.some "checkout.session.created" &&
                              o.stripeSessionId.isSome)).take 10)) with
                      | some orderqxa =>
                        simp only []
                        exact hstep _ (by exact hf35qx) _
                      | none =>
                        simp only []
                        split
                        next db5qxa heqstrqxa =>
                          exact hdone db5qxa ((subs_eq_of_strategy_eq _ _ _ _ _ _ _ heqstrqxa).trans hf35qx)
                        next uqxa db5qxa heqstrqxa =>
                          exact hstep db5qxa ((subs_eq_of_strategy_eq _ _ _ _ _ _ _ heqstrqxa).trans hf35qx) uqxa

                | none =>
                  simp only []
                  cases hcuqxb : full.customer with
                  | none =>
                    simp only []
                    exact hdone db3q hf3q
                  | some customerIdqxb =>
                    simp only []
                    cases hscanqxb : scanPendingOrdersForPaymentIntent oracle full.id
                        (if ((db3q.orders.filter (fun (o : OrderRec) =>
                            o.stripeCustomerId == Option.some customerIdqxb &&
                            o.status == OrderStatus.pending &&
                            o.latestStripeEvent == Option.some "checkout.session.created" &&
                            o.stripeSessionId.isSome)).take 10).isEmpty then
                          ((db3q.orders.filter (fun (o : OrderRec) =>
                            o.status == OrderStatus.pending &&
                            o.latestStripeEvent == Option.some "checkout.session.created" &&
                            o.stripeSessionId.isSome &&
                            o.stripeCustomerId == Option.none)).take 20)
                        else
                          ((db3q.orders.filter (fun (o : OrderRec) =>
                            o.stripeCustomerId == Option.some customerIdqxb &&
                            o.status == OrderStatus.pending &&
                            o.latestStripeEvent == Option.some "checkout.session.created" &&
                            o.stripeSessionId.isSome)).take 10)) with
                    | some orderqxb =>
                      simp only []
                      exact hstep _ (by exact hf3q) _
                    | none =>
                      simp only []
                      split
                      next db5qxb heqstrqxb =>
                        exact hdone db5qxb ((subs_eq_of_strategy_eq _ _ _ _ _ _ _ heqstrqxb).trans hf3q)
                      next uqxb db5qxb heqstrqxb =>
                        exact hstep db5qxb ((subs_eq_of_strategy_eq _ _ _ _ _ _ _ heqstrqxb).trans hf3q) uqxb

              | none =>
                simp only []
                cases hcuqxc : full.customer with
                | none =>
                  simp only []
                  exact hdone db3q hf3q
                | some customerIdqxc =>
                  simp only []
                  cases hscanqxc : scanPendingOrdersForPaymentIntent oracle full.id
                      (if ((db3q.orders.filter (fun (o : OrderRec) =>
                          o.stripeCustomerId == Option.some customerIdqxc &&
                          o.status == OrderStatus.pending &&
                          o.latestStripeEvent == Option.some "checkout.session.created" &&
                          o.stripeSessionId.isSome)).take 10).isEmpty then
                        ((db3q.orders.filter (fun (o : OrderRec) =>
                          o.status == OrderStatus.pending &&
                          o.latestStripeEvent == Option.some "checkout.session.created" &&
                          o.stripeSessionId.isSome &&
                          o.stripeCustomerId == Option.none)).take 20)
                      else
                        ((db3q.orders.filter (fun (o : OrderRec) =>
                          o.stripeCustomerId == Option.some customerIdqxc &&
                          o.status == OrderStatus.pending &&
                          o.latestStripeEvent == Option.some "checkout.session.created" &&
                          o.stripeSessionId.isSome)).take 10)) with
                  | some orderqxc =>
                    simp only []
                    exact hstep _ (by exact hf3q) _
                  | none =>
                    simp only []
                    split
                    next db5qxc heqstrqxc =>
                      exact hdone db5qxc ((subs_eq_of_strategy_eq _ _ _ _ _ _ _ heqstrqxc).trans hf3q)
                    next uqxc db5qxc heqstrqxc =>
                      exact hstep db5qxc ((subs_eq_of_strategy_eq _ _ _ _ _ _ _ heqstrqxc).trans hf3q) uqxc

            | none =>
              simp only []
              cases hcuqxd : full.customer with
              | none =>
                simp only []
                exact hdone db3q hf3q
              | some customerIdqxd =>
                simp only []
                cases hscanqxd : scanPendingOrdersForPaymentIntent oracle full.id
                    (if ((db3q.orders.filter (fun (o : OrderRec) =>
                        o.stripeCustomerId == Option.some customerIdqxd &&
                        o.status == OrderStatus.pending &&
                        o.latestStripeEvent == Option.some "checkout.session.created" &&
                        o.stripeSessionId.isSome)).take 10).isEmpty then
                      ((db3q.orders.filter (fun (o : OrderRec) =>
                        o.status == OrderStatus.pending &&
                        o.latestStripeEvent == Option.some "checkout.session.created" &&
                        o.stripeSessionId.isSome &&
                        o.stripeCustomerId == Option.none)).take 20)
                    else
                      ((db3q.orders.filter (fun (o : OrderRec) =>
                        o.stripeCustomerId == Option.some customerIdqxd &&
                        o.status == OrderStatus.pending &&
                        o.latestStripeEvent == Option.some "checkout.session.created" &&
                        o.stripeSessionId.isSome)).take 10)) with
                | some orderqxd =>
                  simp only []
                  exact hstep _ (by exact hf3q) _
                | none =>
                  simp only []
                  split
                  next db5qxd heqstrqxd =>
                    exact hdone db5qxd ((subs_eq_of_strategy_eq _ _ _ _ _ _ _ heqstrqxd).trans hf3q)
                  next uqxd db5qxd heqstrqxd =>
                    exact hstep db5qxd ((subs_eq_of_strategy_eq _ _ _ _ _ _ _ heqstrqxd).trans hf3q) uqxd

        | none =>
          simp only []
          cases hinvqy : full.invoice with
          | some invoiceIdqy =>
            simp only []
            cases hriqy : oracle.retrieveInvoice invoiceIdqy with
            | some invqy =>
              simp only []
              cases himoqy : (invqy).metadataOrderId with
              | some ioidqy =>
                simp only []
                cases hr35qy : updateOrderByLookup
                    { OrderLookup.empty with orderId := Option.some ioidqy }
                    (fun (o : OrderRec) =>
                      { o with
                        latestStripeEvent := Option.some "payment_intent.payment_failed"
                        status := OrderStatus.cancelled
                        paymentStatus := PaymentStatus.failed
                        stripePaymentIntentId := Option.some full.id
                        stripeCustomerId := full.customer })
                    (Option.some ⟨eventId, "payment_intent.payment_failed", now⟩) db1 with
                | mk o35qy db35qy =>
                have hf35qy : (db35qy).subscriptions = db.subscriptions :=
                  (subs_eq_of_lookup_eq _ _ _ _ _ _ hr35qy).trans hf1
                cases o35qy with
                | some o =>
                  simp only []
                  exact hstep db35qy hf35qy o
                | none =>
                  simp only []
                  cases hcuqya : full.customer with
                  | none =>
                    simp only []
                    exact hdone db35qy hf35qy
                  | some customerIdqya =>
                    simp only []
                    cases hscanqya : scanPendingOrdersForPaymentIntent oracle full.id
                        (if ((db35qy.orders.filter (fun (o : OrderRec) =>
                            o.stripeCustomerId == Option.some customerIdqya &&
                            o.status == OrderStatus.pending &&
                            o.latestStripeEvent == Option.some "checkout.session.created" &&
                            o.stripeSessionId.isSome)).take 10).isEmpty then
                          ((db35qy.orders.filter (fun (o : OrderRec) =>
                            o.status == OrderStatus.pending &&
                            o.latestStripeEvent == Option.some "checkout.session.created" &&
                            o.stripeSessionId.isSome &&
                            o.stripeCustomerId == Option.none)).take 20)
                        else
                          ((db35qy.orders.filter (fun (o : OrderRec) =>
                            o.stripeCustomerId == Option.some customerIdqya &&
                            o.status == OrderStatus.pending &&
                            o.latestStripeEvent == Option.some "checkout.session.created" &&
                            o.stripeSessionId.isSome)).take 10)) with
                    | some orderqya =>
                      simp only []
                      exact hstep _ (by exact hf35qy) _
                    | none =>
                      simp only []
                      split
                      next db5qya heqstrqya =>
                        exact hdone db5qya ((subs_eq_of_strategy_eq _ _ _ _ _ _ _ heqstrqya).trans hf35qy)
                      next uqya db5qya heqstrqya =>
                        exact hstep db5qya ((subs_eq_of_strategy_eq _ _ _ _ _ _ _ heqstrqya).trans hf35qy) uqya

              | none =>
                simp only []
                cases hcuqyb : full.customer with
                | none =>
                  simp only []
                  exact hdone db1 hf1
                | some customerIdqyb =>
                  simp only []
                  cases hscanqyb : scanPendingOrdersForPaymentIntent oracle full.id
                      (if ((db1.orders.filter (fun (o : OrderRec) =>
                          o.stripeCustomerId == Option.some customerIdqyb &&
                          o.status == OrderStatus.pending &&
                          o.latestStripeEvent == Option.some "checkout.session.created" &&
                          o.stripeSessionId.isSome)).take 10).isEmpty then
                        ((db1.orders.filter (fun (o : OrderRec) =>
                          o.status == OrderStatus.pending &&
                          o.latestStripeEvent == Option.some "checkout.session.created" &&
                          o.stripeSessionId.isSome &&
                          o.stripeCustomerId == Option.none)).take 20)
                      else
                        ((db1.orders.filter (fun (o : OrderRec) =>
                          o.stripeCustomerId == Option.some customerIdqyb &&
                          o.status == OrderStatus.pending &&
                          o.latestStripeEvent == Option.some "checkout.session.created" &&
                          o.stripeSessionId.isSome)).take 10)) with
                  | some orderqyb =>
                    simp only []
                    exact hstep _ (by exact hf1) _
                  | none =>
                    simp only []
                    split
                    next db5qyb heqstrqyb =>
                      exact hdone db5qyb ((subs_eq_of_strategy_eq _ _ _ _ _ _ _ heqstrqyb).trans hf1)
                    next uqyb db5qyb heqstrqyb =>
                      exact hstep db5qyb ((subs_eq_of_strategy_eq _ _ _ _ _ _ _ heqstrqyb).trans hf1) uqyb

            | none =>
              simp only []
              cases hcuqyc : full.customer with
              | none =>
                simp only []
                exact hdone db1 hf1
              | some customerIdqyc =>
                simp only []
                cases hscanqyc : scanPendingOrdersForPaymentIntent oracle full.id
                    (if ((db1.orders.filter (fun (o : OrderRec) =>
                        o.stripeCustomerId == Option.some customerIdqyc &&
                        o.status == OrderStatus.pending &&
                        o.latestStripeEvent == Option.some "checkout.session.created" &&
                        o.stripeSessionId.isSome)).take 10).isEmpty then
                      ((db1.orders.filter (fun (o : OrderRec) =>
                        o.status == OrderStatus.pending &&
                        o.latestStripeEvent == Option.some "checkout.session.created" &&
                        o.stripeSessionId.isSome &&
                        o.stripeCustomerId == Option.none)).take 20)
                    else
                      ((db1.orders.filter (fun (o : OrderRec) =>
                        o.stripeCustomerId == Option.some customerIdqyc &&
                        o.status == OrderStatus.pending &&
                        o.latestStripeEvent == Option.some "checkout.session.created" &&
                        o.stripeSessionId.isSome)).take 10)) with
                | some orderqyc =>
                  simp only []
                  exact hstep _ (by exact hf1) _
                | none =>
                  simp only []
                  split
                  next db5qyc heqstrqyc =>
                    exact hdone db5qyc ((subs_eq_of_strategy_eq _ _ _ _ _ _ _ heqstrqyc).trans hf1)
                  next uqyc db5qyc heqstrqyc =>
                    exact hstep db5qyc ((subs_eq_of_strategy_eq _ _ _ _ _ _ _ heqstrqyc).trans hf1) uqyc

          | none =>
            simp only []
            cases hcuqyd : full.customer with
            | none =>
              simp only []
              exact hdone db1 hf1
            | some customerIdqyd =>
              simp only []
              cases hscanqyd : scanPendingOrdersForPaymentIntent oracle full.id
                  (if ((db1.orders.filter (fun (o : OrderRec) =>
                      o.stripeCustomerId == Option.some customerIdqyd &&
                      o.status == OrderStatus.pending &&
                      o.latestStripeEvent == Option.some "checkout.session.created" &&
                      o.stripeSessionId.isSome)).take 10).isEmpty then
                    ((db1.orders.filter (fun (o : OrderRec) =>
                      o.status == OrderStatus.pending &&
                      o.latestStripeEvent == Option.some "checkout.session.created" &&
                      o.stripeSessionId.isSome &&
                      o.stripeCustomerId == Option.none)).take 20)
                  else
                    ((db1.orders.filter (fun (o : OrderRec) =>
                      o.stripeCustomerId == Option.some customerIdqyd &&
                      o.status == OrderStatus.pending &&
                      o.latestStripeEvent == Option.some "checkout.session.created" &&
                      o.stripeSessionId.isSome)).take 10)) with
              | some orderqyd =>
                simp only []
                exact hstep _ (by exact hf1) _
              | none =>
                simp only []
                split
                next db5qyd heqstrqyd =>
                  exact hdone db5qyd ((subs_eq_of_strategy_eq _ _ _ _ _ _ _ heqstrqyd).trans hf1)
                next uqyd db5qyd heqstrqyd =>
                  exact hstep db5qyd ((subs_eq_of_strategy_eq _ _ _ _ _ _ _ heqstrqyd).trans hf1) uqyd


/-- Single-step form: any one operation with non-negative monetary input
either leaves a tracked subscription's accumulators non-decreasing or is a
withdrawal settlement that zeroes both in that same step. -/
theorem stepOp_mono (op : SysOp) (db : DB) (sid : String) (s : SubscriptionRec)
    (hnn : opNonNeg op = true)
    (hnd : subsIdsNodup db)
    (hfind : db.subscriptions.find? (fun x => x.id == sid) = Option.some s) :
    ∃ s', (stepOp op db).subscriptions.find? (fun x => x.id == sid) = Option.some s' ∧
      ((s.accumulatedValue ≤ s'.accumulatedValue ∧
        s.accumulatedWeight ≤ s'.accumulatedWeight) ∨
       (opIsWithdrawal op = true ∧ s'.accumulatedValue = 0 ∧ s'.accumulatedWeight = 0)) := by
  cases op with
  | stripe oracle now event =>
    have h : subsMonoAt sid s (processStripeEvent oracle now event db) := by
      cases event with
      | checkoutSessionCompleted eventId session =>
        exact handleCheckoutSessionCompleted_step_mono now eventId session db sid s hnd hfind
      | checkoutSessionAsyncPaymentFailed eventId session =>
        exact handleCheckoutSessionAsyncPaymentFailed_step_mono now eventId session db sid s
          hnd hfind
      | paymentIntentCreated eventId paymentIntent =>
        exact subsMonoAt_of_subs_eq sid s db _
          (handlePaymentIntentCreated_subs oracle now eventId paymentIntent db) hfind
      | paymentIntentPaymentFailed eventId paymentIntent =>
        exact handlePaymentIntentPaymentFailed_step_mono oracle now eventId paymentIntent db
          sid s hnd hfind
      | invoicePaymentSucceeded eventId invoice =>
        refine handleInvoicePaymentSucceeded_step_mono now eventId invoice db sid s ?_ hnd hfind
        intro a ha
        unfold opNonNeg at hnn
        simp only [] at hnn
        rw [ha] at hnn
        simp only [] at hnn
        exact of_decide_eq_true hnn
      | invoicePaymentFailed eventId invoice =>
        exact handleInvoicePaymentFailed_step_mono now eventId invoice db sid s hnd hfind
      | customerSubscriptionCreated eventId ssub =>
        exact handleSubscriptionLifecycle_step_mono eventId "customer.subscription.created" now
          ssub db sid s hnd hfind
      | customerSubscriptionUpdated eventId ssub =>
        exact handleSubscriptionLifecycle_step_mono eventId "customer.subscription.updated" now
          ssub db sid s hnd hfind
      | customerSubscriptionDeleted eventId ssub =>
        exact applySubEvent_step_mono ssub db sid s hnd hfind
      | otherEvent eventId typeName =>
        exact subsMonoAt_of_find? sid s db hfind
    obtain ⟨s', h1, h2, h3⟩ := h
    exact ⟨s', h1, Or.inl ⟨h2, h3⟩⟩
  | syncOrder order options =>
    have hnn2 : ∀ v, options.accumulatedValueDelta = Option.some v → 0 ≤ v := by
      intro v hv
      unfold opNonNeg at hnn
      simp only [] at hnn
      rw [hv] at hnn
      simp only [] at hnn
      exact of_decide_eq_true hnn
    obtain ⟨s', h1, h2, h3⟩ := sync_step_mono order options db sid s hnn2 hnd hfind
    exact ⟨s', h1, Or.inl ⟨h2, h3⟩⟩
  | withdrawal rid oc fault =>
    rcases processWithdrawalApproval_cases rid oc fault db with ⟨_, heq⟩ |
      ⟨hfault, wr, subId, sub, user, hwr, happ, hsid, hsub, hwz, hle, huser, heq⟩
    · refine ⟨s, ?_, Or.inl ⟨le_refl _, le_refl _⟩⟩
      show (processWithdrawalApproval rid oc fault db).2.subscriptions.find?
          (fun x => x.id == sid) = Option.some s
      rw [heq]
      exact hfind
    · have hsubs : (stepOp (SysOp.withdrawal rid oc fault) db).subscriptions
          = updateFirst (fun x => x.id == (settledSubscription sub).id)
              (fun _ => settledSubscription sub) db.subscriptions := by
        show (processWithdrawalApproval rid oc fault db).2.subscriptions = _
        rw [heq]
        rfl
      have hmem : sub ∈ db.subscriptions := List.mem_of_find?_eq_some hsub
      obtain ⟨s', hfind', hcases⟩ := updateFirst_find?_mono db.subscriptions sid s sub
        (settledSubscription sub) hnd hfind hmem rfl
      refine ⟨s', by rw [hsubs]; exact hfind', ?_⟩
      rcases hcases with h | ⟨hts, hst⟩
      · rw [h]
        exact Or.inl ⟨le_refl _, le_refl _⟩
      · rw [hst]
        exact Or.inr ⟨rfl, rfl, rfl⟩

/-- **C7 (amended).**  For every sequence of event-processor,
subscription-sync and withdrawal operations whose monetary inputs are
non-negative, starting from a state with pairwise-distinct subscription ids
along the whole run (the mongo `_id` invariant): a subscription's accumulated
value and accumulated weight never decrease — unless the sequence contains a
withdrawal approval, the only operation kind that can lower them, in which
case they end non-negative; the settlement step itself sets both to exactly
zero in its single atomic transition (the withdrawal case of `stepOp_mono`,
and C2).  The non-negativity hypothesis cannot be dropped: see the
counterexample. -/
theorem C7_accumulators_monotone (ops : List SysOp) (db : DB) (sid : String)
    (s : SubscriptionRec)
    (hnn : ∀ op ∈ ops, opNonNeg op = true)
    (hnd : nodupAlong ops db = true)
    (hfind : db.subscriptions.find? (fun x => x.id == sid) = Option.some s) :
    ∃ s', (stepOps ops db).subscriptions.find? (fun x => x.id == sid) = Option.some s' ∧
      ((s.accumulatedValue ≤ s'.accumulatedValue ∧
        s.accumulatedWeight ≤ s'.accumulatedWeight) ∨
       ((∃ op ∈ ops, opIsWithdrawal op = true) ∧
        0 ≤ s'.accumulatedValue ∧ 0 ≤ s'.accumulatedWeight)) := by
  induction ops generalizing db s with
  | nil => exact ⟨s, hfind, Or.inl ⟨le_refl _, le_refl _⟩⟩
  | cons op rest ih =>
    simp only [nodupAlong] at hnd
    obtain ⟨h1, h2⟩ := (Bool.and_eq_true _ _).mp hnd
    have hnd0 : subsIdsNodup db := by
      unfold subsIdsNodup
      exact of_decide_eq_true h1
    obtain ⟨s1, hfind1, hcase1⟩ := stepOp_mono op db sid s
      (hnn op (List.mem_cons_self op rest)) hnd0 hfind
    obtain ⟨s', hfind', hcase'⟩ := ih (stepOp op db) s1
      (fun o ho => hnn o (List.mem_cons_of_mem op ho)) h2 hfind1
    refine ⟨s', hfind', ?_⟩
    rcases hcase1 with ⟨hv1, hw1⟩ | ⟨hwd, hz1, hz2⟩
    · rcases hcase' with ⟨hv2, hw2⟩ | ⟨hex, hp1, hp2⟩
      · exact Or.inl ⟨le_trans hv1 hv2, le_trans hw1 hw2⟩
      · obtain ⟨o, ho, hw⟩ := hex
        exact Or.inr ⟨⟨o, List.mem_cons_of_mem op ho, hw⟩, hp1, hp2⟩
    · rcases hcase' with ⟨hv2, hw2⟩ | ⟨hex, hp1, hp2⟩
      · refine Or.inr ⟨⟨op, List.mem_cons_self op rest, hwd⟩, ?_, ?_⟩
        · rw [hz1] at hv2
          exact hv2
        · rw [hz2] at hw2
          exact hw2
      · exact Or.inr ⟨⟨op, List.mem_cons_self op rest, hwd⟩, hp1, hp2⟩

def orderC7 : OrderRec :=
  { id := "o7", user := Option.some "u7", subscriptionId := Option.some "s7",
    orderType := OrderType.subscription, amount := 100, amountInMinor := 10000,
    currency := "inr", status := OrderStatus.paid, paymentStatus := PaymentStatus.succeeded,
    invoiceStatus := InvoiceStatus.paid, productName := Option.none,
    productDescription := Option.none, billingEmail := Option.none,
    billingName := Option.none, stripeSessionId := Option.none,
    stripeCustomerId := Option.some "cus_7", stripeSubscriptionId := Option.some "sub_7",
    stripePaymentIntentId := Option.none, stripeInvoiceId := Option.some "in_7",
    receiptUrl := Option.none, latestStripeEvent := Option.some "invoice.payment_succeeded",
    latestStripeEventId := Option.some "evt_n7",
    latestStripeEventReceivedAt := Option.some 1,
    metadata := OrderMetadata.empty,
    subscriptionConfig := Option.some
      { planName := Option.some "Plan N", metal := Option.some Metal.gold,
        targetWeight := Option.some 10, targetUnit := Option.some UnitType.g,
        monthlyInvestment := Option.some 100, quantity := Option.some 1,
        targetPrice := Option.some 0, interval := Option.none, intervalCount := Option.none },
    createdAt := 0 }

def subC7 : SubscriptionRec :=
  { id := "s7", userId := "u7", metal := Metal.gold, planName := "Plan N", targetWeight := 10,
    targetUnit := UnitType.g, monthlyInvestment := 100, quantity := 1, accumulatedValue := 300,
    accumulatedWeight := 2, status := SubscriptionStatus.active, stripeCustomerId := "cus_7",
    stripeSubscriptionId := Option.some "sub_7", targetPrice := 0,
    currentPeriodEnd := Option.none }

def invC7 : InvoiceObj :=
  { id := "in_7", status := Option.some InvoiceStatus.paid, metadataOrderId := Option.none,
    subscription := Option.some "sub_7", customer := Option.some "cus_7",
    payment_intent := Option.none, hosted_invoice_url := Option.none,
    invoice_pdf := Option.none, amount_paid := Option.some (-10000),
    amount_due := Option.some (-10000), currency := Option.some "inr",
    customer_email := Option.none, period_end := Option.none }

def dbC7 : DB :=
  { orders := [orderC7], subscriptions := [subC7], users := [], withdrawalRequests := [],
    goldPrice := Option.none, silverPrice := Option.none, alerts := [], nextId := 0 }

/-- **C7, counterexample to the unconditional claim.**  A single
`invoice.payment_succeeded` event whose `amount_paid` is negative (-10000
minor units) is not a withdrawal settlement, yet it lowers the subscription's
accumulated value from 300 to 200 while leaving the weight at 2: the sync
guards the weight delta against negatives but applies any nonzero value
delta, and since the result 200 still satisfies the schema's `min: 0`
validators the decreased document is persisted — refuting \"accumulators
never decrease except for a withdrawal settlement, which zeroes both\". -/
theorem C7_counterexample :
    dbC7.subscriptions.map (fun x => (x.accumulatedValue, x.accumulatedWeight)) = [(300, 2)] ∧
    (stepOps [SysOp.stripe StripeOracle.empty 5
        (StripeEvent.invoicePaymentSucceeded "evt_n7" invC7)] dbC7).subscriptions.map
      (fun x => (x.accumulatedValue, x.accumulatedWeight)) = [(200, 2)] ∧
    (∀ op ∈ [SysOp.stripe StripeOracle.empty 5
        (StripeEvent.invoicePaymentSucceeded "evt_n7" invC7)], opIsWithdrawal op = false) := by
  refine ⟨by decide, ?_, by decide⟩
  norm_num [stepOps, stepOp, processStripeEvent, handleInvoicePaymentSucceeded,
    updateOrderByLookup, buildFilters, updateOrderByLookupGo, matchesFilter, isValidObjectId,
    syncSubscriptionFromOrder, findTargetSubscription, buildConfigFromOrder,
    toPositiveNumber, toNonNegativeNumber, coerceMetal, coerceUnit,
    computeWeightDelta, getMetalPricePerUnit, priceRecord, saveSubscription,
    updateFirst, dbC7, orderC7, subC7, invC7, OrderLookup.empty,
    SubscriptionConfig.empty, List.find?]

def subW7 : SubscriptionRec :=
  { id := "sW", userId := "uW", metal := Metal.gold, planName := "PW", targetWeight := 10,
    targetUnit := UnitType.g, monthlyInvestment := 100, quantity := 1, accumulatedValue := 50,
    accumulatedWeight := 3, status := SubscriptionStatus.active, stripeCustomerId := "cusW",
    stripeSubscriptionId := Option.none, targetPrice := 0,
    currentPeriodEnd := Option.none }

def wrW7 : WithdrawalRequestRec :=
  { id := "wrW", userId := "uW", subscriptionId := Option.some "sW", metal := Metal.gold,
    requestedWeight := 2, requestedUnit := UnitType.g, estimatedValue := Option.none,
    status := WithdrawalStatus.approved, notes := Option.none }

def userW7 : UserRec :=
  { id := "uW", withdrawnGold := Option.none, withdrawnSilver := Option.none }

def dbW7 : DB :=
  { orders := [], subscriptions := [subW7], users := [userW7],
    withdrawalRequests := [wrW7],
    goldPrice := Option.none, silverPrice := Option.none, alerts := [], nextId := 0 }

def opsW7 : List SysOp :=
  [SysOp.stripe StripeOracle.empty 0 (StripeEvent.otherEvent "evt_w7" "invoice.finalized"),
   SysOp.withdrawal "wrW" StripeCancelOutcome.verifiedCanceled false]


/-- Witness: a harmless Stripe event followed by a successful withdrawal
settlement on a concrete store; all hypotheses evaluate and the conclusion is
the theorem applied to them. -/
theorem C7_accumulators_monotone_witness :
    (∀ op ∈ opsW7, opNonNeg op = true) ∧
    nodupAlong opsW7 dbW7 = true ∧
    ∃ s', (stepOps opsW7 dbW7).subscriptions.find? (fun x => x.id == "sW")
        = Option.some s' ∧
      ((subW7.accumulatedValue ≤ s'.accumulatedValue ∧
        subW7.accumulatedWeight ≤ s'.accumulatedWeight) ∨
       ((∃ op ∈ opsW7, opIsWithdrawal op = true) ∧
        0 ≤ s'.accumulatedValue ∧ 0 ≤ s'.accumulatedWeight)) :=
  ⟨by decide, by decide,
    C7_accumulators_monotone opsW7 dbW7 "sW" subW7 (by decide) (by decide) (by decide)⟩

